import Mathlib

/-!
# Verification of the algorithmic-trading-sim core

A shallow embedding of the repository's core (`trading/core/`): the order
record, the per-symbol order book (a Python-`heapq` binary heap with lazy
tombstone deletion), trader accounting, and the matching engine with its
contingent-order machinery.  Prices and quantities are embedded as exact
rationals (the source uses IEEE floats; every scenario in the spec uses
dyadic-exact values, and comparisons are faithful).  The float value
`float("inf")` used as the bid-side fallback is embedded by the extended
rational type `XRat`.

Python object aliasing (several collections holding references to the same
mutable `Order` object) is embedded by an engine-global `object_store`
keyed by order id: every mutation of an order goes through the store, and
every collection holds ids resolved through the store.  Exceptions are
embedded by threading `Option EngineErr`: a raised error keeps all
mutations performed so far (as in Python) and aborts the remaining work of
the call.  Recursion between `submit_order`, `match_orders` and the
contingent activators is re-entrant in the source; it is embedded as one
fuel-indexed interpreter `run` over a defunctionalized `Call` type, with
fuel exhaustion reported as an error so that error-free runs coincide with
the Python execution.
-/

set_option allowUnsafeReducibility true
attribute [semireducible] Rat.add Rat.mul Rat.sub Rat.div Rat.neg Rat.inv

namespace TradingSim

/-- `OrderSide` from `trading/core/enums.py`. -/
inductive OrderSide where
  | BUY
  | SELL
deriving DecidableEq, Repr

/-- `OrderType` from `trading/core/enums.py`. -/
inductive OrderType where
  | MARKET
  | LIMIT
  | STOP_LOSS
  | STOP_LIMIT
  | TRAILING_STOP
  | ICEBERG
deriving DecidableEq, Repr

/-- `TimeInForce` from `trading/core/enums.py`. -/
inductive TimeInForce where
  | GTC
  | IOC
deriving DecidableEq, Repr

/-- Extended rationals embedding the IEEE float values `-inf`, finite, `+inf`
used by the source for effective prices (`float("inf")` bid fallback). -/
inductive XRat where
  | ninf
  | fin (q : ℚ)
  | pinf
deriving DecidableEq, Repr

/-- Strict order on `XRat`, matching IEEE float comparison on `±inf`. -/
def XRat.lt : XRat → XRat → Bool
  | .ninf, .ninf => false
  | .ninf, _ => true
  | .fin _, .ninf => false
  | .fin a, .fin b => a < b
  | .fin _, .pinf => true
  | .pinf, _ => false

/-- `Order` from `trading/core/order.py` (construct-time validation is not
replayed here; theorems state the validated field constraints they need as
hypotheses).  `timestamp` is a logical clock value (the source uses UTC
wall-clock instants; only their relative order is observable). -/
structure Order where
  id : String
  type : OrderType
  side : OrderSide
  price : Option ℚ
  quantity : ℚ
  timestamp : ℕ
  symbol : Option String := none
  trader_id : Option String := none
  tif : TimeInForce := .GTC
  aux_price : Option ℚ := none
  trailing_offset : Option ℚ := none
  display_quantity : Option ℚ := none
deriving DecidableEq, Repr

/-- Heap key `(price_key, timestamp, seq, order_id)` as pushed by
`OrderBook.add_order`; compared like the Python tuple (lexicographic,
strings by code point). -/
structure HeapKey where
  pricekey : XRat
  ts : ℕ
  seq : ℕ
  oid : String
deriving DecidableEq, Repr

/-- Python tuple `<` on heap keys: lexicographic. -/
def HeapKey.lt (a b : HeapKey) : Bool :=
  if XRat.lt a.pricekey b.pricekey then true
  else if a.pricekey ≠ b.pricekey then false
  else if a.ts < b.ts then true
  else if a.ts ≠ b.ts then false
  else if a.seq < b.seq then true
  else if a.seq ≠ b.seq then false
  else a.oid < b.oid

/-- A default heap key (used for total list indexing; never read on
in-range indices). -/
def HeapKey.dflt : HeapKey := ⟨.fin 0, 0, 0, ""⟩

/-- `heapq._siftdown(heap, startpos, pos)` with `newitem = heap[pos]`
held in the accumulator, ported statement-for-statement from CPython.
`pos` strictly decreases towards `startpos`, so `pos` units of fuel
always suffice (the fuel-out branch performs the terminal store and is
unreachable from `siftdown`). -/
def siftdownGo (startpos : ℕ) : ℕ → List HeapKey → ℕ → HeapKey → List HeapKey
  | 0, heap, pos, newitem => heap.set pos newitem
  | fuel + 1, heap, pos, newitem =>
    if startpos < pos then
      let parentpos := (pos - 1) / 2
      let parent := heap.getD parentpos .dflt
      if newitem.lt parent then
        siftdownGo startpos fuel (heap.set pos parent) parentpos newitem
      else
        heap.set pos newitem
    else
      heap.set pos newitem

/-- `heapq._siftdown`. -/
def siftdown (heap : List HeapKey) (startpos pos : ℕ) (newitem : HeapKey) : List HeapKey :=
  siftdownGo startpos pos heap pos newitem

/-- `heapq._siftup(heap, pos)` while-loop, ported from CPython: walk the
smaller child up until a leaf, then `_siftdown` the saved item.  The
child index strictly increases, so `heap.length` units of fuel always
suffice. -/
def siftupGo (startpos : ℕ) : ℕ → List HeapKey → ℕ → HeapKey → List HeapKey
  | 0, heap, pos, newitem => siftdown (heap.set pos newitem) startpos pos newitem
  | fuel + 1, heap, pos, newitem =>
    let endpos := heap.length
    let childpos := 2 * pos + 1
    if childpos < endpos then
      let rightpos := childpos + 1
      let childpos :=
        if rightpos < endpos ∧ ¬ (heap.getD childpos .dflt).lt (heap.getD rightpos .dflt) then
          rightpos
        else childpos
      siftupGo startpos fuel (heap.set pos (heap.getD childpos .dflt)) childpos newitem
    else
      siftdown (heap.set pos newitem) startpos pos newitem

/-- `heapq._siftup`. -/
def siftup (heap : List HeapKey) (startpos pos : ℕ) (newitem : HeapKey) : List HeapKey :=
  siftupGo startpos heap.length heap pos newitem

/-- `heapq.heappush`. -/
def heappush (heap : List HeapKey) (item : HeapKey) : List HeapKey :=
  siftdown (heap ++ [item]) 0 heap.length item

/-- `heapq.heappop`: returns the smallest item and the remaining heap
(`none` on an empty heap, where CPython raises `IndexError`; the source
only pops non-empty heaps). -/
def heappop (heap : List HeapKey) : Option HeapKey × List HeapKey :=
  match heap with
  | [] => (none, [])
  | _ :: _ =>
    let lastelt := heap.getD (heap.length - 1) .dflt
    let rest := heap.take (heap.length - 1)
    match rest with
    | [] => (some lastelt, [])
    | ret :: _ => (some ret, siftup (rest.set 0 lastelt) 0 0 lastelt)

/-- Association-list lookup: first binding wins (Python `dict` has unique
keys, so this is exact). -/
def alookup {α : Type} (m : List (String × α)) (k : String) : Option α :=
  match m with
  | [] => none
  | (k', v) :: rest => if k' = k then some v else alookup rest k

/-- Python `d[k] = v`: replace in place when the key exists (dicts keep the
original insertion position), else append. -/
def aset {α : Type} (m : List (String × α)) (k : String) (v : α) : List (String × α) :=
  match m with
  | [] => [(k, v)]
  | (k', v') :: rest => if k' = k then (k', v) :: rest else (k', v') :: aset rest k v

/-- Python `d.pop(k, None)`: drop the binding when present. -/
def aerase {α : Type} (m : List (String × α)) (k : String) : List (String × α) :=
  match m with
  | [] => []
  | (k', v') :: rest => if k' = k then rest else (k', v') :: aerase rest k

/-- `Trader` from `trading/core/trader.py`.  `order_history` holds order
ids resolved through the engine's object store (the source appends object
references). -/
structure Trader where
  trader_id : String
  balance : ℚ := 0
  positions : List (String × ℚ) := []
  _avg_price : List (String × ℚ) := []
  _realized_by_symbol : List (String × ℚ) := []
  order_history : List String := []
  max_exposure_per_symbol : Option ℚ := none
  max_order_notional : Option ℚ := none
  risk_per_trade_fraction : Option ℚ := none
  daily_loss_limit : Option ℚ := none
  _realized_pnl : ℚ := 0
  _unrealized_prices : List (String × ℚ) := []
deriving DecidableEq, Repr

namespace Trader

/-- `Trader.record_order` (history holds the order's id). -/
def record_order (t : Trader) (oid : String) : Trader :=
  { t with order_history := t.order_history ++ [oid] }

/-- `Trader.update_position`. -/
def update_position (t : Trader) (symbol : String) (delta_quantity : ℚ) : Trader :=
  let current := (alookup t.positions symbol).getD 0
  let new_qty := current + delta_quantity
  if |new_qty| < 1 / 10 ^ 12 then
    { t with positions := aerase t.positions symbol,
             _avg_price := aerase t._avg_price symbol }
  else
    { t with positions := aset t.positions symbol new_qty }

/-- `Trader.mark_price`. -/
def mark_price (t : Trader) (symbol : String) (price : ℚ) : Trader :=
  if price ≤ 0 then t
  else { t with _unrealized_prices := aset t._unrealized_prices symbol price }

/-- `Trader.unrealized_pnl`. -/
def unrealized_pnl (t : Trader) : ℚ :=
  t.positions.foldl
    (fun (pnl : ℚ) (sq : String × ℚ) =>
      match alookup t._unrealized_prices sq.1 with
      | none => pnl
      | some price =>
        let avg := (alookup t._avg_price sq.1).getD 0
        if sq.2 > 0 then pnl + (price - avg) * sq.2
        else if sq.2 < 0 then pnl + (avg - price) * (-sq.2)
        else pnl)
    0

/-- `Trader.total_equity`. -/
def total_equity (t : Trader) : ℚ :=
  t.balance + t._realized_pnl + t.unrealized_pnl

/-- `Trader.apply_fill`, ported branch-for-branch. -/
def apply_fill (t : Trader) (symbol : String) (side : OrderSide) (price quantity fee_paid : ℚ) :
    Trader :=
  if quantity ≤ 0 then t
  else
    let notional := price * quantity
    let t :=
      if side = .BUY then
        { t with balance := t.balance - notional - fee_paid }
      else
        { t with balance := t.balance + notional - fee_paid }
    let current_qty := (alookup t.positions symbol).getD 0
    let avg := (alookup t._avg_price symbol).getD price
    if side = .BUY then
      if current_qty ≥ 0 then
        let new_qty := current_qty + quantity
        let new_avg := if new_qty ≠ 0 then (avg * current_qty + notional) / new_qty else 0
        { t with positions := aset t.positions symbol new_qty,
                 _avg_price := aset t._avg_price symbol new_avg }
      else
        let cover_qty := min quantity (-current_qty)
        let realized := (avg - price) * cover_qty
        let t := { t with
          _realized_pnl := t._realized_pnl + realized,
          _realized_by_symbol :=
            aset t._realized_by_symbol symbol
              ((alookup t._realized_by_symbol symbol).getD 0 + realized) }
        let new_qty := current_qty + quantity
        if new_qty < 0 then
          { t with positions := aset t.positions symbol new_qty }
        else if new_qty > 0 then
          { t with positions := aset t.positions symbol new_qty,
                   _avg_price := aset t._avg_price symbol price }
        else
          { t with positions := aerase t.positions symbol,
                   _avg_price := aerase t._avg_price symbol }
    else
      if current_qty ≤ 0 then
        let new_qty := current_qty - quantity
        let short_size_before := -current_qty
        let short_size_after := -new_qty
        let new_avg :=
          if short_size_after ≠ 0 then (avg * short_size_before + notional) / short_size_after
          else 0
        { t with positions := aset t.positions symbol new_qty,
                 _avg_price := aset t._avg_price symbol new_avg }
      else
        let sell_qty := min quantity current_qty
        let realized := (price - avg) * sell_qty
        let t := { t with
          _realized_pnl := t._realized_pnl + realized,
          _realized_by_symbol :=
            aset t._realized_by_symbol symbol
              ((alookup t._realized_by_symbol symbol).getD 0 + realized) }
        let new_qty := current_qty - quantity
        if new_qty > 0 then
          { t with positions := aset t.positions symbol new_qty }
        else if new_qty < 0 then
          { t with positions := aset t.positions symbol new_qty,
                   _avg_price := aset t._avg_price symbol price }
        else
          { t with positions := aerase t.positions symbol,
                   _avg_price := aerase t._avg_price symbol }

end Trader

/-- Error taxonomy: the `ValueError`s raised by the engine and book, plus
`fuelOut` marking exhaustion of the recursion fuel (never raised by the
source; theorems about terminating executions hypothesize its absence). -/
inductive EngineErr where
  | unknownSymbol
  | symbolMismatch
  | notRoutable
  | maxNotional
  | riskFraction
  | insufficientBalance
  | maxExposure
  | unknownTrader
  | fuelOut
deriving DecidableEq, Repr

/-- `OrderBook` from `trading/core/order_book.py`.  `_orders_by_id` keeps
the dict's key set; the `Order` values live in the engine's `object_store`
(Python aliasing: the same mutable object is referenced from the book, the
matching loops and the trade application). -/
structure OrderBook where
  symbol : String
  _orders_by_id : List String := []
  _bid_heap : List HeapKey := []
  _ask_heap : List HeapKey := []
  _removed_ids : List String := []
  _seq_counter : ℕ := 0
deriving DecidableEq, Repr

/-- The engine-global store modelling Python object identity for orders. -/
abbrev ObjectStore := List (String × Order)

namespace OrderBook

/-- `OrderBook.add_order`: symbol and routability checks, then push the
price-time-seq key onto the side's heap. -/
def add_order (store : ObjectStore) (b : OrderBook) (o : Order) :
    Except EngineErr (ObjectStore × OrderBook) :=
  if o.symbol ≠ none ∧ o.symbol ≠ some b.symbol then
    .error .symbolMismatch
  else if o.type = .STOP_LOSS ∨ o.type = .STOP_LIMIT ∨ o.type = .TRAILING_STOP ∨
      o.type = .ICEBERG then
    .error .notRoutable
  else
    let store := aset store o.id o
    let members := if b._orders_by_id.contains o.id then b._orders_by_id
                   else b._orders_by_id ++ [o.id]
    let seq := b._seq_counter + 1
    if o.side = .BUY then
      let effective_price : XRat := match o.price with
        | none => .ninf        -- key is the negated effective price: -inf for MARKET
        | some p => .fin (-p)
      let key : HeapKey := ⟨effective_price, o.timestamp, seq, o.id⟩
      .ok (store, { b with _orders_by_id := members, _seq_counter := seq,
                           _bid_heap := heappush b._bid_heap key })
    else
      let effective_price : XRat := match o.price with
        | none => .fin 0
        | some p => .fin p
      let key : HeapKey := ⟨effective_price, o.timestamp, seq, o.id⟩
      .ok (store, { b with _orders_by_id := members, _seq_counter := seq,
                           _ask_heap := heappush b._ask_heap key })

/-- `OrderBook.remove_order` without the `order_removed` notification (the
engine-level wrapper runs the subscribed handler). -/
def remove_order (store : ObjectStore) (b : OrderBook) (order_id : String) :
    Option Order × OrderBook :=
  if b._orders_by_id.contains order_id then
    (alookup store order_id,
     { b with _orders_by_id := b._orders_by_id.erase order_id,
              _removed_ids := b._removed_ids ++ [order_id] })
  else
    (none, b)

/-- `OrderBook.get_order`. -/
def get_order (store : ObjectStore) (b : OrderBook) (order_id : String) : Option Order :=
  if b._orders_by_id.contains order_id then alookup store order_id else none

/-- Liveness of a heap entry as tested by `_clean_top`: present in the id
map, not tombstoned, and with positive residual quantity. -/
def entry_dead (store : ObjectStore) (members removed : List String) (oid : String) : Bool :=
  match (if members.contains oid then alookup store oid else none) with
  | none => true
  | some o => removed.contains oid || o.quantity ≤ 0

/-- `OrderBook._clean_top` loop: pop dead entries off the front, marking
each popped id as removed.  One unit of fuel per pop; `heappop` shrinks
the heap, so `heap.length` fuel always suffices. -/
def clean_top_loop (store : ObjectStore) (members : List String) :
    ℕ → List String → List HeapKey → List String × List HeapKey
  | 0, removed, heap => (removed, heap)
  | _ + 1, removed, [] => (removed, [])
  | n + 1, removed, top :: rest =>
    if entry_dead store members removed top.oid then
      let popped := (heappop (top :: rest)).2
      clean_top_loop store members n (removed ++ [top.oid]) popped
    else
      (removed, top :: rest)

/-- `OrderBook._clean_top`. -/
def clean_top (store : ObjectStore) (members removed : List String) (heap : List HeapKey) :
    List String × List HeapKey :=
  clean_top_loop store members heap.length removed heap

/-- `OrderBook.best_bid`: clean, then return the order at the surviving
front (threading the mutated tombstone state). -/
def best_bid (store : ObjectStore) (b : OrderBook) : OrderBook × Option Order :=
  let cleaned := clean_top store b._orders_by_id b._removed_ids b._bid_heap
  let b := { b with _removed_ids := cleaned.1, _bid_heap := cleaned.2 }
  match b._bid_heap with
  | [] => (b, none)
  | top :: _ => (b, get_order store b top.oid)

/-- `OrderBook.best_ask`. -/
def best_ask (store : ObjectStore) (b : OrderBook) : OrderBook × Option Order :=
  let cleaned := clean_top store b._orders_by_id b._removed_ids b._ask_heap
  let b := { b with _removed_ids := cleaned.1, _ask_heap := cleaned.2 }
  match b._ask_heap with
  | [] => (b, none)
  | top :: _ => (b, get_order store b top.oid)

end OrderBook

/-- `Trade` from `trading/core/matching_engine.py`. -/
structure Trade where
  buy_order_id : String
  sell_order_id : String
  price : ℚ
  quantity : ℚ
  timestamp : ℕ
deriving DecidableEq, Repr

/-- The engine's matching strategy string, `"FIFO"` or `"PRO_RATA"`. -/
inductive Strategy where
  | FIFO
  | PRO_RATA
deriving DecidableEq, Repr

/-- `MatchingEngine` state.  `clock` is the logical wall clock backing
`datetime.now` (trade timestamps, iceberg child ids); `submit_log` is a
ghost field recording every argument ever passed to `submit_order`, used
to state re-submission properties (it influences nothing). -/
structure MatchingEngine where
  default_symbol : String
  object_store : ObjectStore := []
  order_books : List (String × OrderBook)
  trades : List Trade := []
  traders : List (String × Trader) := []
  last_trade_price : Option ℚ := none
  last_trade_price_by_symbol : List (String × ℚ) := []
  maker_fee : ℚ := 1 / 1000
  taker_fee : ℚ := 2 / 1000
  matching_strategy : Strategy := .FIFO
  _stop_orders : List Order := []
  _stop_limit_orders : List Order := []
  _trailing_orders : List Order := []
  _iceberg_parents : List (String × Order) := []
  _iceberg_remaining : List (String × ℚ) := []
  _iceberg_child_to_parent : List (String × String) := []
  clock : ℕ := 0
  submit_log : List Order := []
deriving DecidableEq, Repr

namespace MatchingEngine

/-- `MatchingEngine._get_book` key resolution: the order's symbol or the
default book's symbol; `none` result embeds the `Unknown symbol`
`ValueError`. -/
def book_key (e : MatchingEngine) (symbol : Option String) : String :=
  symbol.getD e.default_symbol

/-- Fetch the book registered under `symbol` (or the default). -/
def get_book (e : MatchingEngine) (symbol : Option String) : Option OrderBook :=
  alookup e.order_books (e.book_key symbol)

/-- Write back a book under its symbol. -/
def set_book (e : MatchingEngine) (sym : String) (b : OrderBook) : MatchingEngine :=
  { e with order_books := aset e.order_books sym b }

/-- `MatchingEngine.register_trader`. -/
def register_trader (e : MatchingEngine) (t : Trader) : MatchingEngine :=
  { e with traders := aset e.traders t.trader_id t }

/-- `MatchingEngine._estimate_notional`.  The best-of-side fallback reads
`self.order_book` — the **default** book, whatever the order's symbol —
and its lazy cleanup mutates that book, so the engine is threaded. -/
def _estimate_notional (e : MatchingEngine) (o : Order) : MatchingEngine × Option ℚ :=
  if o.type = .MARKET then
    match e.last_trade_price with
    | some ref => (e, some (ref * o.quantity))
    | none =>
      match alookup e.order_books e.default_symbol with
      | none => (e, none)
      | some b =>
        let res := if o.side = .BUY then OrderBook.best_ask e.object_store b
                   else OrderBook.best_bid e.object_store b
        let e := e.set_book e.default_symbol res.1
        match res.2 with
        | some best =>
          match best.price with
          | some p => (e, some (p * o.quantity))
          | none => (e, none)
        | none => (e, none)
  else
    match o.price with
    | none => (e, none)
    | some p => (e, some (p * o.quantity))

/-- The four sequential admission checks of `_enforce_risk` (pure in the
engine: they read only the trader, the order and the estimated notional),
each raising its own error; notional-dependent checks are skipped when the
notional is unknown. -/
def risk_verdict (t : Trader) (o : Order) (notional : Option ℚ) : Option EngineErr :=
  let bad_notional : Bool :=
    match t.max_order_notional, notional with
    | some m, some n => n > m
    | _, _ => false
  if bad_notional then some .maxNotional
  else
    let bad_fraction : Bool :=
      match t.risk_per_trade_fraction, notional with
      | some f, some n => n > t.total_equity * f
      | _, _ => false
    if bad_fraction then some .riskFraction
    else
      let bad_balance : Bool :=
        match notional with
        | some n => o.side == OrderSide.BUY && t.balance < n
        | none => false
      if bad_balance then some .insufficientBalance
      else
        let bad_exposure : Bool :=
          match t.max_exposure_per_symbol, o.symbol with
          | some mx, some sym =>
            let current_qty := (alookup t.positions sym).getD 0
            let projected :=
              current_qty + (if o.side = OrderSide.BUY then o.quantity else -o.quantity)
            |projected| > mx
          | _, _ => false
        if bad_exposure then some .maxExposure
        else none

/-- `MatchingEngine._enforce_risk`: estimate the notional (threading the
book cleanup its best-of-side fallback performs), then apply the four
checks. -/
def _enforce_risk (e : MatchingEngine) (t : Trader) (o : Order) :
    MatchingEngine × Option EngineErr :=
  let res := e._estimate_notional o
  (res.1, risk_verdict t o res.2)

/-- The maker/taker tagging and fee amounts of `_apply_trade_balances`:
a priceless (MARKET) side is the taker; when both sides are limits, the
buyer is tagged taker. -/
def trade_fees (e : MatchingEngine) (buy sell : Order) (price quantity : ℚ) : ℚ × ℚ :=
  let buy_is_taker : Bool := buy.price.isNone && sell.price.isSome
  let sell_is_taker : Bool := sell.price.isNone && buy.price.isSome
  let buy_is_taker : Bool := if !buy_is_taker && !sell_is_taker then true else buy_is_taker
  ((if buy_is_taker then e.taker_fee else e.maker_fee) * price * quantity,
   (if sell_is_taker then e.taker_fee else e.maker_fee) * price * quantity)

/-- `MatchingEngine._apply_trade_balances`: maker/taker tagging, fees, the
two fills, last-price bookkeeping and mark-to-market of every registered
trader. -/
def _apply_trade_balances (e : MatchingEngine) (buy sell : Order) (price quantity : ℚ) :
    MatchingEngine :=
  let buyer_key := buy.trader_id.getD ""
  let seller_key := sell.trader_id.getD ""
  let symbol := (buy.symbol.orElse fun _ => sell.symbol).getD e.default_symbol
  let fees := trade_fees e buy sell price quantity
  let buyer_fee := fees.1
  let seller_fee := fees.2
  let e :=
    match alookup e.traders buyer_key with
    | some t =>
      let filled := t.apply_fill symbol .BUY price quantity buyer_fee
      { e with traders := aset e.traders buyer_key filled }
    | none => e
  let e :=
    match alookup e.traders seller_key with
    | some t =>
      let filled := t.apply_fill symbol .SELL price quantity seller_fee
      { e with traders := aset e.traders seller_key filled }
    | none => e
  let e := { e with
    last_trade_price := some price,
    last_trade_price_by_symbol := aset e.last_trade_price_by_symbol symbol price }
  { e with traders := e.traders.map (fun kt => (kt.1, kt.2.mark_price symbol price)) }

/-- `MatchingEngine._update_trailing_stops`: pure per-entry peak/trough
maintenance (no submissions, hence no recursion). -/
def _update_trailing_stops (e : MatchingEngine) (symbol : Option String) : MatchingEngine :=
  if e._trailing_orders = [] then e
  else
    let sym := e.book_key symbol
    match alookup e.order_books sym with
    | none => e
    | some _ =>
      match (alookup e.last_trade_price_by_symbol sym).orElse fun _ => e.last_trade_price with
      | none => e
      | some price_ref =>
        { e with _trailing_orders := e._trailing_orders.map fun t =>
            if t.symbol ≠ none ∧ t.symbol ≠ some sym then t
            else
              let offset := t.trailing_offset.getD 0
              if t.side = .SELL then
                let peak := t.aux_price.getD price_ref
                let peak := if price_ref > peak then price_ref else peak
                { t with aux_price := some peak, price := some (peak - offset) }
              else
                let trough := t.aux_price.getD price_ref
                let trough := if price_ref < trough then price_ref else trough
                { t with aux_price := some trough, price := some (trough + offset) } }

end MatchingEngine

/-- Sum of residual quantities of the orders named by `ids`. -/
def sum_qty (store : ObjectStore) (ids : List String) : ℚ :=
  ids.foldl (fun acc i => acc + (((alookup store i).map Order.quantity).getD 0)) 0

/-- Decrement an order's residual quantity through the object store. -/
def store_dec (store : ObjectStore) (oid : String) (dq : ℚ) : ObjectStore :=
  match alookup store oid with
  | none => store
  | some o => aset store oid { o with quantity := o.quantity - dq }

/-- `collect_level_orders` from `_match_pro_rata`: scan the heap snapshot
in array order, keeping orders at exactly the best price on the wanted
side, deduplicating ids. -/
def collect_level (store : ObjectStore) (members : List String) (heap : List HeapKey)
    (best_price : ℚ) (side : OrderSide) : List String :=
  heap.foldl
    (fun (acc : List String) k =>
      if acc.contains k.oid then acc
      else
        match (if members.contains k.oid then alookup store k.oid else none) with
        | none => acc
        | some o =>
          match o.price with
          | none => acc
          | some p =>
            if o.quantity ≤ 0 then acc
            else if p = best_price ∧ o.side = side then acc ++ [k.oid]
            else acc)
    []

/-- The MARKET order derived from a triggered STOP_LOSS or TRAILING_STOP
(`id = <orig>-mkt`, same side/quantity/trader/tif). -/
def derived_market (s : Order) (book_sym : String) : Order :=
  { id := s.id ++ "-mkt", type := .MARKET, side := s.side, price := none,
    quantity := s.quantity, timestamp := s.timestamp,
    symbol := some (s.symbol.getD book_sym), trader_id := s.trader_id, tif := s.tif }

/-- The LIMIT order derived from a triggered STOP_LIMIT
(`id = <orig>-lmt`, price = `aux_price or 0`). -/
def derived_limit (s : Order) (book_sym : String) : Order :=
  { id := s.id ++ "-lmt", type := .LIMIT, side := s.side,
    price := some (s.aux_price.getD 0),
    quantity := s.quantity, timestamp := s.timestamp,
    symbol := some (s.symbol.getD book_sym), trader_id := s.trader_id, tif := s.tif }

/-- Python `s.price or float("inf")` in the BUY trigger: `None` and `0.0`
are falsy and fall back to `+inf`. -/
def stop_price_or_inf (p : Option ℚ) : XRat :=
  match p with
  | none => .pinf
  | some q => if q = 0 then .pinf else .fin q

/-- The trigger tests of `_activate_stop_orders` (shared verbatim by
`_activate_stop_limit_orders` and `_activate_trailing_stops`):
SELL triggers on `price_ref <= (price or 0)`, BUY on
`price_ref >= (price or inf)`. -/
def stop_triggered (s : Order) (price_ref : ℚ) : Bool :=
  (s.side == .SELL && price_ref ≤ s.price.getD 0)
    || (s.side == .BUY && ! XRat.lt (.fin price_ref) (stop_price_or_inf s.price))

/-- Exception-threading sequencer: a raised error keeps the state mutated
so far and skips the continuation (Python exception propagation). -/
def ebind (r : MatchingEngine × Option EngineErr)
    (f : MatchingEngine → MatchingEngine × Option EngineErr) :
    MatchingEngine × Option EngineErr :=
  match r with
  | (e, none) => f e
  | (e, some err) => (e, some err)

/-- Defunctionalized calls of the mutually re-entrant engine methods.
Loop continuations (`fifo`, `proRata`, the activator scans) carry their
loop state explicitly. -/
inductive Call where
  | submit (o : Order)
  | matchOrders (symbol : Option String)
  | fifo (sym : String)
  | proRata (sym : String)
  | proRataAsks (sym : String) (execution_price total_ask_qty match_qty : ℚ)
      (asks bids : List String) (bi : ℕ) (remaining : ℚ)
  | proRataFill (sym : String) (execution_price total_ask_qty match_qty : ℚ)
      (restAsks : List String) (askId : String) (bids : List String) (bi : ℕ)
      (to_fill remaining : ℚ)
  | activateStops (symbol : Option String)
  | stopLoop (sym : String) (price_ref : ℚ) (pending acc : List Order)
  | activateStopLimits (symbol : Option String)
  | stopLimitLoop (sym : String) (price_ref : ℚ) (pending acc : List Order)
  | activateTrailing (symbol : Option String)
  | trailingLoop (sym : String) (price_ref : ℚ) (pending acc : List Order)
  | icebergParent (o : Order)
  | spawnChild (parent_id : String)
  | onRemoved (oid : String)
  | addOrder (sym : String) (o : Order)
  | removeOrder (sym : String) (oid : String)
  | cancel (oid : String) (symbol : Option String)

/-- The engine interpreter: one fuel unit per method call, mirroring
`matching_engine.py` statement for statement.  Fuel exhaustion returns
`EngineErr.fuelOut`; an error-free result is exactly the Python
execution. -/
def run : ℕ → MatchingEngine → Call → MatchingEngine × Option EngineErr
  | 0, e, _ => (e, some .fuelOut)
  | n + 1, e, c =>
    match c with
    | .submit o =>
      -- submit_order; the ghost log records the call
      let e := { e with submit_log := e.submit_log ++ [o] }
      let tkey := o.trader_id.getD ""
      let risk :=
        match alookup e.traders tkey with
        | none => (e, none)
        | some t =>
          let res := e._enforce_risk t o
          match res.2 with
          | some err => (res.1, some err)
          | none =>
            let e := res.1
            match alookup e.traders tkey with
            | some t' =>
              ({ e with traders := aset e.traders tkey (t'.record_order o.id) }, none)
            | none => (e, none)
      ebind risk fun e =>
      match e.get_book o.symbol with
      | none => (e, some .unknownSymbol)
      | some book =>
        match o.type with
        | .STOP_LOSS => ({ e with _stop_orders := e._stop_orders ++ [o] }, none)
        | .STOP_LIMIT => ({ e with _stop_limit_orders := e._stop_limit_orders ++ [o] }, none)
        | .TRAILING_STOP =>
          let last_px :=
            (alookup e.last_trade_price_by_symbol book.symbol).orElse
              fun _ => e.last_trade_price
          let o' :=
            match last_px, o.price with
            | some px, none =>
              if o.side = .SELL then { o with price := some (px - o.trailing_offset.getD 0) }
              else { o with price := some (px + o.trailing_offset.getD 0) }
            | _, _ => o
          ({ e with _trailing_orders := e._trailing_orders ++ [o'] }, none)
        | .ICEBERG => run n e (.icebergParent o)
        | _ =>
          ebind (run n e (.addOrder book.symbol o)) fun e =>
          if o.tif = .IOC then
            ebind (run n e (.matchOrders (some book.symbol))) fun e =>
            match e.get_book o.symbol with
            | none => (e, some .unknownSymbol)
            | some book' =>
              match OrderBook.get_order e.object_store book' o.id with
              | some existing =>
                if existing.quantity > 0 then run n e (.removeOrder book.symbol o.id)
                else (e, none)
              | none => (e, none)
          else (e, none)
    | .matchOrders symbol =>
      match e.get_book symbol with
      | none => (e, some .unknownSymbol)
      | some book =>
        if e.matching_strategy = .PRO_RATA then run n e (.proRata book.symbol)
        else run n e (.fifo book.symbol)
    | .fifo sym =>
      match alookup e.order_books sym with
      | none => (e, some .unknownSymbol)
      | some book =>
        let rb := OrderBook.best_bid e.object_store book
        let e := e.set_book sym rb.1
        let ra := OrderBook.best_ask e.object_store rb.1
        let e := e.set_book sym ra.1
        match rb.2, ra.2 with
        | some bb, some ba =>
          let bid_price : XRat := match bb.price with | none => .pinf | some p => .fin p
          let ask_price : ℚ := match ba.price with | none => 0 | some p => p
          if XRat.lt bid_price (.fin ask_price) then (e, none)
          else
            let trade_qty := min bb.quantity ba.quantity
            let execution_price :=
              match ba.price with
              | some p => p
              | none =>
                match bb.price with
                | some bp => if bp = 0 then ask_price else bp
                | none => ask_price
            let buy_order := if bb.side = .BUY then bb else ba
            let sell_order := if bb.side = .BUY then ba else bb
            let trade : Trade :=
              ⟨buy_order.id, sell_order.id, execution_price, trade_qty, e.clock⟩
            let e := { e with trades := e.trades ++ [trade], clock := e.clock + 1 }
            let e := e._apply_trade_balances buy_order sell_order trade.price trade.quantity
            let e := { e with object_store := store_dec e.object_store bb.id trade_qty }
            let e := { e with object_store := store_dec e.object_store ba.id trade_qty }
            let bb_rm : Bool :=
              match alookup e.object_store bb.id with
              | some o => o.quantity ≤ 0
              | none => false
            ebind (if bb_rm then run n e (.removeOrder sym bb.id) else (e, none)) fun e =>
            let ba_rm : Bool :=
              match alookup e.object_store ba.id with
              | some o => o.quantity ≤ 0
              | none => false
            ebind (if ba_rm then run n e (.removeOrder sym ba.id) else (e, none)) fun e =>
            ebind (run n e (.activateStops (some sym))) fun e =>
            ebind (run n e (.activateStopLimits (some sym))) fun e =>
            let e := e._update_trailing_stops (some sym)
            ebind (run n e (.activateTrailing (some sym))) fun e =>
            run n e (.fifo sym)
        | _, _ => (e, none)
    | .proRata sym =>
      match alookup e.order_books sym with
      | none => (e, some .unknownSymbol)
      | some book =>
        let rb := OrderBook.best_bid e.object_store book
        let e := e.set_book sym rb.1
        let ra := OrderBook.best_ask e.object_store rb.1
        let e := e.set_book sym ra.1
        match rb.2, ra.2 with
        | some bb, some ba =>
          match bb.price, ba.price with
          | some bbp, some bap =>
            if bbp < bap then (e, none)
            else
              let execution_price := bap
              match alookup e.order_books sym with
              | none => (e, some .unknownSymbol)
              | some book' =>
                let bid_level := collect_level e.object_store book'._orders_by_id
                  book'._bid_heap bbp .BUY
                let ask_level := collect_level e.object_store book'._orders_by_id
                  book'._ask_heap bap .SELL
                if bid_level = [] ∨ ask_level = [] then (e, none)
                else
                  let total_bid_qty := sum_qty e.object_store bid_level
                  let total_ask_qty := sum_qty e.object_store ask_level
                  let match_qty := min total_bid_qty total_ask_qty
                  if match_qty ≤ 0 then (e, none)
                  else
                    run n e (.proRataAsks sym execution_price total_ask_qty match_qty
                      ask_level bid_level 0 match_qty)
          | _, _ =>
            -- market order at top of book: fall back to FIFO, then break
            run n e (.fifo sym)
        | _, _ => (e, none)
    | .proRataAsks sym execution_price total_ask_qty match_qty asks bids bi remaining =>
      let continue_while (e : MatchingEngine) : MatchingEngine × Option EngineErr :=
        ebind (run n e (.activateStops (some sym))) fun e =>
        ebind (run n e (.activateStopLimits (some sym))) fun e =>
        let e := e._update_trailing_stops (some sym)
        ebind (run n e (.activateTrailing (some sym))) fun e =>
        run n e (.proRata sym)
      match asks with
      | [] => continue_while e
      | askId :: restAsks =>
        if remaining ≤ 0 then continue_while e
        else
          match alookup e.object_store askId with
          | none => continue_while e
          | some ask =>
            let ask_share := ask.quantity / total_ask_qty * match_qty
            let ask_fill := min ask.quantity (min ask_share remaining)
            run n e (.proRataFill sym execution_price total_ask_qty match_qty restAsks
              askId bids bi ask_fill remaining)
    | .proRataFill sym execution_price total_ask_qty match_qty restAsks askId bids bi
        to_fill remaining =>
      if to_fill > 0 ∧ bi < bids.length then
        let bidId := bids.getD bi ""
        match alookup e.object_store bidId, alookup e.object_store askId with
        | some bid, some ask =>
          if bid.quantity ≤ 0 then
            run n e (.proRataFill sym execution_price total_ask_qty match_qty restAsks
              askId bids (bi + 1) to_fill remaining)
          else
            let fill_qty := min bid.quantity to_fill
            let trade : Trade :=
              ⟨(if bid.side = .BUY then bid.id else ask.id),
               (if ask.side = .SELL then ask.id else bid.id),
               execution_price, fill_qty, e.clock⟩
            let e := { e with trades := e.trades ++ [trade], clock := e.clock + 1 }
            let buy_order := if bid.side = .BUY then bid else ask
            let sell_order := if ask.side = .SELL then ask else bid
            let e := e._apply_trade_balances buy_order sell_order trade.price trade.quantity
            let e := { e with object_store := store_dec e.object_store bid.id fill_qty }
            let e := { e with object_store := store_dec e.object_store ask.id fill_qty }
            let ask_rm : Bool :=
              match alookup e.object_store ask.id with
              | some o => o.quantity ≤ 0
              | none => false
            ebind (if ask_rm then run n e (.removeOrder sym ask.id) else (e, none)) fun e =>
            let bid_rm : Bool :=
              match alookup e.object_store bid.id with
              | some o => o.quantity ≤ 0
              | none => false
            ebind (if bid_rm then run n e (.removeOrder sym bid.id) else (e, none)) fun e =>
            run n e (.proRataFill sym execution_price total_ask_qty match_qty restAsks
              askId bids bi (to_fill - fill_qty) (remaining - fill_qty))
        | _, _ =>
          run n e (.proRataAsks sym execution_price total_ask_qty match_qty restAsks
            bids bi remaining)
      else
        run n e (.proRataAsks sym execution_price total_ask_qty match_qty restAsks
          bids bi remaining)
    | .activateStops symbol =>
      if e._stop_orders = [] then (e, none)
      else
        match e.get_book symbol with
        | none => (e, some .unknownSymbol)
        | some book =>
          match (alookup e.last_trade_price_by_symbol book.symbol).orElse
              (fun _ => e.last_trade_price) with
          | none => (e, none)
          | some price_ref => run n e (.stopLoop book.symbol price_ref e._stop_orders [])
    | .stopLoop sym price_ref pending acc =>
      match pending with
      | [] => ({ e with _stop_orders := acc }, none)
      | s :: rest =>
        if s.symbol ≠ none ∧ s.symbol ≠ some sym then
          run n e (.stopLoop sym price_ref rest (acc ++ [s]))
        else if stop_triggered s price_ref then
          ebind (run n e (.submit (derived_market s sym))) fun e =>
          run n e (.stopLoop sym price_ref rest acc)
        else
          run n e (.stopLoop sym price_ref rest (acc ++ [s]))
    | .activateStopLimits symbol =>
      if e._stop_limit_orders = [] then (e, none)
      else
        match e.get_book symbol with
        | none => (e, some .unknownSymbol)
        | some book =>
          match (alookup e.last_trade_price_by_symbol book.symbol).orElse
              (fun _ => e.last_trade_price) with
          | none => (e, none)
          | some price_ref =>
            run n e (.stopLimitLoop book.symbol price_ref e._stop_limit_orders [])
    | .stopLimitLoop sym price_ref pending acc =>
      match pending with
      | [] => ({ e with _stop_limit_orders := acc }, none)
      | s :: rest =>
        if s.symbol ≠ none ∧ s.symbol ≠ some sym then
          run n e (.stopLimitLoop sym price_ref rest (acc ++ [s]))
        else if stop_triggered s price_ref then
          ebind (run n e (.submit (derived_limit s sym))) fun e =>
          run n e (.stopLimitLoop sym price_ref rest acc)
        else
          run n e (.stopLimitLoop sym price_ref rest (acc ++ [s]))
    | .activateTrailing symbol =>
      if e._trailing_orders = [] then (e, none)
      else
        match e.get_book symbol with
        | none => (e, some .unknownSymbol)
        | some book =>
          match (alookup e.last_trade_price_by_symbol book.symbol).orElse
              (fun _ => e.last_trade_price) with
          | none => (e, none)
          | some price_ref =>
            run n e (.trailingLoop book.symbol price_ref e._trailing_orders [])
    | .trailingLoop sym price_ref pending acc =>
      match pending with
      | [] => ({ e with _trailing_orders := acc }, none)
      | s :: rest =>
        if s.symbol ≠ none ∧ s.symbol ≠ some sym then
          run n e (.trailingLoop sym price_ref rest (acc ++ [s]))
        else if stop_triggered s price_ref then
          ebind (run n e (.submit (derived_market s sym))) fun e =>
          run n e (.trailingLoop sym price_ref rest acc)
        else
          run n e (.trailingLoop sym price_ref rest (acc ++ [s]))
    | .icebergParent o =>
      let e := { e with
        _iceberg_parents := aset e._iceberg_parents o.id o,
        _iceberg_remaining := aset e._iceberg_remaining o.id o.quantity }
      run n e (.spawnChild o.id)
    | .spawnChild parent_id =>
      match alookup e._iceberg_parents parent_id with
      | none => (e, none)
      | some parent =>
        let remaining := (alookup e._iceberg_remaining parent_id).getD 0
        if remaining ≤ 0 then (e, none)
        else
          let slice_qty := min (parent.display_quantity.getD 0) remaining
          if slice_qty ≤ 0 then (e, none)
          else
            let child_id := parent.id ++ "-slice-" ++ toString e.clock
            let child : Order :=
              { id := child_id, type := .LIMIT, side := parent.side, price := parent.price,
                quantity := slice_qty, timestamp := e.clock,
                symbol := some (parent.symbol.getD e.default_symbol),
                trader_id := parent.trader_id, tif := parent.tif }
            let e := { e with
              clock := e.clock + 1,
              _iceberg_child_to_parent := aset e._iceberg_child_to_parent child_id parent_id,
              _iceberg_remaining :=
                aset e._iceberg_remaining parent_id (max 0 (remaining - slice_qty)) }
            run n e (.addOrder e.default_symbol child)
    | .onRemoved oid =>
      match alookup e._iceberg_child_to_parent oid with
      | none => (e, none)
      | some parent_id =>
        match alookup e._iceberg_parents parent_id with
        | none => (e, none)
        | some _ =>
          let remaining := (alookup e._iceberg_remaining parent_id).getD 0
          if remaining ≤ 0 then
            ({ e with _iceberg_parents := aerase e._iceberg_parents parent_id,
                      _iceberg_remaining := aerase e._iceberg_remaining parent_id }, none)
          else
            run n e (.spawnChild parent_id)
    | .addOrder sym o =>
      match alookup e.order_books sym with
      | none => (e, some .unknownSymbol)
      | some book =>
        match OrderBook.add_order e.object_store book o with
        | .error err => (e, some err)
        | .ok sb =>
          let e := { e with object_store := sb.1 }
          let e := e.set_book sym sb.2
          run n e (.matchOrders (some (o.symbol.getD e.default_symbol)))
    | .removeOrder sym oid =>
      match alookup e.order_books sym with
      | none => (e, some .unknownSymbol)
      | some book =>
        let res := OrderBook.remove_order e.object_store book oid
        let e := e.set_book sym res.2
        match res.1 with
        | none => (e, none)
        | some _ => run n e (.onRemoved oid)
    | .cancel oid symbol =>
      match e.get_book symbol with
      | none => (e, some .unknownSymbol)
      | some book => run n e (.removeOrder book.symbol oid)

/-- `MatchingEngine.submit_order`. -/
def submit_order (fuel : ℕ) (e : MatchingEngine) (o : Order) :
    MatchingEngine × Option EngineErr :=
  run fuel e (.submit o)

/-- `MatchingEngine.match_orders`. -/
def match_orders (fuel : ℕ) (e : MatchingEngine) (symbol : Option String) :
    MatchingEngine × Option EngineErr :=
  run fuel e (.matchOrders symbol)

/-- `MatchingEngine.cancel_order`. -/
def cancel_order (fuel : ℕ) (e : MatchingEngine) (order_id : String) (symbol : Option String) :
    MatchingEngine × Option EngineErr :=
  run fuel e (.cancel order_id symbol)

/-! ## Association-list lemmas -/

/-- Keys of an association list are pairwise distinct. -/
def nodup_keys {α : Type} (m : List (String × α)) : Prop :=
  (m.map Prod.fst).Nodup

/-- An empty book for symbol `"AAPL"`. -/
def aapl_book : OrderBook := { symbol := "AAPL" }

/-- A fresh FIFO engine over the `"AAPL"` book. -/
def fifo_engine : MatchingEngine :=
  { default_symbol := "AAPL", order_books := [("AAPL", aapl_book)] }

/-- A fresh PRO_RATA engine over the `"AAPL"` book. -/
def pro_rata_engine : MatchingEngine :=
  { default_symbol := "AAPL", order_books := [("AAPL", aapl_book)],
    matching_strategy := .PRO_RATA }

/-- Scenario order: `b1` BUY LIMIT 100.0 × 30. -/
def pr_b1 : Order :=
  { id := "b1", type := .LIMIT, side := .BUY, price := some 100, quantity := 30, timestamp := 0 }

/-- Scenario order: `b2` BUY LIMIT 100.0 × 70. -/
def pr_b2 : Order :=
  { id := "b2", type := .LIMIT, side := .BUY, price := some 100, quantity := 70, timestamp := 1 }

/-- Scenario order: incoming SELL LIMIT 100.0 × 50. -/
def pr_s : Order :=
  { id := "s", type := .LIMIT, side := .SELL, price := some 100, quantity := 50, timestamp := 2 }

/-- The pro-rata scenario execution: submit `b1`, `b2`, then the sell. -/
def pro_rata_result : MatchingEngine × Option EngineErr :=
  submit_order 60 (submit_order 60 (submit_order 60 pro_rata_engine pr_b1).1 pr_b2).1 pr_s

/-- Quantity bought by order `oid` across the trade log. -/
def filled_buy_qty (trades : List Trade) (oid : String) : ℚ :=
  (trades.filter (fun t => t.buy_order_id == oid)).foldl (fun a t => a + t.quantity) 0

/-- C1 claim, stated as written: b1 gets 15, b2 gets 35. -/
def c1_claimed_fills : Prop :=
  filled_buy_qty pro_rata_result.1.trades "b1" = 15 ∧
  filled_buy_qty pro_rata_result.1.trades "b2" = 35 ∧
  pro_rata_result.1.trades.all (fun t => t.price == 100) = true

/-- A registered trader with ample balance and no risk limits. -/
def plain_trader : Trader := { trader_id := "t1", balance := 1000000 }

/-- The same trader with a 1-unit max-notional cap. -/
def capped_trader : Trader := { trader_id := "t1", balance := 1000000, max_order_notional := some 1 }

/-- A LIMIT order for the unregistered symbol `"MSFT"`. -/
def msft_order : Order :=
  { id := "o1", type := .LIMIT, side := .BUY, price := some 100, quantity := 1,
    timestamp := 0, symbol := some "MSFT", trader_id := some "t1" }

/-- Submission of the unknown-symbol order by the unconstrained trader. -/
def c5_plain_run : MatchingEngine × Option EngineErr :=
  submit_order 30 (fifo_engine.register_trader plain_trader) msft_order

/-- Submission of the unknown-symbol order by the notional-capped trader. -/
def c5_capped_run : MatchingEngine × Option EngineErr :=
  submit_order 30 (fifo_engine.register_trader capped_trader) msft_order

/-- An AAPL book whose bid heap holds a dead (tombstoned) entry, so a
best-of-side read performs lazy cleanup. -/
def c5m_book : OrderBook :=
  { symbol := "AAPL", _bid_heap := [⟨.fin (-100), 0, 1, "zombie"⟩] }

/-- Engine with the dirty default book and a registered trader. -/
def c5m_engine : MatchingEngine :=
  { default_symbol := "AAPL", order_books := [("AAPL", c5m_book)],
    traders := [("t1", plain_trader)] }

/-- A MARKET order on the unregistered MSFT symbol. -/
def c5m_o : Order :=
  { id := "m1", type := .MARKET, side := .SELL, price := none, quantity := 1,
    timestamp := 0, symbol := some "MSFT", trader_id := some "t1" }

/-- The spec's iceberg scenario order: BUY ICEBERG 100.0, total 10,
display 2. -/
def iceberg_order : Order :=
  { id := "ice1", type := .ICEBERG, side := .BUY, price := some 100, quantity := 10,
    timestamp := 0, display_quantity := some 2 }

/-- Submit the iceberg into the empty engine. -/
def c9_submit : MatchingEngine × Option EngineErr := submit_order 40 fifo_engine iceberg_order

/-- …then cancel it by its id. -/
def c9_round_trip : MatchingEngine × Option EngineErr := cancel_order 40 c9_submit.1 "ice1" none

/-- A freshly constructed trader (the dataclass defaults: empty maps). -/
def Trader.fresh (trader_id : String) (balance : ℚ) : Trader :=
  { trader_id := trader_id, balance := balance }

/-- Trader states reachable from a fresh trader through any sequence of
`apply_fill` and `update_position` calls. -/
inductive ReachableTrader : Trader → Prop where
  | fresh (trader_id : String) (balance : ℚ) : ReachableTrader (Trader.fresh trader_id balance)
  | fill (t : Trader) (symbol : String) (side : OrderSide) (price quantity fee : ℚ) :
      ReachableTrader t → ReachableTrader (t.apply_fill symbol side price quantity fee)
  | upd (t : Trader) (symbol : String) (dq : ℚ) :
      ReachableTrader t → ReachableTrader (t.update_position symbol dq)

/-- The invariant on a positions/average-price map pair that the code
actually maintains: every position entry is nonzero, every average-price
key has a position entry, and keys are unique. -/
def pa_inv (pos avg : List (String × ℚ)) : Prop :=
  (∀ p ∈ pos, p.2 ≠ 0) ∧
  (∀ q ∈ avg, (alookup pos q.1).isSome) ∧
  nodup_keys pos ∧ nodup_keys avg

/-- `pa_inv` on a trader's own maps. -/
def trader_inv (t : Trader) : Prop :=
  pa_inv t.positions t._avg_price

/-- Fee-paying engine with two registered traders `"b"` and `"s"`. -/
def c4_engine : MatchingEngine :=
  { default_symbol := "AAPL", order_books := [("AAPL", aapl_book)],
    traders := [("b", Trader.fresh "b" 1000), ("s", Trader.fresh "s" 500)] }

/-- A concrete buy order owned by trader `"b"`. -/
def c4_buy : Order :=
  { id := "x1", type := .LIMIT, side := .BUY, price := some 10, quantity := 2,
    timestamp := 0, trader_id := some "b" }

/-- A concrete sell order owned by trader `"s"`. -/
def c4_sell : Order :=
  { id := "x2", type := .LIMIT, side := .SELL, price := some 10, quantity := 2,
    timestamp := 1, trader_id := some "s" }

/-- A resting ask used to exercise the default-book fallback. -/
def c10_ask : Order :=
  { id := "a1", type := .LIMIT, side := .SELL, price := some 100, quantity := 3, timestamp := 0 }

/-- A default book holding that ask. -/
def est_book : OrderBook :=
  { symbol := "AAPL", _orders_by_id := ["a1"], _ask_heap := [⟨.fin 100, 0, 1, "a1"⟩],
    _seq_counter := 1 }

/-- Engine with no last trade price and the above default book. -/
def est_engine : MatchingEngine :=
  { default_symbol := "AAPL", order_books := [("AAPL", est_book)],
    object_store := [("a1", c10_ask)] }

/-- A MARKET BUY order targeting a *different* symbol. -/
def c10_order : Order :=
  { id := "m1", type := .MARKET, side := .BUY, price := none, quantity := 2,
    timestamp := 5, symbol := some "MSFT" }

/-- The plain trader with cash-risk configuration set (used to show the
skipped checks ignore it). -/
def c10_capped_trader : Trader :=
  { plain_trader with max_order_notional := some 1, risk_per_trade_fraction := some (1 / 100), balance := 0 }

/-- `i` is not of the iceberg child-id shape `<parent>-slice-<suffix>`
(`_spawn_iceberg_child` builds ids this way, so such an id can never be
registered as an iceberg child). -/
def SliceFree (i : String) : Prop :=
  ∀ p s, i ≠ p ++ "-slice-" ++ s

/-- Every registered book's id set is duplicate-free (Python `dict` keys
are; the list embedding maintains it). -/
def BooksNodup (e : MatchingEngine) : Prop :=
  ∀ sym b, alookup e.order_books sym = some b → b._orders_by_id.Nodup

/-- State-evolution invariants shared by every engine method: the trade
tape and the ghost submission log grow append-only, the iceberg
child-to-parent binding of a non-slice-shaped id is stable,
duplicate-freeness of the books' id sets is preserved, and the default
symbol is constant. -/
def Extends (e e' : MatchingEngine) : Prop :=
  (∃ tl, e'.trades = e.trades ++ tl) ∧
  (∃ sl, e'.submit_log = e.submit_log ++ sl) ∧
  (∀ i, SliceFree i →
    alookup e'._iceberg_child_to_parent i = alookup e._iceberg_child_to_parent i) ∧
  (BooksNodup e → BooksNodup e') ∧
  e'.default_symbol = e.default_symbol

/-- Whether `_activate_stop_orders` keeps a held stop entry: entries for
another symbol stay, untriggered entries stay, triggered same-symbol
entries are dropped (and re-submitted as derived MARKET orders). -/
def stop_kept (sym : String) (price_ref : ℚ) (s : Order) : Bool :=
  decide (s.symbol ≠ none ∧ s.symbol ≠ some sym) || ! stop_triggered s price_ref

/-- The resting bid of the spec's "basic cross" scenario. -/
def c2_b1 : Order :=
  { id := "b1", type := .LIMIT, side := .BUY, price := some 101, quantity := 2, timestamp := 0 }

/-- The incoming ask of the "basic cross" scenario (100.5 = 201/2). -/
def c2_a1 : Order :=
  { id := "a1", type := .LIMIT, side := .SELL, price := some (201 / 2), quantity := 1,
    timestamp := 1 }

/-- Submitting `b1` then `a1` to the fresh FIFO engine. -/
def c2_run : MatchingEngine × Option EngineErr :=
  submit_order 20 (submit_order 20 fifo_engine c2_b1).1 c2_a1

/-- The AAPL book after the basic cross. -/
def c2_book : OrderBook :=
  (alookup c2_run.1.order_books "AAPL").getD aapl_book

/-- A crossed AAPL book state: `b1` and `a1` both resting. -/
def c2w_book : OrderBook :=
  { symbol := "AAPL", _orders_by_id := ["b1", "a1"],
    _bid_heap := [⟨.fin (-101), 0, 1, "b1"⟩], _ask_heap := [⟨.fin (201 / 2), 1, 2, "a1"⟩],
    _seq_counter := 2 }

/-- Engine holding the crossed book (used to witness the FIFO step law). -/
def c2w_engine : MatchingEngine :=
  { default_symbol := "AAPL", order_books := [("AAPL", c2w_book)],
    object_store := [("b1", c2_b1), ("a1", c2_a1)] }

/-- A held SELL STOP_LOSS with stop price 10 (triggers at last price 5). -/
def c6w_stop : Order :=
  { id := "s2", type := .STOP_LOSS, side := .SELL, price := some 10, quantity := 1,
    timestamp := 0, symbol := some "AAPL" }

/-- Engine holding the triggering SELL stop with last AAPL price 5. -/
def c6w_engine : MatchingEngine :=
  { default_symbol := "AAPL", order_books := [("AAPL", aapl_book)],
    _stop_orders := [c6w_stop], last_trade_price_by_symbol := [("AAPL", 5)],
    last_trade_price := some 5 }

/-- A plain IOC limit order used to witness the IOC law. -/
def c7_o : Order :=
  { id := "i1", type := .LIMIT, side := .BUY, price := some 10, quantity := 1,
    timestamp := 0, tif := .IOC }

/-- C9 scenario order: a plain GTC BUY LIMIT from trader `t1`. -/
def c9_o : Order :=
  { id := "o9", type := .LIMIT, side := .BUY, price := some 100, quantity := 5,
    timestamp := 0, trader_id := some "t1" }

/-- The visible child order built by `_spawn_iceberg_child` when the
parent's remaining quantity is `r` (the engine supplies the clock and the
default symbol). -/
def iceberg_child (e : MatchingEngine) (parent : Order) (r : ℚ) : Order :=
  { id := parent.id ++ "-slice-" ++ toString e.clock, type := .LIMIT, side := parent.side,
    price := parent.price, quantity := min (parent.display_quantity.getD 0) r,
    timestamp := e.clock, symbol := some (parent.symbol.getD e.default_symbol),
    trader_id := parent.trader_id, tif := parent.tif }

/-- A fresh empty MSFT book. -/
def msft_book : OrderBook := { symbol := "MSFT" }

/-- C8 counterexample engine: default symbol AAPL, with both an AAPL and
an MSFT book registered. -/
def c8x_engine : MatchingEngine :=
  { default_symbol := "AAPL", order_books := [("AAPL", aapl_book), ("MSFT", msft_book)] }

/-- C8 counterexample order: an MSFT iceberg (display 2, quantity 5). -/
def c8x_o : Order :=
  { id := "ice2", type := .ICEBERG, side := .BUY, price := some 50, quantity := 5,
    timestamp := 0, symbol := some "MSFT", display_quantity := some 2 }

/-- C8 witness: a default-symbol iceberg submitted by trader `t1`. -/
def c8s_o : Order :=
  { id := "ice4", type := .ICEBERG, side := .BUY, price := some 50, quantity := 5,
    timestamp := 0, trader_id := some "t1", display_quantity := some 2 }

/-- C8 witness parent for the respawn clause. -/
def c8w_parent : Order :=
  { id := "ice3", type := .ICEBERG, side := .BUY, price := some 50, quantity := 5,
    timestamp := 0, display_quantity := some 2 }

/-- C8 witness engine for the respawn clause: parent `ice3` is recorded
with remaining 3 and a resting child mapping. -/
def c8w_engine : MatchingEngine :=
  { default_symbol := "AAPL", order_books := [("AAPL", aapl_book)],
    _iceberg_parents := [("ice3", c8w_parent)],
    _iceberg_remaining := [("ice3", 3)],
    _iceberg_child_to_parent := [("ice3-slice-0", "ice3")], clock := 1 }


theorem alookup_aset_self {α : Type} (m : List (String × α)) (k : String) (v : α) :
    alookup (aset m k v) k = some v := by
  induction m with
  | nil => simp [aset, alookup]
  | cons p rest ih =>
    obtain ⟨a, b⟩ := p
    by_cases h : a = k <;> simp [aset, alookup, h, ih]

theorem alookup_aset_ne {α : Type} (m : List (String × α)) (k k' : String) (v : α)
    (h : k' ≠ k) : alookup (aset m k v) k' = alookup m k' := by
  have hk : k ≠ k' := Ne.symm h
  induction m with
  | nil => simp [aset, alookup, hk]
  | cons p rest ih =>
    obtain ⟨a, b⟩ := p
    by_cases hp : a = k
    · subst hp
      simp [aset, alookup, hk]
    · by_cases hp' : a = k' <;> simp [aset, alookup, hp, hp', ih, h]

theorem alookup_aerase_ne {α : Type} (m : List (String × α)) (k k' : String)
    (h : k' ≠ k) : alookup (aerase m k) k' = alookup m k' := by
  induction m with
  | nil => simp [aerase]
  | cons p rest ih =>
    obtain ⟨a, b⟩ := p
    by_cases hp : a = k
    · subst hp
      simp [aerase, alookup, Ne.symm h]
    · by_cases hp' : a = k' <;> simp [aerase, alookup, hp, hp', ih, h]

theorem alookup_eq_none_of_not_mem {α : Type} (m : List (String × α)) (k : String)
    (h : k ∉ m.map Prod.fst) : alookup m k = none := by
  induction m with
  | nil => rfl
  | cons p rest ih =>
    obtain ⟨a, b⟩ := p
    simp only [List.map_cons, List.mem_cons] at h
    push_neg at h
    simp [alookup, Ne.symm h.1, ih h.2]

theorem alookup_aerase_self {α : Type} (m : List (String × α)) (k : String)
    (h : nodup_keys m) : alookup (aerase m k) k = none := by
  induction m with
  | nil => simp [aerase, alookup]
  | cons p rest ih =>
    obtain ⟨a, b⟩ := p
    simp only [nodup_keys, List.map_cons, List.nodup_cons] at h
    by_cases hp : a = k
    · subst hp
      simp only [aerase, if_pos rfl]
      exact alookup_eq_none_of_not_mem rest a h.1
    · simp only [aerase, if_neg hp, alookup, if_neg hp]
      exact ih h.2

theorem mem_aset {α : Type} (m : List (String × α)) (k : String) (v : α) (p : String × α)
    (h : p ∈ aset m k v) : p = (k, v) ∨ p ∈ m := by
  induction m with
  | nil =>
    simp [aset] at h
    simp [h]
  | cons q rest ih =>
    obtain ⟨a, b⟩ := q
    by_cases hq : a = k
    · simp only [aset, if_pos hq, List.mem_cons] at h
      rcases h with h | h
      · left; rw [h, hq]
      · right; exact List.mem_cons_of_mem _ h
    · simp only [aset, if_neg hq, List.mem_cons] at h
      rcases h with h | h
      · right; rw [h]; exact List.mem_cons_self _ _
      · rcases ih h with h' | h'
        · exact Or.inl h'
        · exact Or.inr (List.mem_cons_of_mem _ h')

theorem mem_aerase {α : Type} (m : List (String × α)) (k : String) (p : String × α)
    (h : p ∈ aerase m k) : p ∈ m := by
  induction m with
  | nil => simp [aerase] at h
  | cons q rest ih =>
    obtain ⟨a, b⟩ := q
    by_cases hq : a = k
    · simp only [aerase, if_pos hq] at h
      exact List.mem_cons_of_mem _ h
    · simp only [aerase, if_neg hq, List.mem_cons] at h
      rcases h with h | h
      · rw [h]; exact List.mem_cons_self _ _
      · exact List.mem_cons_of_mem _ (ih h)

theorem nodup_keys_aset {α : Type} (m : List (String × α)) (k : String) (v : α)
    (h : nodup_keys m) : nodup_keys (aset m k v) := by
  induction m with
  | nil => simp [aset, nodup_keys]
  | cons q rest ih =>
    obtain ⟨a, b⟩ := q
    simp only [nodup_keys, List.map_cons, List.nodup_cons] at h
    by_cases hq : a = k
    · simp only [aset, if_pos hq]
      simp only [nodup_keys, List.map_cons, List.nodup_cons]
      exact ⟨h.1, h.2⟩
    · simp only [aset, if_neg hq]
      simp only [nodup_keys, List.map_cons, List.nodup_cons]
      refine ⟨?_, ih h.2⟩
      intro hmem
      simp only [List.mem_map] at hmem
      obtain ⟨p, hp, hpk⟩ := hmem
      rcases mem_aset rest k v p hp with h' | h'
      · exact hq (by rw [← hpk, h'])
      · exact h.1 (List.mem_map.mpr ⟨p, h', hpk⟩)

theorem nodup_keys_aerase {α : Type} (m : List (String × α)) (k : String)
    (h : nodup_keys m) : nodup_keys (aerase m k) := by
  induction m with
  | nil => simp [aerase, nodup_keys]
  | cons q rest ih =>
    obtain ⟨a, b⟩ := q
    simp only [nodup_keys, List.map_cons, List.nodup_cons] at h
    by_cases hq : a = k
    · simp only [aerase, if_pos hq]
      exact h.2
    · simp only [aerase, if_neg hq]
      simp only [nodup_keys, List.map_cons, List.nodup_cons]
      refine ⟨?_, ih h.2⟩
      intro hmem
      simp only [List.mem_map] at hmem
      obtain ⟨p, hp, hpk⟩ := hmem
      exact h.1 (List.mem_map.mpr ⟨p, mem_aerase rest k p hp, hpk⟩)

/-! ## Concrete scenarios -/

/-- **C1, counterexample.**  On the literal spec scenario (bids `b1` 30 and
`b2` 70 at 100.0, incoming SELL LIMIT 100.0 × 50 under PRO_RATA), the code
allocates the *ask-side* fill proportionally (the single ask gets all 50)
and draws it from the bids *sequentially*, so `b1` is filled 30 and `b2`
20 — not the 15/35 split the claim states. -/
theorem C1_counterexample :
    pro_rata_result.2 = none ∧
    filled_buy_qty pro_rata_result.1.trades "b1" = 30 ∧
    filled_buy_qty pro_rata_result.1.trades "b2" = 20 ∧
    ¬ c1_claimed_fills := by
  unfold c1_claimed_fills
  decide

/-- **C1, amended.**  Under PRO_RATA with resting bids `b1` (30) and `b2`
(70) at 100.0 and an incoming SELL LIMIT 100.0 × 50, the sell's
allocation is satisfied by drawing from the bids sequentially in
price-time priority: `b1` receives 30 and `b2` receives 20, and every
resulting trade executes at price 100.0. -/
theorem C1_pro_rata_fills :
    pro_rata_result.2 = none ∧
    pro_rata_result.1.trades =
      [⟨"b1", "s", 100, 30, 0⟩, ⟨"b2", "s", 100, 20, 1⟩] ∧
    pro_rata_result.1.trades.all (fun t => t.price == 100) = true := by
  decide

/-- **C5, counterexample.**  `submit_order` does *not* raise UnknownSymbol
as its first step: risk admission runs first (the capped trader gets the
max-notional error even though the symbol is unknown), and for a trader
that passes risk the order *is* recorded in `order_history` before the
failed book lookup, so the trader's state is changed by the failed call.
Additionally, a MARKET order on the unknown symbol makes the notional
estimate lazily clean the dirty default book before UnknownSymbol is
raised, so the original claim's "all books are unchanged" also fails. -/
theorem C5_counterexample :
    c5_capped_run.2 = some .maxNotional ∧
    c5_plain_run.2 = some .unknownSymbol ∧
    (alookup c5_plain_run.1.traders "t1").map Trader.order_history = some ["o1"] ∧
    (submit_order 30 c5m_engine c5m_o).2 = some .unknownSymbol ∧
    ¬((submit_order 30 c5m_engine c5m_o).1.order_books = c5m_engine.order_books) := by
  decide

/-- **C9, counterexample.**  Submitting an ICEBERG order that does not
cross (the book is empty) and then cancelling it by its id does *not*
restore the book: the parent never rests in the book, so the cancel is a
no-op and the spawned visible child `ice1-slice-0` keeps resting with
quantity 2, whereas the book held no orders before the submission. -/
theorem C9_counterexample :
    c9_submit.2 = none ∧ c9_round_trip.2 = none ∧
    (alookup fifo_engine.order_books "AAPL").map OrderBook._orders_by_id = some [] ∧
    (alookup c9_round_trip.1.order_books "AAPL").map OrderBook._orders_by_id =
      some ["ice1-slice-0"] ∧
    (alookup c9_round_trip.1.object_store "ice1-slice-0").map Order.quantity = some 2 := by
  decide

/-! ## C3: trader position/average-price invariants -/

theorem mem_aerase_ne {α : Type} (m : List (String × α)) (k : String) (p : String × α)
    (hnd : nodup_keys m) (hp : p ∈ aerase m k) : p.1 ≠ k := by
  induction m with
  | nil => simp [aerase] at hp
  | cons q rest ih =>
    obtain ⟨a, b⟩ := q
    simp only [nodup_keys, List.map_cons, List.nodup_cons] at hnd
    by_cases hq : a = k
    · simp only [aerase, if_pos hq] at hp
      subst hq
      intro hk
      exact hnd.1 (List.mem_map.mpr ⟨p, hp, hk⟩)
    · simp only [aerase, if_neg hq, List.mem_cons] at hp
      rcases hp with hp | hp
      · rw [hp]; exact hq
      · exact ih hnd.2 hp

theorem pa_inv_aset_pos (pos avg : List (String × ℚ)) (sym : String) (v : ℚ)
    (h : pa_inv pos avg) (hv : v ≠ 0) : pa_inv (aset pos sym v) avg := by
  obtain ⟨h1, h2, h3, h4⟩ := h
  refine ⟨?_, ?_, nodup_keys_aset _ _ _ h3, h4⟩
  · intro p hp
    rcases mem_aset pos sym v p hp with h' | h'
    · rw [h']; exact hv
    · exact h1 p h'
  · intro q hq
    by_cases hk : q.1 = sym
    · rw [hk, alookup_aset_self]; rfl
    · rw [alookup_aset_ne _ _ _ _ hk]
      exact h2 q hq

theorem pa_inv_aset_both (pos avg : List (String × ℚ)) (sym : String) (v a : ℚ)
    (h : pa_inv pos avg) (hv : v ≠ 0) : pa_inv (aset pos sym v) (aset avg sym a) := by
  obtain ⟨h1, h2, h3, h4⟩ := pa_inv_aset_pos pos avg sym v h hv
  refine ⟨h1, ?_, h3, nodup_keys_aset _ _ _ h4⟩
  intro q hq
  rcases mem_aset avg sym a q hq with h' | h'
  · rw [h', alookup_aset_self]; rfl
  · exact h2 q h'

theorem pa_inv_aerase_both (pos avg : List (String × ℚ)) (sym : String)
    (h : pa_inv pos avg) : pa_inv (aerase pos sym) (aerase avg sym) := by
  obtain ⟨h1, h2, h3, h4⟩ := h
  refine ⟨?_, ?_, nodup_keys_aerase _ _ h3, nodup_keys_aerase _ _ h4⟩
  · intro p hp
    exact h1 p (mem_aerase _ _ _ hp)
  · intro q hq
    have hne : q.1 ≠ sym := mem_aerase_ne avg sym q h4 hq
    rw [alookup_aerase_ne _ _ _ hne]
    exact h2 q (mem_aerase _ _ _ hq)

theorem trader_inv_update_position (t : Trader) (symbol : String) (dq : ℚ)
    (h : trader_inv t) : trader_inv (t.update_position symbol dq) := by
  unfold Trader.update_position trader_inv
  dsimp only
  split
  · exact pa_inv_aerase_both _ _ _ h
  · next hge =>
    refine pa_inv_aset_pos _ _ _ _ h ?_
    intro h0
    rw [h0] at hge
    simp at hge

theorem trader_inv_apply_fill (t : Trader) (symbol : String) (side : OrderSide)
    (price quantity fee : ℚ) (h : trader_inv t) :
    trader_inv (t.apply_fill symbol side price quantity fee) := by
  unfold Trader.apply_fill trader_inv
  dsimp only
  split
  · exact h
  · next hq =>
    have hq' : 0 < quantity := lt_of_not_le hq
    by_cases hside : side = OrderSide.BUY
    · simp only [if_pos hside]
      by_cases hcur : (alookup t.positions symbol).getD 0 ≥ 0
      · rw [if_pos hcur]
        dsimp only
        exact pa_inv_aset_both _ _ _ _ _ h (ne_of_gt (add_pos_of_nonneg_of_pos hcur hq'))
      · rw [if_neg hcur]
        push_neg at hcur
        by_cases hlt : (alookup t.positions symbol).getD 0 + quantity < 0
        · rw [if_pos hlt]
          dsimp only
          exact pa_inv_aset_pos _ _ _ _ h (ne_of_lt hlt)
        · rw [if_neg hlt]
          by_cases hgt : (alookup t.positions symbol).getD 0 + quantity > 0
          · rw [if_pos hgt]
            dsimp only
            exact pa_inv_aset_both _ _ _ _ _ h (ne_of_gt hgt)
          · rw [if_neg hgt]
            dsimp only
            exact pa_inv_aerase_both _ _ _ h
    · simp only [if_neg hside]
      by_cases hcur : (alookup t.positions symbol).getD 0 ≤ 0
      · rw [if_pos hcur]
        dsimp only
        have hneg : (alookup t.positions symbol).getD 0 - quantity < 0 := by linarith
        exact pa_inv_aset_both _ _ _ _ _ h (ne_of_lt hneg)
      · rw [if_neg hcur]
        push_neg at hcur
        by_cases hgt : (alookup t.positions symbol).getD 0 - quantity > 0
        · rw [if_pos hgt]
          dsimp only
          exact pa_inv_aset_pos _ _ _ _ h (ne_of_gt hgt)
        · rw [if_neg hgt]
          by_cases hlt : (alookup t.positions symbol).getD 0 - quantity < 0
          · rw [if_pos hlt]
            dsimp only
            exact pa_inv_aset_both _ _ _ _ _ h (ne_of_lt hlt)
          · rw [if_neg hlt]
            dsimp only
            exact pa_inv_aerase_both _ _ _ h

/-- **C3, counterexample.**  The claimed invariant fails on the code:
`update_position` creates a position entry without an average-price entry
(refuting "average-price entry iff position entry"), and `apply_fill` with
a tiny positive quantity creates a position entry whose absolute quantity
is below 10^-12 (refuting "entry iff |qty| >= 10^-12"). -/
theorem C3_counterexample :
    (alookup ((Trader.fresh "t" 0).update_position "A" 1).positions "A" = some 1 ∧
     alookup ((Trader.fresh "t" 0).update_position "A" 1)._avg_price "A" = none) ∧
    (alookup ((Trader.fresh "t" 0).apply_fill "A" .BUY 100 (1 / 10 ^ 13) 0).positions "A" =
        some (1 / 10 ^ 13) ∧
     |(1:ℚ) / 10 ^ 13| < 1 / 10 ^ 12) := by
  decide

/-- **C3, amended.**  In every trader state reachable through any sequence
of `apply_fill` and `update_position` calls from a fresh trader, every
entry of `positions` has nonzero signed quantity, every average-price
entry has a corresponding position entry (but not conversely), and both
maps have unique keys. -/
theorem C3_reachable_invariant (t : Trader) (h : ReachableTrader t) : trader_inv t := by
  induction h with
  | fresh tid bal =>
    refine ⟨?_, ?_, ?_, ?_⟩ <;> simp [Trader.fresh, nodup_keys]
  | fill t symbol side price quantity fee _ ih =>
    exact trader_inv_apply_fill t symbol side price quantity fee ih
  | upd t symbol dq _ ih =>
    exact trader_inv_update_position t symbol dq ih

/-- Witness for C3: the invariant holds at a concrete reachable state
(a fresh trader after one `update_position` and one `apply_fill`). -/
theorem C3_reachable_invariant_witness :
    trader_inv (((Trader.fresh "w" 100).update_position "A" 1).apply_fill "A" .SELL 10 1 0) :=
  C3_reachable_invariant _
    (ReachableTrader.fill _ "A" .SELL 10 1 0
      (ReachableTrader.upd _ "A" 1 (ReachableTrader.fresh "w" 100)))

theorem mark_price_balance (t : Trader) (s : String) (p : ℚ) :
    (t.mark_price s p).balance = t.balance := by
  unfold Trader.mark_price
  split <;> rfl

theorem alookup_mark_price (m : List (String × Trader)) (sym : String) (price : ℚ)
    (k : String) :
    alookup (m.map (fun kt => (kt.1, kt.2.mark_price sym price))) k =
      (alookup m k).map (fun t => t.mark_price sym price) := by
  induction m with
  | nil => rfl
  | cons p rest ih =>
    obtain ⟨a, b⟩ := p
    by_cases h : a = k <;> simp [alookup, h, ih]

theorem apply_fill_balance (t : Trader) (symbol : String) (side : OrderSide)
    (price quantity fee : ℚ) (hq : 0 < quantity) :
    (t.apply_fill symbol side price quantity fee).balance =
      if side = .BUY then t.balance - price * quantity - fee
      else t.balance + price * quantity - fee := by
  unfold Trader.apply_fill
  rw [if_neg (not_le.mpr hq)]
  by_cases hside : side = OrderSide.BUY
  · simp only [if_pos hside]
    split_ifs <;> rfl
  · simp only [if_neg hside]
    split_ifs <;> rfl

theorem trade_balance_conservation (e : MatchingEngine) (buy sell : Order)
    (price quantity : ℚ) (tb ts : Trader) (hq : 0 < quantity)
    (hne : buy.trader_id.getD "" ≠ sell.trader_id.getD "")
    (hb : alookup e.traders (buy.trader_id.getD "") = some tb)
    (hs : alookup e.traders (sell.trader_id.getD "") = some ts) :
    ∃ tb' ts',
      alookup (e._apply_trade_balances buy sell price quantity).traders
        (buy.trader_id.getD "") = some tb' ∧
      alookup (e._apply_trade_balances buy sell price quantity).traders
        (sell.trader_id.getD "") = some ts' ∧
      tb'.balance + ts'.balance =
        tb.balance + ts.balance - (e.trade_fees buy sell price quantity).1 -
          (e.trade_fees buy sell price quantity).2 := by
  unfold MatchingEngine._apply_trade_balances
  dsimp only
  rw [hb]
  dsimp only
  rw [alookup_aset_ne _ _ _ _ (Ne.symm hne), hs]
  dsimp only
  set sym := (buy.symbol.orElse fun _ => sell.symbol).getD e.default_symbol with hsym
  set bf := (e.trade_fees buy sell price quantity).1 with hbf
  set sf := (e.trade_fees buy sell price quantity).2 with hsf
  refine ⟨(tb.apply_fill sym OrderSide.BUY price quantity bf).mark_price sym price,
    (ts.apply_fill sym OrderSide.SELL price quantity sf).mark_price sym price, ?_, ?_, ?_⟩
  · rw [alookup_mark_price]
    rw [alookup_aset_ne _ _ _ _ hne, alookup_aset_self]
    rfl
  · rw [alookup_mark_price]
    rw [alookup_aset_self]
    rfl
  · rw [mark_price_balance, mark_price_balance,
      apply_fill_balance _ _ _ _ _ _ hq, apply_fill_balance _ _ _ _ _ _ hq]
    simp only [if_pos rfl]
    have : ¬ (OrderSide.SELL = OrderSide.BUY) := by decide
    rw [if_neg this]
    simp only [if_true]
    ring

/-- **C4.**  For every fill at price p, quantity q > 0 and fee f, a BUY
changes the balance by exactly -(p*q) - f and a SELL by +(p*q) - f; and
for a trade between two distinct registered traders, the two balance
changes sum to -(buyer_fee + seller_fee). -/
theorem C4_cash_conservation :
    (∀ (t : Trader) (symbol : String) (side : OrderSide) (price quantity fee : ℚ),
      0 < quantity →
      (t.apply_fill symbol side price quantity fee).balance =
        if side = .BUY then t.balance - price * quantity - fee
        else t.balance + price * quantity - fee) ∧
    (∀ (e : MatchingEngine) (buy sell : Order) (price quantity : ℚ) (tb ts : Trader),
      0 < quantity →
      buy.trader_id.getD "" ≠ sell.trader_id.getD "" →
      alookup e.traders (buy.trader_id.getD "") = some tb →
      alookup e.traders (sell.trader_id.getD "") = some ts →
      ∃ tb' ts',
        alookup (e._apply_trade_balances buy sell price quantity).traders
          (buy.trader_id.getD "") = some tb' ∧
        alookup (e._apply_trade_balances buy sell price quantity).traders
          (sell.trader_id.getD "") = some ts' ∧
        tb'.balance + ts'.balance =
          tb.balance + ts.balance - (e.trade_fees buy sell price quantity).1 -
            (e.trade_fees buy sell price quantity).2) :=
  ⟨apply_fill_balance, trade_balance_conservation⟩

/-- Witness for C4 at concrete inputs. -/
theorem C4_cash_conservation_witness :
    ((Trader.fresh "w" 100).apply_fill "A" .BUY 10 2 1).balance = 100 - 10 * 2 - 1 ∧
    (∃ tb' ts',
      alookup (c4_engine._apply_trade_balances c4_buy c4_sell 10 2).traders "b" = some tb' ∧
      alookup (c4_engine._apply_trade_balances c4_buy c4_sell 10 2).traders "s" = some ts' ∧
      tb'.balance + ts'.balance =
        1000 + 500 - (c4_engine.trade_fees c4_buy c4_sell 10 2).1 -
          (c4_engine.trade_fees c4_buy c4_sell 10 2).2) := by
  constructor
  · have h := C4_cash_conservation.1 (Trader.fresh "w" 100) "A" .BUY 10 2 1 (by norm_num)
    simpa using h
  · have h := C4_cash_conservation.2 c4_engine c4_buy c4_sell 10 2
      (Trader.fresh "b" 1000) (Trader.fresh "s" 500)
      (by norm_num) (by decide) (by decide) (by decide)
    simpa [c4_buy, c4_sell, Trader.fresh] using h

theorem estimate_notional_market_fallback (e : MatchingEngine) (o : Order) (b : OrderBook)
    (ho : o.type = .MARKET) (hlast : e.last_trade_price = none)
    (hb : alookup e.order_books e.default_symbol = some b) :
    (e._estimate_notional o).2 =
      (match (if o.side = .BUY then (OrderBook.best_ask e.object_store b).2
              else (OrderBook.best_bid e.object_store b).2) with
       | some best => best.price.map (fun p => p * o.quantity)
       | none => none) := by
  unfold MatchingEngine._estimate_notional
  rw [if_pos ho, hlast, hb]
  dsimp only
  by_cases hside : o.side = .BUY
  · simp only [if_pos hside]
    cases hba : (OrderBook.best_ask e.object_store b).2 with
    | none => rfl
    | some best =>
      dsimp only
      cases best.price <;> rfl
  · simp only [if_neg hside]
    cases hbb : (OrderBook.best_bid e.object_store b).2 with
    | none => rfl
    | some best =>
      dsimp only
      cases best.price <;> rfl

theorem estimate_notional_ignores_symbol (e : MatchingEngine) (o : Order)
    (sym' : Option String) :
    (e._estimate_notional { o with symbol := sym' }).2 = (e._estimate_notional o).2 := by
  cases o
  rfl

theorem risk_verdict_none_ignores_cash_config (t : Trader) (o : Order)
    (x y : Option ℚ) (z : ℚ) :
    MatchingEngine.risk_verdict
      { t with max_order_notional := x, risk_per_trade_fraction := y, balance := z } o none =
    MatchingEngine.risk_verdict t o none := by
  obtain ⟨tid, bal, pos, avg, rbs, hist, mexp, mon, rf, dll, rpnl, upr⟩ := t
  unfold MatchingEngine.risk_verdict
  dsimp only
  cases x <;> cases y <;> cases mon <;> cases rf <;> rfl

theorem risk_verdict_none_exposure_only (t : Trader) (o : Order) :
    MatchingEngine.risk_verdict t o none = none ∨
    MatchingEngine.risk_verdict t o none = some .maxExposure := by
  unfold MatchingEngine.risk_verdict
  rcases hx : t.max_order_notional with _ | m <;>
    rcases hy : t.risk_per_trade_fraction with _ | f <;>
      (simp only [Bool.false_eq_true, if_false]; split) <;> simp

/-- **C10.**  When risk admission estimates a MARKET order's notional and
no global last trade price exists, it falls back to the opposite-side best
price of the engine's *default* book — independently of the order's
symbol — and when that price is also absent the notional is unknown and
the max-notional, risk-fraction and buy-balance checks are all skipped
(the verdict ignores those trader fields and can only be the exposure
error). -/
theorem C10_market_notional_fallback :
    (∀ (e : MatchingEngine) (o : Order) (b : OrderBook),
      o.type = .MARKET → e.last_trade_price = none →
      alookup e.order_books e.default_symbol = some b →
      (e._estimate_notional o).2 =
        (match (if o.side = .BUY then (OrderBook.best_ask e.object_store b).2
                else (OrderBook.best_bid e.object_store b).2) with
         | some best => best.price.map (fun p => p * o.quantity)
         | none => none)) ∧
    (∀ (e : MatchingEngine) (o : Order) (sym' : Option String),
      (e._estimate_notional { o with symbol := sym' }).2 = (e._estimate_notional o).2) ∧
    (∀ (t : Trader) (o : Order) (x y : Option ℚ) (z : ℚ),
      MatchingEngine.risk_verdict
        { t with max_order_notional := x, risk_per_trade_fraction := y, balance := z } o none =
      MatchingEngine.risk_verdict t o none) ∧
    (∀ (t : Trader) (o : Order),
      MatchingEngine.risk_verdict t o none = none ∨
      MatchingEngine.risk_verdict t o none = some .maxExposure) :=
  ⟨estimate_notional_market_fallback, estimate_notional_ignores_symbol,
   risk_verdict_none_ignores_cash_config, risk_verdict_none_exposure_only⟩

/-- Witness for C10 at concrete inputs. -/
theorem C10_market_notional_fallback_witness :
    ((est_engine._estimate_notional c10_order).2 =
      (match (if c10_order.side = .BUY then
                (OrderBook.best_ask est_engine.object_store est_book).2
              else (OrderBook.best_bid est_engine.object_store est_book).2) with
       | some best => best.price.map (fun p => p * c10_order.quantity)
       | none => none)) ∧
    ((est_engine._estimate_notional { c10_order with symbol := some "other" }).2 =
      (est_engine._estimate_notional c10_order).2) ∧
    (MatchingEngine.risk_verdict c10_capped_trader c10_order none =
     MatchingEngine.risk_verdict plain_trader c10_order none) ∧
    (MatchingEngine.risk_verdict plain_trader c10_order none = none ∨
     MatchingEngine.risk_verdict plain_trader c10_order none = some .maxExposure) :=
  ⟨C10_market_notional_fallback.1 est_engine c10_order est_book rfl rfl (by decide),
   C10_market_notional_fallback.2.1 est_engine c10_order (some "other"),
   C10_market_notional_fallback.2.2.1 plain_trader c10_order (some 1) (some (1/100)) 0,
   C10_market_notional_fallback.2.2.2 plain_trader c10_order⟩

theorem estimate_non_market (e : MatchingEngine) (o : Order) (hm : o.type ≠ .MARKET) :
    e._estimate_notional o = (e, o.price.map (fun p => p * o.quantity)) := by
  unfold MatchingEngine._estimate_notional
  rw [if_neg hm]
  cases o.price <;> rfl

theorem enforce_risk_non_market (e : MatchingEngine) (t : Trader) (o : Order)
    (hm : o.type ≠ .MARKET) :
    e._enforce_risk t o =
      (e, MatchingEngine.risk_verdict t o (o.price.map (fun p => p * o.quantity))) := by
  unfold MatchingEngine._enforce_risk
  rw [estimate_non_market _ _ hm]

/-! ## Permutation lemmas for the Python heap operations -/

theorem cons_set_perm {α : Type} (xs : List α) (j : ℕ) (a b : α) (hj : j < xs.length) :
    (a :: xs.set j b).Perm (b :: xs.set j a) := by
  rw [List.set_eq_take_cons_drop b hj, List.set_eq_take_cons_drop a hj]
  refine (List.Perm.cons a List.perm_middle).trans ?_
  refine (List.Perm.swap b a _).trans ?_
  exact List.Perm.cons b List.perm_middle.symm

theorem set_set_swap_perm {α : Type} (l : List α) (i j : ℕ) (a b : α)
    (hi : i < l.length) (hj : j < l.length) (hij : i ≠ j) :
    ((l.set i a).set j b).Perm ((l.set i b).set j a) := by
  induction l generalizing i j with
  | nil => simp at hi
  | cons x xs ih =>
    cases i with
    | zero =>
      cases j with
      | zero => exact absurd rfl hij
      | succ j' =>
        have hj' : j' < xs.length := by simpa using hj
        simpa using cons_set_perm xs j' a b hj'
    | succ i' =>
      cases j with
      | zero =>
        have hi' : i' < xs.length := by simpa using hi
        simpa using cons_set_perm xs i' b a hi'
      | succ j' =>
        have hi' : i' < xs.length := by simpa using hi
        have hj' : j' < xs.length := by simpa using hj
        have hij' : i' ≠ j' := fun h => hij (by rw [h])
        simpa using List.Perm.cons x (ih i' j' hi' hj' hij')

theorem set_getD_self (l : List HeapKey) (i : ℕ) (hi : i < l.length) :
    l.set i (l.getD i .dflt) = l := by
  induction l generalizing i with
  | nil => simp at hi
  | cons x xs ih =>
    cases i with
    | zero => simp [List.getD]
    | succ i' =>
      have hi' : i' < xs.length := by simpa using hi
      simp [List.getD] at ih ⊢
      exact ih i' hi'

theorem getD_set_ne (l : List HeapKey) (i j : ℕ) (v : HeapKey) (hij : i ≠ j) :
    (l.set i v).getD j .dflt = l.getD j .dflt := by
  induction l generalizing i j with
  | nil => simp
  | cons x xs ih =>
    cases i with
    | zero =>
      cases j with
      | zero => exact absurd rfl hij
      | succ j' => simp [List.getD]
    | succ i' =>
      cases j with
      | zero => simp [List.getD]
      | succ j' =>
        have hij' : i' ≠ j' := fun h => hij (by rw [h])
        simpa [List.getD] using ih i' j' hij'

theorem siftdownGo_perm (startpos : ℕ) :
    ∀ (fuel : ℕ) (l : List HeapKey) (pos : ℕ) (item : HeapKey), pos < l.length →
      (siftdownGo startpos fuel l pos item).Perm (l.set pos item) := by
  intro fuel
  induction fuel with
  | zero => intro l pos item _; exact List.Perm.refl _
  | succ n ih =>
    intro l pos item hpos
    unfold siftdownGo
    by_cases hs : startpos < pos
    · rw [if_pos hs]
      by_cases hlt : (item.lt (l.getD ((pos - 1) / 2) .dflt)) = true
      · rw [if_pos hlt]
        have hpp : (pos - 1) / 2 < pos := by omega
        have hpplen : (pos - 1) / 2 < (l.set pos (l.getD ((pos - 1) / 2) .dflt)).length := by
          rw [List.length_set]; omega
        refine (ih _ _ item hpplen).trans ?_
        refine (set_set_swap_perm l pos ((pos - 1) / 2) _ item hpos (by omega)
          (by omega)).trans ?_
        have hgd : (l.set pos item).getD ((pos - 1) / 2) .dflt = l.getD ((pos - 1) / 2) .dflt :=
          getD_set_ne l pos ((pos - 1) / 2) item (by omega)
        rw [← hgd, set_getD_self _ _ (by rw [List.length_set]; omega)]
      · rw [if_neg hlt]
    · rw [if_neg hs]

theorem siftupGo_perm (startpos : ℕ) :
    ∀ (fuel : ℕ) (l : List HeapKey) (pos : ℕ) (item : HeapKey), pos < l.length →
      (siftupGo startpos fuel l pos item).Perm (l.set pos item) := by
  intro fuel
  induction fuel with
  | zero =>
    intro l pos item hpos
    unfold siftupGo siftdown
    refine (siftdownGo_perm startpos pos _ pos item (by rw [List.length_set]; omega)).trans ?_
    rw [List.set_set]
  | succ n ih =>
    intro l pos item hpos
    unfold siftupGo
    by_cases hc : 2 * pos + 1 < l.length
    · rw [if_pos hc]
      set childpos := if 2 * pos + 1 + 1 < l.length ∧
          ¬ ((l.getD (2 * pos + 1) .dflt).lt (l.getD (2 * pos + 1 + 1) .dflt)) = true then
          2 * pos + 1 + 1 else 2 * pos + 1 with hcp
      have hcplen : childpos < l.length := by
        rw [hcp]; split <;> omega
      have hcpne : pos ≠ childpos := by
        rw [hcp]; split <;> omega
      have hlen2 : childpos < (l.set pos (l.getD childpos .dflt)).length := by
        rw [List.length_set]; omega
      refine (ih _ _ item hlen2).trans ?_
      refine (set_set_swap_perm l pos childpos _ item hpos hcplen hcpne).trans ?_
      have hgd : (l.set pos item).getD childpos .dflt = l.getD childpos .dflt :=
        getD_set_ne l pos childpos item hcpne
      rw [← hgd, set_getD_self _ _ (by rw [List.length_set]; omega)]
    · rw [if_neg hc]
      unfold siftdown
      refine (siftdownGo_perm startpos pos _ pos item (by rw [List.length_set]; omega)).trans ?_
      rw [List.set_set]

theorem set_append_length {α : Type} (l : List α) (k v : α) :
    (l ++ [k]).set l.length v = l ++ [v] := by
  induction l with
  | nil => rfl
  | cons x xs ih => simp [List.set, ih]

theorem heappush_perm (l : List HeapKey) (k : HeapKey) : (heappush l k).Perm (l ++ [k]) := by
  unfold heappush siftdown
  refine (siftdownGo_perm 0 l.length (l ++ [k]) l.length k (by simp)).trans ?_
  rw [set_append_length]

theorem take_getD_last (l : List HeapKey) (hne : l ≠ []) :
    l.take (l.length - 1) ++ [l.getD (l.length - 1) .dflt] = l := by
  induction l with
  | nil => simp at hne
  | cons x xs ih =>
    cases hxs : xs with
    | nil => simp [List.getD]
    | cons y ys =>
      subst hxs
      have hlen : (x :: y :: ys).length - 1 = ys.length + 1 := rfl
      have hlen2 : (y :: ys).length - 1 = ys.length := rfl
      rw [hlen, List.take_succ_cons, List.getD_cons_succ]
      simp only [List.cons_append]
      rw [← hlen2, ih (by simp)]

theorem heappop_perm (l : List HeapKey) (hne : l ≠ []) :
    ∃ l', heappop l = (some (l.headD .dflt), l') ∧ l.Perm (l.headD .dflt :: l') := by
  match l, hne with
  | x :: xs, _ =>
    cases hxs : xs with
    | nil =>
      subst hxs
      exact ⟨[], rfl, List.Perm.refl _⟩
    | cons y ys =>
      subst hxs
      have hlen : (x :: y :: ys).length - 1 = ys.length + 1 := rfl
      set t := (y :: ys).take ((y :: ys).length - 1) with ht
      have hlast : (x :: y :: ys).getD ((x :: y :: ys).length - 1) .dflt =
          (y :: ys).getD ((y :: ys).length - 1) .dflt := by
        rw [hlen, List.getD_cons_succ]
        simp
      set lastelt := (y :: ys).getD ((y :: ys).length - 1) .dflt with hle
      have hrest : (x :: y :: ys).take ((x :: y :: ys).length - 1) = x :: t := by
        rw [hlen, List.take_succ_cons, ht]
        simp
      have hpop : heappop (x :: y :: ys) =
          (some x, siftup ((x :: t).set 0 lastelt) 0 0 lastelt) := by
        unfold heappop
        rw [hlast, hrest]
      refine ⟨siftup ((x :: t).set 0 lastelt) 0 0 lastelt, hpop, ?_⟩
      have hset : (x :: t).set 0 lastelt = lastelt :: t := rfl
      have hperm1 : (siftup ((x :: t).set 0 lastelt) 0 0 lastelt).Perm (lastelt :: t) := by
        rw [hset]
        unfold siftup
        refine (siftupGo_perm 0 _ (lastelt :: t) 0 lastelt (by simp)).trans ?_
        rfl
      have hsplit : t ++ [lastelt] = y :: ys := take_getD_last (y :: ys) (by simp)
      have hperm2 : (t ++ [lastelt]).Perm (lastelt :: t) := by
        have h := @List.perm_middle HeapKey lastelt t []
        simp only [List.append_nil] at h
        exact h
      refine List.Perm.trans ?_ (List.Perm.cons x hperm1.symm)
      show (x :: y :: ys).Perm (x :: (lastelt :: t))
      rw [← hsplit]
      exact List.Perm.cons x hperm2

theorem extends_refl (e : MatchingEngine) : Extends e e :=
  ⟨⟨[], by simp⟩, ⟨[], by simp⟩, fun _ _ => rfl, fun h => h, rfl⟩

theorem extends_trans {e1 e2 e3 : MatchingEngine} (h12 : Extends e1 e2)
    (h23 : Extends e2 e3) : Extends e1 e3 := by
  obtain ⟨⟨t12, ht12⟩, ⟨s12, hs12⟩, hc12, hn12, hd12⟩ := h12
  obtain ⟨⟨t23, ht23⟩, ⟨s23, hs23⟩, hc23, hn23, hd23⟩ := h23
  refine ⟨⟨t12 ++ t23, by rw [ht23, ht12, List.append_assoc]⟩,
    ⟨s12 ++ s23, by rw [hs23, hs12, List.append_assoc]⟩,
    fun i hi => (hc23 i hi).trans (hc12 i hi),
    fun h => hn23 (hn12 h), hd23.trans hd12⟩

theorem extends_ebind {e0 : MatchingEngine} (r : MatchingEngine × Option EngineErr)
    (f : MatchingEngine → MatchingEngine × Option EngineErr)
    (h1 : Extends e0 r.1) (h2 : Extends e0 (f r.1).1) :
    Extends e0 (ebind r f).1 := by
  obtain ⟨e, err⟩ := r
  cases err with
  | none => exact h2
  | some err => exact h1

theorem extends_same {e e' : MatchingEngine}
    (ht : e'.trades = e.trades) (hl : e'.submit_log = e.submit_log)
    (hc : e'._iceberg_child_to_parent = e._iceberg_child_to_parent)
    (hb : e'.order_books = e.order_books)
    (hd : e'.default_symbol = e.default_symbol) : Extends e e' :=
  ⟨⟨[], by rw [ht, List.append_nil]⟩, ⟨[], by rw [hl, List.append_nil]⟩,
   fun i _ => by rw [hc],
   fun h => by unfold BooksNodup at h ⊢; rw [hb]; exact h,
   hd⟩

theorem extends_set_book {e : MatchingEngine} (sym : String) (b b' : OrderBook)
    (hb : alookup e.order_books sym = some b)
    (hm : b._orders_by_id.Nodup → b'._orders_by_id.Nodup) :
    Extends e (e.set_book sym b') := by
  refine ⟨⟨[], by simp [MatchingEngine.set_book]⟩, ⟨[], by simp [MatchingEngine.set_book]⟩,
    fun i _ => rfl, ?_, rfl⟩
  intro h sym' c hc
  simp only [MatchingEngine.set_book] at hc
  by_cases hs : sym' = sym
  · subst hs
    rw [alookup_aset_self] at hc
    cases hc
    exact hm (h sym' b hb)
  · rw [alookup_aset_ne _ _ _ _ hs] at hc
    exact h sym' c hc

theorem best_bid_members (store : ObjectStore) (b : OrderBook) :
    ((OrderBook.best_bid store b).1)._orders_by_id = b._orders_by_id := by
  unfold OrderBook.best_bid
  dsimp only
  split <;> rfl

theorem best_ask_members (store : ObjectStore) (b : OrderBook) :
    ((OrderBook.best_ask store b).1)._orders_by_id = b._orders_by_id := by
  unfold OrderBook.best_ask
  dsimp only
  split <;> rfl

theorem add_order_ok_nodup (store : ObjectStore) (b : OrderBook) (o : Order)
    (sb : ObjectStore × OrderBook) (h : OrderBook.add_order store b o = .ok sb)
    (hn : b._orders_by_id.Nodup) : sb.2._orders_by_id.Nodup := by
  unfold OrderBook.add_order at h
  by_cases h1 : o.symbol ≠ none ∧ o.symbol ≠ some b.symbol
  · rw [if_pos h1] at h
    simp at h
  · rw [if_neg h1] at h
    by_cases h2 : o.type = .STOP_LOSS ∨ o.type = .STOP_LIMIT ∨ o.type = .TRAILING_STOP ∨
        o.type = .ICEBERG
    · rw [if_pos h2] at h
      simp at h
    · rw [if_neg h2] at h
      dsimp only at h
      have key : ∀ (members : List String), members = (if b._orders_by_id.contains o.id
            then b._orders_by_id else b._orders_by_id ++ [o.id]) → members.Nodup := by
        intro members hmem
        by_cases hc : b._orders_by_id.contains o.id
        · rw [hmem, if_pos hc]; exact hn
        · rw [hmem, if_neg hc]
          simp at hc
          refine List.Nodup.append hn (List.nodup_singleton _) ?_
          intro a ha hb'
          simp only [List.mem_singleton] at hb'
          subst hb'
          exact hc (by simpa using ha)
      by_cases hside : o.side = .BUY
      · rw [if_pos hside] at h
        cases h
        exact key _ rfl
      · rw [if_neg hside] at h
        cases h
        exact key _ rfl
theorem extends_apply_trade_balances (e : MatchingEngine) (buy sell : Order)
    (price quantity : ℚ) :
    Extends e (e._apply_trade_balances buy sell price quantity) := by
  unfold MatchingEngine._apply_trade_balances
  dsimp only
  apply extends_same <;> (split <;> split <;> rfl)

theorem extends_update_trailing (e : MatchingEngine) (symbol : Option String) :
    Extends e (e._update_trailing_stops symbol) := by
  unfold MatchingEngine._update_trailing_stops
  split
  · exact extends_refl e
  · dsimp only
    split
    · exact extends_refl e
    · split
      · exact extends_refl e
      · exact extends_same rfl rfl rfl rfl rfl

theorem extends_estimate (e : MatchingEngine) (o : Order) :
    Extends e (e._estimate_notional o).1 := by
  unfold MatchingEngine._estimate_notional
  by_cases hm : o.type = .MARKET
  · rw [if_pos hm]
    cases e.last_trade_price with
    | some ref => exact extends_refl e
    | none =>
      cases hb : alookup e.order_books e.default_symbol with
      | none => exact extends_refl e
      | some b =>
        dsimp only
        have hset : Extends e (e.set_book e.default_symbol
            (if o.side = .BUY then OrderBook.best_ask e.object_store b
             else OrderBook.best_bid e.object_store b).1) := by
          refine extends_set_book e.default_symbol b _ hb (fun h => ?_)
          by_cases hside : o.side = .BUY
          · rw [if_pos hside, best_ask_members]; exact h
          · rw [if_neg hside, best_bid_members]; exact h
        split
        · split
          · exact hset
          · exact hset
        · exact hset
  · rw [if_neg hm]
    cases o.price with
    | none => exact extends_refl e
    | some p => exact extends_refl e

theorem extends_enforce_risk (e : MatchingEngine) (t : Trader) (o : Order) :
    Extends e (e._enforce_risk t o).1 := by
  unfold MatchingEngine._enforce_risk
  exact extends_estimate e o


theorem extends_ebind2 {e0 : MatchingEngine} (r : MatchingEngine × Option EngineErr)
    (f : MatchingEngine → MatchingEngine × Option EngineErr)
    (h1 : Extends e0 r.1) (h2 : ∀ e, Extends e0 e → Extends e0 (f e).1) :
    Extends e0 (ebind r f).1 := by
  obtain ⟨e, err⟩ := r
  cases err with
  | none => exact h2 e h1
  | some err => exact h1

theorem extends_append_trade (e : MatchingEngine) (t : Trade) (c : ℕ) :
    Extends e { e with trades := e.trades ++ [t], clock := c } :=
  ⟨⟨[t], rfl⟩, ⟨[], by simp⟩, fun _ _ => rfl, fun h => h, rfl⟩

theorem remove_order_members_nodup (store : ObjectStore) (b : OrderBook) (oid : String)
    (h : b._orders_by_id.Nodup) :
    ((OrderBook.remove_order store b oid).2)._orders_by_id.Nodup := by
  unfold OrderBook.remove_order
  split
  · exact List.Nodup.erase _ h
  · exact h

theorem extends_set_store (e : MatchingEngine) (st : ObjectStore) :
    Extends e { e with object_store := st } :=
  extends_same rfl rfl rfl rfl rfl

theorem extends_if_run (e0 e' : MatchingEngine) (c : Bool) (cl : Call) (n : ℕ)
    (h : Extends e0 e') (h2 : Extends e0 (run n e' cl).1) :
    Extends e0 (if c then run n e' cl else (e', none)).1 := by
  cases c
  · exact h
  · exact h2

theorem extends_run : ∀ (n : ℕ) (e : MatchingEngine) (c : Call), Extends e (run n e c).1 := by
  intro n
  induction n with
  | zero => intro e c; exact extends_refl e
  | succ n ih =>
    intro e c
    cases c with
    | submit o =>
      simp only [run]
      have he1 : Extends e { e with submit_log := e.submit_log ++ [o] } :=
        ⟨⟨[], by simp⟩, ⟨[o], rfl⟩, fun _ _ => rfl, fun h => h, rfl⟩
      refine extends_ebind2 _ _ ?_ ?_
      · cases h : alookup e.traders (o.trader_id.getD "") with
        | none => exact he1
        | some t =>
          dsimp only
          cases h2 : (MatchingEngine._enforce_risk { e with submit_log := e.submit_log ++ [o] } t o).2 with
          | some err => exact extends_trans he1 (extends_enforce_risk _ t o)
          | none =>
            dsimp only
            cases h3 : alookup (MatchingEngine._enforce_risk { e with submit_log := e.submit_log ++ [o] } t o).1.traders (o.trader_id.getD "") with
            | some t' =>
              exact extends_trans (extends_trans he1 (extends_enforce_risk _ t o))
                (extends_same rfl rfl rfl rfl rfl)
            | none => exact extends_trans he1 (extends_enforce_risk _ t o)
      · intro e2 he2
        cases hB : e2.get_book o.symbol with
        | none => exact he2
        | some book =>
          dsimp only
          cases htype : o.type with
          | STOP_LOSS => exact extends_trans he2 (extends_same rfl rfl rfl rfl rfl)
          | STOP_LIMIT => exact extends_trans he2 (extends_same rfl rfl rfl rfl rfl)
          | TRAILING_STOP => exact extends_trans he2 (extends_same rfl rfl rfl rfl rfl)
          | ICEBERG => exact extends_trans he2 (ih e2 _)
          | MARKET =>
            refine extends_ebind2 _ _ (extends_trans he2 (ih e2 _)) ?_
            intro e3 he3
            split
            · refine extends_ebind2 _ _ (extends_trans he3 (ih e3 _)) ?_
              intro e4 he4
              cases hB2 : e4.get_book o.symbol with
              | none => exact he4
              | some book' =>
                dsimp only
                cases hg : OrderBook.get_order e4.object_store book' o.id with
                | none => exact he4
                | some existing =>
                  dsimp only
                  split
                  · exact extends_trans he4 (ih e4 _)
                  · exact he4
            · exact he3
          | LIMIT =>
            refine extends_ebind2 _ _ (extends_trans he2 (ih e2 _)) ?_
            intro e3 he3
            split
            · refine extends_ebind2 _ _ (extends_trans he3 (ih e3 _)) ?_
              intro e4 he4
              cases hB2 : e4.get_book o.symbol with
              | none => exact he4
              | some book' =>
                dsimp only
                cases hg : OrderBook.get_order e4.object_store book' o.id with
                | none => exact he4
                | some existing =>
                  dsimp only
                  split
                  · exact extends_trans he4 (ih e4 _)
                  · exact he4
            · exact he3
    | matchOrders symbol =>
      simp only [run]
      cases h : e.get_book symbol with
      | none => exact extends_refl e
      | some book =>
        dsimp only
        split
        · exact ih e _
        · exact ih e _
    | fifo sym =>
      simp only [run]
      cases h : alookup e.order_books sym with
      | none => exact extends_refl e
      | some book =>
        dsimp only
        have h1 : Extends e (e.set_book sym (OrderBook.best_bid e.object_store book).1) :=
          extends_set_book sym book _ h (fun hn => by rw [best_bid_members]; exact hn)
        have hE : Extends e ((e.set_book sym (OrderBook.best_bid e.object_store book).1).set_book
            sym (OrderBook.best_ask
              (e.set_book sym (OrderBook.best_bid e.object_store book).1).object_store
              (OrderBook.best_bid e.object_store book).1).1) := by
          refine extends_trans h1 (extends_set_book sym
            (OrderBook.best_bid e.object_store book).1 _ ?_
            (fun hn => by rw [best_ask_members]; exact hn))
          exact alookup_aset_self _ _ _
        cases hrb : (OrderBook.best_bid e.object_store book).2 with
        | none =>
          cases hra : (OrderBook.best_ask
              (e.set_book sym (OrderBook.best_bid e.object_store book).1).object_store
              (OrderBook.best_bid e.object_store book).1).2 with
          | none => exact hE
          | some ba => exact hE
        | some bb =>
          cases hra : (OrderBook.best_ask
              (e.set_book sym (OrderBook.best_bid e.object_store book).1).object_store
              (OrderBook.best_bid e.object_store book).1).2 with
          | none => exact hE
          | some ba =>
            dsimp only
            split
            · exact hE
            · refine extends_ebind2 _ _ (extends_if_run _ _ _ _ _ ?_ ?_) ?_
              · exact extends_trans (extends_trans (extends_trans (extends_trans hE
                  (extends_append_trade _ _ _)) (extends_apply_trade_balances _ _ _ _ _))
                  (extends_set_store _ _)) (extends_set_store _ _)
              · refine extends_trans ?_ (ih _ _)
                exact extends_trans (extends_trans (extends_trans (extends_trans hE
                  (extends_append_trade _ _ _)) (extends_apply_trade_balances _ _ _ _ _))
                  (extends_set_store _ _)) (extends_set_store _ _)
              · intro e7 he7
                refine extends_ebind2 _ _
                  (extends_if_run _ _ _ _ _ he7 (extends_trans he7 (ih _ _))) ?_
                intro e8 he8
                refine extends_ebind2 _ _ (extends_trans he8 (ih _ _)) ?_
                intro e9 he9
                refine extends_ebind2 _ _ (extends_trans he9 (ih _ _)) ?_
                intro e10 he10
                refine extends_ebind2 _ _ (extends_trans (extends_trans he10
                  (extends_update_trailing _ _)) (ih _ _)) ?_
                intro e11 he11
                exact extends_trans he11 (ih _ _)
    | proRata sym =>
      simp only [run]
      cases h : alookup e.order_books sym with
      | none => exact extends_refl e
      | some book =>
        dsimp only
        have h1 : Extends e (e.set_book sym (OrderBook.best_bid e.object_store book).1) :=
          extends_set_book sym book _ h (fun hn => by rw [best_bid_members]; exact hn)
        have hE : Extends e ((e.set_book sym (OrderBook.best_bid e.object_store book).1).set_book
            sym (OrderBook.best_ask
              (e.set_book sym (OrderBook.best_bid e.object_store book).1).object_store
              (OrderBook.best_bid e.object_store book).1).1) := by
          refine extends_trans h1 (extends_set_book sym
            (OrderBook.best_bid e.object_store book).1 _ ?_
            (fun hn => by rw [best_ask_members]; exact hn))
          exact alookup_aset_self _ _ _
        cases hrb : (OrderBook.best_bid e.object_store book).2 with
        | none =>
          cases hra : (OrderBook.best_ask
              (e.set_book sym (OrderBook.best_bid e.object_store book).1).object_store
              (OrderBook.best_bid e.object_store book).1).2 with
          | none => exact hE
          | some ba => exact hE
        | some bb =>
          cases hra : (OrderBook.best_ask
              (e.set_book sym (OrderBook.best_bid e.object_store book).1).object_store
              (OrderBook.best_bid e.object_store book).1).2 with
          | none => exact hE
          | some ba =>
            dsimp only
            cases hbp : bb.price with
            | none =>
              cases hap : ba.price with
              | none => exact extends_trans hE (ih _ _)
              | some bap => exact extends_trans hE (ih _ _)
            | some bbp =>
              cases hap : ba.price with
              | none => exact extends_trans hE (ih _ _)
              | some bap =>
                dsimp only
                split
                · exact hE
                · cases h2 : alookup ((e.set_book sym (OrderBook.best_bid e.object_store
                      book).1).set_book sym (OrderBook.best_ask
                      (e.set_book sym (OrderBook.best_bid e.object_store book).1).object_store
                      (OrderBook.best_bid e.object_store book).1).1).order_books sym with
                  | none => exact hE
                  | some book2 =>
                    dsimp only
                    split
                    · exact hE
                    · split
                      · exact hE
                      · exact extends_trans hE (ih _ _)
    | proRataAsks sym execution_price total_ask_qty match_qty asks bids bi remaining =>
      simp only [run]
      cases asks with
      | nil =>
        refine extends_ebind2 _ _ (ih e _) ?_
        intro e2 he2
        refine extends_ebind2 _ _ (extends_trans he2 (ih _ _)) ?_
        intro e3 he3
        refine extends_ebind2 _ _ (extends_trans (extends_trans he3
          (extends_update_trailing _ _)) (ih _ _)) ?_
        intro e4 he4
        exact extends_trans he4 (ih _ _)
      | cons askId restAsks =>
        dsimp only
        by_cases hrem : remaining ≤ 0
        · rw [if_pos hrem]
          refine extends_ebind2 _ _ (ih e _) ?_
          intro e2 he2
          refine extends_ebind2 _ _ (extends_trans he2 (ih _ _)) ?_
          intro e3 he3
          refine extends_ebind2 _ _ (extends_trans (extends_trans he3
            (extends_update_trailing _ _)) (ih _ _)) ?_
          intro e4 he4
          exact extends_trans he4 (ih _ _)
        · rw [if_neg hrem]
          cases h : alookup e.object_store askId with
          | none =>
            refine extends_ebind2 _ _ (ih e _) ?_
            intro e2 he2
            refine extends_ebind2 _ _ (extends_trans he2 (ih _ _)) ?_
            intro e3 he3
            refine extends_ebind2 _ _ (extends_trans (extends_trans he3
              (extends_update_trailing _ _)) (ih _ _)) ?_
            intro e4 he4
            exact extends_trans he4 (ih _ _)
          | some ask =>
            exact ih e _
    | proRataFill sym execution_price total_ask_qty match_qty restAsks askId bids bi to_fill remaining =>
      simp only [run]
      split
      · cases hb : alookup e.object_store (bids.getD bi "") with
        | none =>
          cases ha : alookup e.object_store askId with
          | none => exact ih e _
          | some ask => exact ih e _
        | some bid =>
          cases ha : alookup e.object_store askId with
          | none => exact ih e _
          | some ask =>
            dsimp only
            split
            · exact ih e _
            · refine extends_ebind2 _ _ (extends_if_run _ _ _ _ _ ?_ ?_) ?_
              · exact extends_trans (extends_trans (extends_trans
                  (extends_append_trade _ _ _) (extends_apply_trade_balances _ _ _ _ _))
                  (extends_set_store _ _)) (extends_set_store _ _)
              · refine extends_trans ?_ (ih _ _)
                exact extends_trans (extends_trans (extends_trans
                  (extends_append_trade _ _ _) (extends_apply_trade_balances _ _ _ _ _))
                  (extends_set_store _ _)) (extends_set_store _ _)
              · intro e7 he7
                refine extends_ebind2 _ _
                  (extends_if_run _ _ _ _ _ he7 (extends_trans he7 (ih _ _))) ?_
                intro e8 he8
                exact extends_trans he8 (ih _ _)
      · exact ih e _
    | activateStops symbol =>
      simp only [run]
      split
      · exact extends_refl e
      · cases h : e.get_book symbol with
        | none => exact extends_refl e
        | some book =>
          dsimp only
          split
          · exact extends_refl e
          · exact ih e _
    | stopLoop sym price_ref pending acc =>
      simp only [run]
      cases pending with
      | nil => exact extends_same rfl rfl rfl rfl rfl
      | cons s rest =>
        dsimp only
        split
        · exact ih e _
        · split
          · refine extends_ebind2 _ _ (ih e _) (fun e2 he2 => extends_trans he2 (ih e2 _))
          · exact ih e _
    | activateStopLimits symbol =>
      simp only [run]
      split
      · exact extends_refl e
      · cases h : e.get_book symbol with
        | none => exact extends_refl e
        | some book =>
          dsimp only
          split
          · exact extends_refl e
          · exact ih e _
    | stopLimitLoop sym price_ref pending acc =>
      simp only [run]
      cases pending with
      | nil => exact extends_same rfl rfl rfl rfl rfl
      | cons s rest =>
        dsimp only
        split
        · exact ih e _
        · split
          · refine extends_ebind2 _ _ (ih e _) (fun e2 he2 => extends_trans he2 (ih e2 _))
          · exact ih e _
    | activateTrailing symbol =>
      simp only [run]
      split
      · exact extends_refl e
      · cases h : e.get_book symbol with
        | none => exact extends_refl e
        | some book =>
          dsimp only
          split
          · exact extends_refl e
          · exact ih e _
    | trailingLoop sym price_ref pending acc =>
      simp only [run]
      cases pending with
      | nil => exact extends_same rfl rfl rfl rfl rfl
      | cons s rest =>
        dsimp only
        split
        · exact ih e _
        · split
          · refine extends_ebind2 _ _ (ih e _) (fun e2 he2 => extends_trans he2 (ih e2 _))
          · exact ih e _
    | icebergParent o =>
      simp only [run]
      exact extends_trans (extends_same rfl rfl rfl rfl rfl) (ih _ _)
    | spawnChild parent_id =>
      simp only [run]
      cases h : alookup e._iceberg_parents parent_id with
      | none => exact extends_refl e
      | some parent =>
        dsimp only
        split
        · exact extends_refl e
        · split
          · exact extends_refl e
          · refine extends_trans ?_ (ih _ _)
            refine ⟨⟨[], by simp⟩, ⟨[], by simp⟩, ?_, fun hh => hh, rfl⟩
            intro i hi
            exact alookup_aset_ne _ _ _ _ (hi parent.id (toString e.clock))
    | onRemoved oid =>
      simp only [run]
      cases h : alookup e._iceberg_child_to_parent oid with
      | none => exact extends_refl e
      | some parent_id =>
        dsimp only
        cases h2 : alookup e._iceberg_parents parent_id with
        | none => exact extends_refl e
        | some p =>
          dsimp only
          split
          · exact extends_same rfl rfl rfl rfl rfl
          · exact ih e _
    | addOrder sym o =>
      simp only [run]
      cases h : alookup e.order_books sym with
      | none => exact extends_refl e
      | some book =>
        dsimp only
        cases h2 : OrderBook.add_order e.object_store book o with
        | error err => exact extends_refl e
        | ok sb =>
          dsimp only
          refine extends_trans (extends_trans (extends_same rfl rfl rfl rfl rfl)
            (extends_set_book sym book sb.2 h
              (fun hn => add_order_ok_nodup _ _ _ _ h2 hn))) (ih _ _)
    | removeOrder sym oid =>
      simp only [run]
      cases h : alookup e.order_books sym with
      | none => exact extends_refl e
      | some book =>
        dsimp only
        have hset : Extends e (e.set_book sym (OrderBook.remove_order e.object_store book oid).2) :=
          extends_set_book sym book _ h (fun hn => remove_order_members_nodup _ _ _ hn)
        split
        · exact hset
        · exact extends_trans hset (ih _ _)
    | cancel oid symbol =>
      simp only [run]
      cases h : e.get_book symbol with
      | none => exact extends_refl e
      | some book => exact ih e _

theorem apply_trade_balances_trades (e : MatchingEngine) (buy sell : Order) (p q : ℚ) :
    (e._apply_trade_balances buy sell p q).trades = e.trades := by
  unfold MatchingEngine._apply_trade_balances
  dsimp only
  split <;> split <;> rfl

theorem extends_fifo_tail (n : ℕ) (sym : String) (i2 : String) (g : MatchingEngine → Bool)
    (r1 : MatchingEngine × Option EngineErr) (E : MatchingEngine) (h1 : Extends E r1.1) :
    Extends E (ebind r1 fun e7 =>
      ebind (if g e7 then run n e7 (.removeOrder sym i2) else (e7, none)) fun e8 =>
      ebind (run n e8 (.activateStops (some sym))) fun e9 =>
      ebind (run n e9 (.activateStopLimits (some sym))) fun e10 =>
      ebind (run n (e10._update_trailing_stops (some sym)) (.activateTrailing (some sym)))
        fun e11 =>
      run n e11 (.fifo sym)).1 := by
  refine extends_ebind2 _ _ h1 ?_
  intro e7 he7
  refine extends_ebind2 _ _
    (extends_if_run _ _ _ _ _ he7 (extends_trans he7 (extends_run n _ _))) ?_
  intro e8 he8
  refine extends_ebind2 _ _ (extends_trans he8 (extends_run n _ _)) ?_
  intro e9 he9
  refine extends_ebind2 _ _ (extends_trans he9 (extends_run n _ _)) ?_
  intro e10 he10
  refine extends_ebind2 _ _ (extends_trans (extends_trans he10 (extends_update_trailing _ _))
    (extends_run n _ _)) ?_
  intro e11 he11
  exact extends_trans he11 (extends_run n _ _)

theorem exists_trades_tail (X : MatchingEngine × Option EngineErr) (base : List Trade)
    (t : Trade) (E : MatchingEngine) (hE : E.trades = base ++ [t]) (h : Extends E X.1) :
    ∃ tl, X.1.trades = base ++ t :: tl := by
  obtain ⟨⟨tl, htl⟩, -, -, -, -⟩ := h
  refine ⟨tl, ?_⟩
  rw [htl, hE, List.append_assoc]
  rfl

/-- C2: one FIFO iteration on a crossed book emits a trade of quantity
`min(bid qty, ask qty)` at the ask's price when defined, else the bid's,
else 0; the basic-cross scenario yields the single trade
`(b1, a1, 100.5, 1)`, leaves `b1` resting with quantity 1 and an empty
ask side. -/
theorem C2_fifo_price_time_cross :
    (∀ (n : ℕ) (e : MatchingEngine) (sym : String) (book : OrderBook) (bb ba : Order),
      alookup e.order_books sym = some book →
      (OrderBook.best_bid e.object_store book).2 = some bb →
      (OrderBook.best_ask
        (e.set_book sym (OrderBook.best_bid e.object_store book).1).object_store
        (OrderBook.best_bid e.object_store book).1).2 = some ba →
      XRat.lt (match bb.price with | none => XRat.pinf | some p => XRat.fin p)
        (XRat.fin (match ba.price with | none => 0 | some p => p)) = false →
      ∃ tl, (run (n + 1) e (.fifo sym)).1.trades =
        e.trades ++ ⟨(if bb.side = .BUY then bb else ba).id,
          (if bb.side = .BUY then ba else bb).id,
          (match ba.price with | some p => p | none => bb.price.getD 0),
          min bb.quantity ba.quantity, e.clock⟩ :: tl) ∧
    c2_run.2 = none ∧
    c2_run.1.trades = [⟨"b1", "a1", 201 / 2, 1, 0⟩] ∧
    (alookup c2_run.1.order_books "AAPL").isSome = true ∧
    (OrderBook.get_order c2_run.1.object_store c2_book "b1").map Order.quantity = some 1 ∧
    (OrderBook.best_ask c2_run.1.object_store c2_book).2 = none := by
  refine ⟨?_, by decide, by decide, by decide, by decide, by decide⟩
  intro n e sym book bb ba h hrb hra hcross
  simp only [run]
  rw [h]
  dsimp only
  rw [hrb, hra]
  dsimp only
  rw [hcross]
  simp only [Bool.false_eq_true, if_false]
  refine exists_trades_tail _ _ _ _ ?_
    (extends_fifo_tail n sym _ _ _ _
      (extends_if_run _ _ _ _ _ (extends_refl _) (extends_run n _ _)))
  have hp : (match ba.price with
      | some p => p
      | none => match bb.price with
        | some bp => if bp = 0 then (match ba.price with | none => (0 : ℚ) | some p => p) else bp
        | none => (match ba.price with | none => (0 : ℚ) | some p => p))
      = (match ba.price with | some p => p | none => bb.price.getD 0) := by
    cases hba : ba.price with
    | some p => rfl
    | none =>
      cases hbb : bb.price with
      | none => rfl
      | some bp =>
        by_cases hbp : bp = 0
        · subst hbp
          simp
        · simp [hbp]
  rw [← hp]
  exact apply_trade_balances_trades _ _ _ _ _

theorem C2_fifo_price_time_cross_witness :
    alookup c2w_engine.order_books "AAPL" = some c2w_book ∧
    (OrderBook.best_bid c2w_engine.object_store c2w_book).2 = some c2_b1 ∧
    (OrderBook.best_ask
      (c2w_engine.set_book "AAPL" (OrderBook.best_bid c2w_engine.object_store c2w_book).1).object_store
      (OrderBook.best_bid c2w_engine.object_store c2w_book).1).2 = some c2_a1 ∧
    (∃ tl, (run 6 c2w_engine (.fifo "AAPL")).1.trades =
      c2w_engine.trades ++ (⟨"b1", "a1", 201 / 2, 1, 0⟩ : Trade) :: tl) :=
  ⟨by decide, by decide, by decide,
   C2_fifo_price_time_cross.1 5 c2w_engine "AAPL" c2w_book c2_b1 c2_a1
     (by decide) (by decide) (by decide) (by decide)⟩

theorem ebind_ok (r : MatchingEngine × Option EngineErr)
    (f : MatchingEngine → MatchingEngine × Option EngineErr)
    (h : (ebind r f).2 = none) : r.2 = none ∧ ebind r f = f r.1 := by
  obtain ⟨e, err⟩ := r
  cases err with
  | none => exact ⟨rfl, rfl⟩
  | some err => simp [ebind] at h

theorem submit_mem_log (n : ℕ) (e : MatchingEngine) (o : Order) :
    o ∈ (run (n + 1) e (.submit o)).1.submit_log := by
  simp only [run]
  have key : ∀ r : MatchingEngine × Option EngineErr,
      Extends { e with submit_log := e.submit_log ++ [o] } r.1 →
      o ∈ r.1.submit_log := by
    intro r hr
    obtain ⟨-, ⟨sl, hsl⟩, -, -, -⟩ := hr
    rw [hsl]
    simp
  apply key
  refine extends_ebind2 _ _ ?_ ?_
  · cases h : alookup e.traders (o.trader_id.getD "") with
    | none => exact extends_refl _
    | some t =>
      dsimp only
      cases h2 : (MatchingEngine._enforce_risk { e with submit_log := e.submit_log ++ [o] } t o).2 with
      | some err => exact extends_enforce_risk _ t o
      | none =>
        dsimp only
        cases h3 : alookup (MatchingEngine._enforce_risk { e with submit_log := e.submit_log ++ [o] } t o).1.traders (o.trader_id.getD "") with
        | some t' =>
          exact extends_trans (extends_enforce_risk _ t o) (extends_same rfl rfl rfl rfl rfl)
        | none => exact extends_enforce_risk _ t o
  · intro e2 he2
    cases hB : e2.get_book o.symbol with
    | none => exact he2
    | some book =>
      dsimp only
      cases htype : o.type with
      | STOP_LOSS => exact extends_trans he2 (extends_same rfl rfl rfl rfl rfl)
      | STOP_LIMIT => exact extends_trans he2 (extends_same rfl rfl rfl rfl rfl)
      | TRAILING_STOP => exact extends_trans he2 (extends_same rfl rfl rfl rfl rfl)
      | ICEBERG => exact extends_trans he2 (extends_run n e2 _)
      | MARKET =>
        refine extends_ebind2 _ _ (extends_trans he2 (extends_run n e2 _)) ?_
        intro e3 he3
        split
        · refine extends_ebind2 _ _ (extends_trans he3 (extends_run n e3 _)) ?_
          intro e4 he4
          cases hB2 : e4.get_book o.symbol with
          | none => exact he4
          | some book' =>
            dsimp only
            cases hg : OrderBook.get_order e4.object_store book' o.id with
            | none => exact he4
            | some existing =>
              dsimp only
              split
              · exact extends_trans he4 (extends_run n e4 _)
              · exact he4
        · exact he3
      | LIMIT =>
        refine extends_ebind2 _ _ (extends_trans he2 (extends_run n e2 _)) ?_
        intro e3 he3
        split
        · refine extends_ebind2 _ _ (extends_trans he3 (extends_run n e3 _)) ?_
          intro e4 he4
          cases hB2 : e4.get_book o.symbol with
          | none => exact he4
          | some book' =>
            dsimp only
            cases hg : OrderBook.get_order e4.object_store book' o.id with
            | none => exact he4
            | some existing =>
              dsimp only
              split
              · exact extends_trans he4 (extends_run n e4 _)
              · exact he4
        · exact he3

theorem stopLoop_spec (sym : String) (L : ℚ) :
    ∀ (pending : List Order) (n : ℕ) (e : MatchingEngine) (acc : List Order),
      (run n e (.stopLoop sym L pending acc)).2 = none →
      (run n e (.stopLoop sym L pending acc)).1._stop_orders
          = acc ++ pending.filter (stop_kept sym L) ∧
      ∀ s ∈ pending, stop_kept sym L s = false →
        derived_market s sym ∈ (run n e (.stopLoop sym L pending acc)).1.submit_log := by
  intro pending
  induction pending with
  | nil =>
    intro n e acc hok
    cases n with
    | zero => simp [run] at hok
    | succ n =>
      refine ⟨by simp [run], ?_⟩
      intro s hs
      cases hs
  | cons s rest ihp =>
    intro n e acc hok
    cases n with
    | zero => simp [run] at hok
    | succ n =>
      simp only [run] at hok ⊢
      by_cases hsym : s.symbol ≠ none ∧ s.symbol ≠ some sym
      · rw [if_pos hsym] at hok ⊢
        have hkept : stop_kept sym L s = true := by
          unfold stop_kept
          rw [decide_eq_true hsym]
          simp
        obtain ⟨h1, h2⟩ := ihp n e (acc ++ [s]) hok
        refine ⟨?_, ?_⟩
        · rw [h1, List.filter_cons_of_pos hkept]
          simp
        · intro s' hs' hf
          rcases List.mem_cons.mp hs' with h | h
          · subst h
            rw [hkept] at hf
            cases hf
          · exact h2 s' h hf
      · rw [if_neg hsym] at hok ⊢
        by_cases htrig : stop_triggered s L = true
        · rw [if_pos htrig] at hok ⊢
          have hkept : stop_kept sym L s = false := by
            unfold stop_kept
            rw [decide_eq_false hsym, htrig]
            rfl
          obtain ⟨hfst, heq⟩ := ebind_ok _ _ hok
          have hok2 : (run n (run n e (.submit (derived_market s sym))).1
              (.stopLoop sym L rest acc)).2 = none := by
            rw [← heq]
            exact hok
          rw [heq]
          obtain ⟨h1, h2⟩ := ihp n _ acc hok2
          refine ⟨?_, ?_⟩
          · rw [h1, List.filter_cons, hkept]
            simp
          · intro s' hs' hf
            rcases List.mem_cons.mp hs' with h | h
            · subst h
              cases n with
              | zero => simp [run] at hfst
              | succ m =>
                have hmem : derived_market s' sym ∈
                    (run (m + 1) e (.submit (derived_market s' sym))).1.submit_log :=
                  submit_mem_log m e (derived_market s' sym)
                obtain ⟨-, ⟨sl, hsl⟩, -, -, -⟩ :=
                  extends_run (m + 1) (run (m + 1) e (.submit (derived_market s' sym))).1
                    (.stopLoop sym L rest acc)
                rw [hsl]
                exact List.mem_append.mpr (Or.inl hmem)
            · exact h2 s' h hf
        · rw [if_neg htrig] at hok ⊢
          have hkept : stop_kept sym L s = true := by
            unfold stop_kept
            rw [eq_false_of_ne_true htrig]
            simp
          obtain ⟨h1, h2⟩ := ihp n e (acc ++ [s]) hok
          refine ⟨?_, ?_⟩
          · rw [h1, List.filter_cons_of_pos hkept]
            simp
          · intro s' hs' hf
            rcases List.mem_cons.mp hs' with h | h
            · subst h
              rw [hkept] at hf
              cases hf
            · exact h2 s' h hf
/-- An error-free `_activate_stop_orders` pass keeps exactly the
other-symbol and untriggered entries (`stop_kept`), and every dropped
(triggered) entry is re-submitted through `submit_order` as its derived
MARKET order `<orig>-mkt`. -/
theorem stop_activation_spec :
    ∀ (n : ℕ) (e : MatchingEngine) (symbol : Option String) (book : OrderBook) (L : ℚ),
      e._stop_orders ≠ [] →
      e.get_book symbol = some book →
      (alookup e.last_trade_price_by_symbol book.symbol).orElse
        (fun _ => e.last_trade_price) = some L →
      (run (n + 1) e (.activateStops symbol)).2 = none →
      (run (n + 1) e (.activateStops symbol)).1._stop_orders
          = e._stop_orders.filter (stop_kept book.symbol L) ∧
      ∀ s ∈ e._stop_orders, stop_kept book.symbol L s = false →
        derived_market s book.symbol ∈
          (run (n + 1) e (.activateStops symbol)).1.submit_log := by
  intro n e symbol book L hne hbook hL hok
  simp only [run] at hok ⊢
  rw [if_neg hne, hbook] at hok ⊢
  dsimp only at hok ⊢
  rw [hL] at hok ⊢
  have h := stopLoop_spec book.symbol L e._stop_orders n e [] hok
  simpa using h

theorem stop_triggered_valid (s : Order) (L S : ℚ) (hp : s.price = some S) (hS : 0 < S) :
    stop_triggered s L
      = (if s.side = .SELL then decide (L ≤ S) else decide (S ≤ L)) := by
  have hS0 : ¬(S = 0) := fun h => absurd (h ▸ hS) (lt_irrefl 0)
  unfold stop_triggered stop_price_or_inf
  rw [hp]
  dsimp only
  rw [if_neg hS0]
  cases hside : s.side with
  | BUY =>
    have hbe : (OrderSide.BUY == OrderSide.SELL) = false := by decide
    simp only [XRat.lt]
    rw [hbe, Bool.false_and, Bool.false_or, if_neg (by decide : ¬(OrderSide.BUY = .SELL))]
    by_cases hLS : L < S
    · rw [decide_eq_true hLS, decide_eq_false (not_le.mpr hLS)]
      rfl
    · rw [decide_eq_false hLS, decide_eq_true (not_lt.mp hLS)]
      rfl
  | SELL => simp

/-- **C6, confirmed.**  After a trade sets the last price `L` for a
symbol, an error-free `_activate_stop_orders` pass keeps exactly the
other-symbol and untriggered entries, where — for held stops with the
construct-time-validated positive stop price `S` — a SELL stop triggers
exactly when `L ≤ S` and a BUY stop exactly when `S ≤ L`; every
triggered same-symbol entry is dropped from the stop list and
re-submitted through `submit_order` (re-running risk admission) as its
derived MARKET order `<orig>-mkt` with the same quantity. -/
theorem C6_stop_activation :
    ∀ (n : ℕ) (e : MatchingEngine) (symbol : Option String) (book : OrderBook) (L : ℚ),
      e._stop_orders ≠ [] →
      e.get_book symbol = some book →
      (alookup e.last_trade_price_by_symbol book.symbol).orElse
        (fun _ => e.last_trade_price) = some L →
      (∀ s ∈ e._stop_orders, ∃ S, s.price = some S ∧ 0 < S) →
      (run (n + 1) e (.activateStops symbol)).2 = none →
      (run (n + 1) e (.activateStops symbol)).1._stop_orders
          = e._stop_orders.filter (fun s =>
              decide (s.symbol ≠ none ∧ s.symbol ≠ some book.symbol)
                || ! (if s.side = .SELL then decide (L ≤ s.price.getD 0)
                      else decide (s.price.getD 0 ≤ L))) ∧
      ∀ s ∈ e._stop_orders, (s.symbol = none ∨ s.symbol = some book.symbol) →
        ∀ S, s.price = some S → (if s.side = .SELL then L ≤ S else S ≤ L) →
        derived_market s book.symbol ∈
          (run (n + 1) e (.activateStops symbol)).1.submit_log := by
  intro n e symbol book L hne hbook hL hvalid hok
  obtain ⟨h1, h2⟩ := stop_activation_spec n e symbol book L hne hbook hL hok
  constructor
  · rw [h1]
    refine List.filter_congr ?_
    intro s hs
    obtain ⟨S, hp, hSpos⟩ := hvalid s hs
    unfold stop_kept
    rw [stop_triggered_valid s L S hp hSpos, hp, Option.getD_some]
  · intro s hs hsym S hp htrig
    obtain ⟨S2, hp2, hS2pos⟩ := hvalid s hs
    obtain rfl : S2 = S := by
      rw [hp] at hp2
      exact (Option.some.inj hp2).symm
    refine h2 s hs ?_
    unfold stop_kept
    rw [stop_triggered_valid s L S2 hp hS2pos]
    have hd : decide (s.symbol ≠ none ∧ s.symbol ≠ some book.symbol) = false := by
      rcases hsym with h | h <;> simp [h]
    have ht2 : (if s.side = .SELL then decide (L ≤ S2) else decide (S2 ≤ L)) = true := by
      by_cases hsd : s.side = .SELL
      · rw [if_pos hsd] at htrig ⊢
        exact decide_eq_true htrig
      · rw [if_neg hsd] at htrig ⊢
        exact decide_eq_true htrig
    rw [hd, ht2]
    rfl

/-- Witness for C6 at the concrete scenario: a held SELL stop with price
10 triggers at last price 5 and is re-submitted as `s2-mkt`. -/
theorem C6_stop_activation_witness :
    c6w_engine._stop_orders ≠ [] ∧
    c6w_engine.get_book (some "AAPL") = some aapl_book ∧
    (alookup c6w_engine.last_trade_price_by_symbol "AAPL").orElse
      (fun _ => c6w_engine.last_trade_price) = some 5 ∧
    (run 20 c6w_engine (.activateStops (some "AAPL"))).2 = none ∧
    ((run 20 c6w_engine (.activateStops (some "AAPL"))).1._stop_orders
        = c6w_engine._stop_orders.filter (fun s =>
            decide (s.symbol ≠ none ∧ s.symbol ≠ some "AAPL")
              || ! (if s.side = .SELL then decide ((5 : ℚ) ≤ s.price.getD 0)
                    else decide (s.price.getD 0 ≤ (5 : ℚ)))) ∧
     ∀ s ∈ c6w_engine._stop_orders, (s.symbol = none ∨ s.symbol = some "AAPL") →
        ∀ S, s.price = some S → (if s.side = .SELL then (5 : ℚ) ≤ S else S ≤ (5 : ℚ)) →
        derived_market s "AAPL" ∈
          (run 20 c6w_engine (.activateStops (some "AAPL"))).1.submit_log) :=
  ⟨by decide, by decide, by decide, by decide,
   C6_stop_activation 19 c6w_engine (some "AAPL") aapl_book 5 (by decide) (by decide)
     (by decide)
     (by
       intro s hs
       have hs2 : s = c6w_stop := by simpa [c6w_engine] using hs
       subst hs2
       exact ⟨10, rfl, by decide⟩)
     (by decide)⟩

theorem best_bid_symbol (store : ObjectStore) (b : OrderBook) :
    ((OrderBook.best_bid store b).1).symbol = b.symbol := by
  unfold OrderBook.best_bid
  dsimp only
  split <;> rfl

theorem best_ask_symbol (store : ObjectStore) (b : OrderBook) :
    ((OrderBook.best_ask store b).1).symbol = b.symbol := by
  unfold OrderBook.best_ask
  dsimp only
  split <;> rfl

theorem estimate_books_symbol (e : MatchingEngine) (o : Order) (k : String) :
    (alookup (e._estimate_notional o).1.order_books k).map OrderBook.symbol
      = (alookup e.order_books k).map OrderBook.symbol := by
  unfold MatchingEngine._estimate_notional
  by_cases hm : o.type = .MARKET
  · rw [if_pos hm]
    cases e.last_trade_price with
    | some ref => rfl
    | none =>
      cases hb : alookup e.order_books e.default_symbol with
      | none => rfl
      | some b =>
        dsimp only
        have hsymb : ((if o.side = .BUY then OrderBook.best_ask e.object_store b
            else OrderBook.best_bid e.object_store b).1).symbol = b.symbol := by
          by_cases hside : o.side = .BUY
          · rw [if_pos hside]
            exact best_ask_symbol _ _
          · rw [if_neg hside]
            exact best_bid_symbol _ _
        have hset : (alookup (e.set_book e.default_symbol
            ((if o.side = .BUY then OrderBook.best_ask e.object_store b
              else OrderBook.best_bid e.object_store b).1)).order_books k).map OrderBook.symbol
            = (alookup e.order_books k).map OrderBook.symbol := by
          simp only [MatchingEngine.set_book]
          by_cases hk : k = e.default_symbol
          · subst hk
            rw [alookup_aset_self, hb]
            simp [hsymb]
          · rw [alookup_aset_ne _ _ _ _ hk]
        split
        · split
          · exact hset
          · exact hset
        · exact hset
  · rw [if_neg hm]
    cases o.price with
    | none => rfl
    | some p => rfl
theorem estimate_cases (e : MatchingEngine) (o : Order) :
    (e._estimate_notional o).1 = e ∨
    ∃ X, (e._estimate_notional o).1 = e.set_book e.default_symbol X := by
  unfold MatchingEngine._estimate_notional
  by_cases hm : o.type = .MARKET
  · rw [if_pos hm]
    cases e.last_trade_price with
    | some ref => exact Or.inl rfl
    | none =>
      cases alookup e.order_books e.default_symbol with
      | none => exact Or.inl rfl
      | some b =>
        dsimp only
        split
        · split
          · exact Or.inr ⟨_, rfl⟩
          · exact Or.inr ⟨_, rfl⟩
        · exact Or.inr ⟨_, rfl⟩
  · rw [if_neg hm]
    cases o.price with
    | none => exact Or.inl rfl
    | some p => exact Or.inl rfl

theorem estimate_shape (e : MatchingEngine) (o : Order) :
    (e._estimate_notional o).1
      = { e with order_books := (e._estimate_notional o).1.order_books } := by
  rcases estimate_cases e o with h | ⟨X, h⟩
  · rw [h]
  · rw [h]
    exact rfl

theorem estimate_members (e : MatchingEngine) (o : Order) (k : String) :
    (alookup (e._estimate_notional o).1.order_books k).map OrderBook._orders_by_id
      = (alookup e.order_books k).map OrderBook._orders_by_id := by
  unfold MatchingEngine._estimate_notional
  by_cases hm : o.type = .MARKET
  · rw [if_pos hm]
    cases e.last_trade_price with
    | some ref => rfl
    | none =>
      cases hb : alookup e.order_books e.default_symbol with
      | none => rfl
      | some b =>
        dsimp only
        have hmemb : ((if o.side = .BUY then OrderBook.best_ask e.object_store b
            else OrderBook.best_bid e.object_store b).1)._orders_by_id = b._orders_by_id := by
          by_cases hside : o.side = .BUY
          · rw [if_pos hside]
            exact best_ask_members _ _
          · rw [if_neg hside]
            exact best_bid_members _ _
        have hset : (alookup (e.set_book e.default_symbol
            ((if o.side = .BUY then OrderBook.best_ask e.object_store b
              else OrderBook.best_bid e.object_store b).1)).order_books k).map
              OrderBook._orders_by_id
            = (alookup e.order_books k).map OrderBook._orders_by_id := by
          simp only [MatchingEngine.set_book]
          by_cases hk : k = e.default_symbol
          · subst hk
            rw [alookup_aset_self, hb]
            simp [hmemb]
          · rw [alookup_aset_ne _ _ _ _ hk]
        split
        · split
          · exact hset
          · exact hset
        · exact hset
  · rw [if_neg hm]
    cases o.price with
    | none => rfl
    | some p => rfl

/-- **C5, amended.**  For every order whose resolved symbol has no
registered order book (and that passes risk admission when a trader is
registered), `submit_order` raises UnknownSymbol — but only after risk
admission has run and the order has been recorded in the submitting
trader's `order_history`; the object store, the trade log and every
book's id set are unchanged by the failed call, the books themselves are
unchanged for non-MARKET orders (a MARKET order's notional estimate may
first lazily clean the default book's heaps), and the registered
trader's state changes exactly by the `order_history` append. -/
theorem C5_unknown_symbol_after_risk (fuel : ℕ) (e : MatchingEngine) (o : Order)
    (hbook : e.get_book o.symbol = none)
    (hrisk : match alookup e.traders (o.trader_id.getD "") with
             | none => True
             | some t => MatchingEngine.risk_verdict t o
                 (MatchingEngine._estimate_notional
                   { e with submit_log := e.submit_log ++ [o] } o).2 = none) :
    (submit_order (fuel + 1) e o).2 = some .unknownSymbol ∧
    (o.type ≠ .MARKET → (submit_order (fuel + 1) e o).1.order_books = e.order_books) ∧
    (∀ k, (alookup (submit_order (fuel + 1) e o).1.order_books k).map OrderBook._orders_by_id
        = (alookup e.order_books k).map OrderBook._orders_by_id) ∧
    (submit_order (fuel + 1) e o).1.object_store = e.object_store ∧
    (submit_order (fuel + 1) e o).1.trades = e.trades ∧
    ((submit_order (fuel + 1) e o).1.traders =
      match alookup e.traders (o.trader_id.getD "") with
      | none => e.traders
      | some t => aset e.traders (o.trader_id.getD "") (t.record_order o.id)) := by
  unfold submit_order
  simp only [run]
  simp only [MatchingEngine.get_book, MatchingEngine.book_key] at hbook
  rcases hT : alookup e.traders (o.trader_id.getD "") with _ | t
  · dsimp only [ebind]
    simp only [MatchingEngine.get_book, MatchingEngine.book_key]
    rw [hbook]
    exact ⟨rfl, fun _ => rfl, fun k => rfl, rfl, rfl, rfl⟩
  · have hv : MatchingEngine.risk_verdict t o
        (MatchingEngine._estimate_notional
          { e with submit_log := e.submit_log ++ [o] } o).2 = none := by
      rw [hT] at hrisk
      exact hrisk
    have hmem0 := estimate_members ({ e with submit_log := e.submit_log ++ [o] }
      : MatchingEngine) o (o.symbol.getD e.default_symbol)
    rw [show ({ e with submit_log := e.submit_log ++ [o] }
      : MatchingEngine).order_books = e.order_books from rfl] at hmem0
    rw [hbook, Option.map_none'] at hmem0
    have hestnone : alookup (MatchingEngine._estimate_notional
        { e with submit_log := e.submit_log ++ [o] } o).1.order_books
        (o.symbol.getD e.default_symbol) = none := Option.map_eq_none'.mp hmem0
    try dsimp only
    unfold MatchingEngine._enforce_risk
    try dsimp only
    rw [hv]
    try dsimp only
    rw [estimate_shape]
    try dsimp only
    rw [hT]
    dsimp only [ebind]
    simp only [MatchingEngine.get_book, MatchingEngine.book_key]
    try dsimp only
    rw [hestnone]
    try dsimp only
    refine ⟨rfl, ?_, ?_, rfl, rfl, rfl⟩
    · intro hm
      rw [estimate_non_market _ _ hm]
    · intro k
      exact estimate_members ({ e with submit_log := e.submit_log ++ [o] }
        : MatchingEngine) o k

/-- Witness for C5 at the concrete scenario. -/
theorem C5_unknown_symbol_after_risk_witness :
    (submit_order 30 (fifo_engine.register_trader plain_trader) msft_order).2 =
      some .unknownSymbol ∧
    (msft_order.type ≠ .MARKET →
      (submit_order 30 (fifo_engine.register_trader plain_trader) msft_order).1.order_books =
        (fifo_engine.register_trader plain_trader).order_books) ∧
    (∀ k, (alookup (submit_order 30 (fifo_engine.register_trader plain_trader)
          msft_order).1.order_books k).map OrderBook._orders_by_id
        = (alookup (fifo_engine.register_trader plain_trader).order_books k).map
            OrderBook._orders_by_id) ∧
    (submit_order 30 (fifo_engine.register_trader plain_trader) msft_order).1.object_store =
      (fifo_engine.register_trader plain_trader).object_store ∧
    (submit_order 30 (fifo_engine.register_trader plain_trader) msft_order).1.trades =
      (fifo_engine.register_trader plain_trader).trades ∧
    ((submit_order 30 (fifo_engine.register_trader plain_trader) msft_order).1.traders =
      match alookup (fifo_engine.register_trader plain_trader).traders
          (msft_order.trader_id.getD "") with
      | none => (fifo_engine.register_trader plain_trader).traders
      | some t => aset (fifo_engine.register_trader plain_trader).traders
          (msft_order.trader_id.getD "") (t.record_order msft_order.id)) :=
  C5_unknown_symbol_after_risk 29 (fifo_engine.register_trader plain_trader) msft_order
    (by decide)
    (by
      show MatchingEngine.risk_verdict plain_trader msft_order
        (MatchingEngine._estimate_notional
          { fifo_engine.register_trader plain_trader with
            submit_log := (fifo_engine.register_trader plain_trader).submit_log
              ++ [msft_order] } msft_order).2 = none
      decide)

theorem opt_cases {α : Type} (x : Option α) : x = none ∨ ∃ a, x = some a := by
  cases x with
  | none => exact Or.inl rfl
  | some a => exact Or.inr ⟨a, rfl⟩

theorem ioc_endgame (E4 : MatchingEngine) (o : Order) (key : String) (BK : OrderBook)
    (hkey : key = o.symbol.getD E4.default_symbol)
    (hcon : BK._orders_by_id.contains o.id = false) :
    ∀ b, ({ E4 with order_books := aset E4.order_books key BK } : MatchingEngine).get_book
        o.symbol = some b →
      ∀ r, OrderBook.get_order E4.object_store b o.id = some r → r.quantity ≤ 0 := by
  intro b hb r hr
  unfold MatchingEngine.get_book MatchingEngine.book_key at hb
  dsimp only at hb
  rw [← hkey, alookup_aset_self] at hb
  cases hb
  unfold OrderBook.get_order at hr
  rw [hcon] at hr
  simp at hr

theorem ioc_after_risk (n : ℕ) (E : MatchingEngine) (o : Order)
    (res : MatchingEngine × Option EngineErr)
    (htype : o.type = .LIMIT ∨ o.type = .MARKET)
    (htif : o.tif = .IOC)
    (hslice : SliceFree o.id)
    (hchild2 : alookup E._iceberg_child_to_parent o.id = none)
    (hnodup2 : BooksNodup E)
    (hsym2 : ∀ b2, E.get_book o.symbol = some b2 → b2.symbol = E.book_key o.symbol)
    (hres : res = (match E.get_book o.symbol with
      | none => (E, some EngineErr.unknownSymbol)
      | some book =>
        match o.type with
        | .STOP_LOSS => ({ E with _stop_orders := E._stop_orders ++ [o] }, none)
        | .STOP_LIMIT => ({ E with _stop_limit_orders := E._stop_limit_orders ++ [o] }, none)
        | .TRAILING_STOP =>
          let last_px :=
            (alookup E.last_trade_price_by_symbol book.symbol).orElse
              fun _ => E.last_trade_price
          let o' :=
            match last_px, o.price with
            | some px, none =>
              if o.side = .SELL then { o with price := some (px - o.trailing_offset.getD 0) }
              else { o with price := some (px + o.trailing_offset.getD 0) }
            | _, _ => o
          ({ E with _trailing_orders := E._trailing_orders ++ [o'] }, none)
        | .ICEBERG => run n E (.icebergParent o)
        | _ =>
          ebind (run n E (.addOrder book.symbol o)) fun e =>
          if o.tif = .IOC then
            ebind (run n e (.matchOrders (some book.symbol))) fun e =>
            match e.get_book o.symbol with
            | none => (e, some .unknownSymbol)
            | some book' =>
              match OrderBook.get_order e.object_store book' o.id with
              | some existing =>
                if existing.quantity > 0 then run n e (.removeOrder book.symbol o.id)
                else (e, none)
              | none => (e, none)
          else (e, none)))
    (hok : res.2 = none) :
    ∀ b, res.1.get_book o.symbol = some b →
      ∀ r, OrderBook.get_order res.1.object_store b o.id = some r → r.quantity ≤ 0 := by
  subst hres
  revert hok
  rcases opt_cases (E.get_book o.symbol) with hE | ⟨book, hE⟩
  · rw [hE]
    dsimp only
    intro hok
    simp at hok
  · rw [hE]
    rcases htype with ht | ht <;> rw [ht]
    all_goals
      dsimp only
      intro hok
      obtain ⟨hadd, heq⟩ := ebind_ok _ _ hok
      rw [heq] at hok ⊢
      revert hok
      rw [if_pos htif]
      intro hok
      obtain ⟨hmatch, heq2⟩ := ebind_ok _ _ hok
      rw [heq2] at hok ⊢
      revert hok
      rcases opt_cases ((run n (run n E (.addOrder book.symbol o)).1
          (.matchOrders (some book.symbol))).1.get_book o.symbol) with hB2 | ⟨book', hB2⟩
      · rw [hB2]
        dsimp only
        intro hok
        simp at hok
      · rw [hB2]
        dsimp only
        rcases opt_cases (OrderBook.get_order (run n (run n E (.addOrder book.symbol o)).1
            (.matchOrders (some book.symbol))).1.object_store book' o.id) with hg | ⟨existing, hg⟩
        · rw [hg]
          dsimp only
          intro hok b hb r hr
          obtain rfl := Option.some.inj (hB2.symm.trans hb)
          rw [hg] at hr
          cases hr
        · rw [hg]
          dsimp only
          by_cases hq : existing.quantity > 0
          · rw [if_pos hq]
            have hkey : book.symbol = o.symbol.getD (run n (run n E
                (.addOrder book.symbol o)).1 (.matchOrders (some book.symbol))).1.default_symbol := by
              have hd3 := (extends_run n E (.addOrder book.symbol o)).2.2.2.2
              have hd4 := (extends_run n (run n E (.addOrder book.symbol o)).1
                (.matchOrders (some book.symbol))).2.2.2.2
              rw [hd4, hd3]
              exact hsym2 book hE
            have hnd4 : BooksNodup (run n (run n E (.addOrder book.symbol o)).1
                (.matchOrders (some book.symbol))).1 :=
              (extends_run n (run n E (.addOrder book.symbol o)).1
                (.matchOrders (some book.symbol))).2.2.2.1
                ((extends_run n E (.addOrder book.symbol o)).2.2.2.1 hnodup2)
            have hch4 : alookup (run n (run n E (.addOrder book.symbol o)).1
                (.matchOrders (some book.symbol))).1._iceberg_child_to_parent o.id = none := by
              rw [(extends_run n (run n E (.addOrder book.symbol o)).1
                  (.matchOrders (some book.symbol))).2.2.1 o.id hslice,
                (extends_run n E (.addOrder book.symbol o)).2.2.1 o.id hslice]
              exact hchild2
            generalize hE4 : (run n (run n E (.addOrder book.symbol o)).1
              (.matchOrders (some book.symbol))).1 = E4 at hkey hnd4 hch4 ⊢
            cases n with
            | zero => simp [run]
            | succ m =>
              simp only [run]
              rcases opt_cases (alookup E4.order_books book.symbol) with hBR | ⟨bookR, hBR⟩
              · rw [hBR]
                dsimp only
                intro hok
                simp at hok
              · rw [hBR]
                dsimp only
                unfold OrderBook.remove_order
                have hndR : bookR._orders_by_id.Nodup := hnd4 book.symbol bookR hBR
                by_cases hc : bookR._orders_by_id.contains o.id = true
                · rw [if_pos hc]
                  dsimp only
                  simp only [MatchingEngine.set_book]
                  have hcon : (bookR._orders_by_id.erase o.id).contains o.id = false := by
                    simp
                    exact hndR.not_mem_erase
                  rcases opt_cases (alookup E4.object_store o.id) with halo | ⟨r0, halo⟩
                  · rw [halo]
                    dsimp only
                    intro hok b hb r hr
                    exact ioc_endgame E4 o book.symbol _ hkey hcon b hb r hr
                  · rw [halo]
                    cases m with
                    | zero => simp [run]
                    | succ k =>
                      simp only [run]
                      rw [hch4]
                      intro hok b hb r hr
                      exact ioc_endgame E4 o book.symbol _ hkey hcon b hb r hr
                · rw [if_neg hc]
                  dsimp only
                  simp only [MatchingEngine.set_book]
                  have hcon : bookR._orders_by_id.contains o.id = false :=
                    Bool.eq_false_iff.mpr hc
                  intro hok b hb r hr
                  exact ioc_endgame E4 o book.symbol _ hkey hcon b hb r hr
          · rw [if_neg hq]
            dsimp only
            intro hok b hb r hr
            obtain rfl := Option.some.inj (hB2.symm.trans hb)
            rw [hg] at hr
            obtain rfl := Option.some.inj hr
            exact le_of_not_lt hq
/-- C7: a LIMIT or MARKET order with tif = IOC never rests: when the
error-free submission returns, any order still registered in the resolved
book under the order's id has non-positive residual quantity (the
immediate matching pass either consumed it or the residual was removed). -/
theorem C7_ioc_never_rests (fuel : ℕ) (e : MatchingEngine) (o : Order) (book0 : OrderBook)
    (htype : o.type = .LIMIT ∨ o.type = .MARKET)
    (htif : o.tif = .IOC)
    (hslice : SliceFree o.id)
    (hbook : e.get_book o.symbol = some book0)
    (hsym : book0.symbol = e.book_key o.symbol)
    (hchild : alookup e._iceberg_child_to_parent o.id = none)
    (hnodup : BooksNodup e)
    (hok : (run fuel e (.submit o)).2 = none) :
    ∀ b, (run fuel e (.submit o)).1.get_book o.symbol = some b →
      ∀ r, OrderBook.get_order (run fuel e (.submit o)).1.object_store b o.id = some r →
        r.quantity ≤ 0 := by
  cases fuel with
  | zero => simp [run] at hok
  | succ n =>
    simp only [run] at hok ⊢
    rcases opt_cases (alookup e.traders (o.trader_id.getD "")) with hT | ⟨t, hT⟩
    · rw [hT] at hok ⊢
      dsimp only at hok ⊢
      obtain ⟨hrisk, heq⟩ := ebind_ok _ _ hok
      refine ioc_after_risk n _ o _ htype htif hslice ?_ ?_ ?_ heq hok
      · exact hchild
      · exact hnodup
      · intro b2 hb2
        obtain rfl := Option.some.inj (hbook.symm.trans hb2)
        exact hsym
    · rw [hT] at hok ⊢
      dsimp only at hok ⊢
      rcases opt_cases ((MatchingEngine._enforce_risk
          { e with submit_log := e.submit_log ++ [o] } t o).2) with hV | ⟨err, hV⟩
      · rw [hV] at hok ⊢
        dsimp only at hok ⊢
        rcases opt_cases (alookup (MatchingEngine._enforce_risk
            { e with submit_log := e.submit_log ++ [o] } t o).1.traders
            (o.trader_id.getD "")) with hT2 | ⟨t2, hT2⟩
        all_goals
          rw [hT2] at hok ⊢
          dsimp only at hok ⊢
          obtain ⟨hrisk, heq⟩ := ebind_ok _ _ hok
          refine ioc_after_risk n _ o _ htype htif hslice ?_ ?_ ?_ heq hok
          · exact ((extends_estimate { e with submit_log := e.submit_log ++ [o] } o).2.2.1
              o.id hslice).trans hchild
          · exact (extends_estimate { e with submit_log := e.submit_log ++ [o] } o).2.2.2.1
              hnodup
          · intro b2 hb2
            have hd := (extends_estimate { e with submit_log := e.submit_log ++ [o] } o).2.2.2.2
            have hkey2 : e.book_key o.symbol = o.symbol.getD
                (MatchingEngine._estimate_notional
                  { e with submit_log := e.submit_log ++ [o] } o).1.default_symbol := by
              rw [hd]
              exact rfl
            have hb2' : alookup (MatchingEngine._estimate_notional
                { e with submit_log := e.submit_log ++ [o] } o).1.order_books
                (e.book_key o.symbol) = some b2 := by
              rw [hkey2]
              exact hb2
            have hmap := estimate_books_symbol { e with submit_log := e.submit_log ++ [o] } o
              (e.book_key o.symbol)
            rw [hb2'] at hmap
            have hS1 : alookup ({ e with submit_log := e.submit_log ++ [o] }
                : MatchingEngine).order_books (e.book_key o.symbol) = some book0 := hbook
            rw [hS1] at hmap
            simp at hmap
            rw [hmap, hsym]
            exact hkey2
      · rw [hV] at hok ⊢
        simp [ebind] at hok

theorem C7_ioc_never_rests_witness :
    ((run 20 fifo_engine (.submit c7_o)).2 = none ∧
     fifo_engine.get_book c7_o.symbol = some aapl_book ∧
     aapl_book.symbol = fifo_engine.book_key c7_o.symbol) ∧
    (∀ b, (run 20 fifo_engine (.submit c7_o)).1.get_book c7_o.symbol = some b →
      ∀ r, OrderBook.get_order (run 20 fifo_engine (.submit c7_o)).1.object_store b
          c7_o.id = some r → r.quantity ≤ 0) :=
  ⟨⟨by decide, by decide, by decide⟩,
   C7_ioc_never_rests 20 fifo_engine c7_o aapl_book (Or.inl rfl) rfl
     (by
       intro p s h
       have hl := congrArg String.length h
       rw [String.length_append, String.length_append] at hl
       have h7 : ("-slice-" : String).length = 7 := rfl
       have h2 : c7_o.id.length = 2 := rfl
       rw [h7, h2] at hl
       omega)
     (by decide) (by decide) (by decide)
     (by
       intro sym b h
       simp only [alookup] at h
       split at h
       · cases h
         decide
       · cases h)
     (by decide)⟩

end TradingSim

namespace TradingSim

theorem matchOrders_nocross (n : ℕ) (e : MatchingEngine) (sym : String) (book : OrderBook)
    (hlook : alookup e.order_books sym = some book)
    (hbs : book.symbol = sym)
    (hnc : (OrderBook.best_bid e.object_store book).2 = none ∨
      (OrderBook.best_ask
        (e.set_book sym (OrderBook.best_bid e.object_store book).1).object_store
        (OrderBook.best_bid e.object_store book).1).2 = none ∨
      (∃ bb ba bbp bap,
        (OrderBook.best_bid e.object_store book).2 = some bb ∧
        (OrderBook.best_ask
          (e.set_book sym (OrderBook.best_bid e.object_store book).1).object_store
          (OrderBook.best_bid e.object_store book).1).2 = some ba ∧
        bb.price = some bbp ∧ ba.price = some bap ∧ bbp < bap)) :
    run (n + 2) e (.matchOrders (some sym)) =
      ((e.set_book sym (OrderBook.best_bid e.object_store book).1).set_book sym
        (OrderBook.best_ask
          (e.set_book sym (OrderBook.best_bid e.object_store book).1).object_store
          (OrderBook.best_bid e.object_store book).1).1, none) := by
  simp only [run]
  rw [show e.get_book (some sym) = some book from hlook]
  dsimp only
  rw [hbs]
  by_cases hs : e.matching_strategy = Strategy.PRO_RATA
  · rw [if_pos hs]
    rw [hlook]
    dsimp only
    rcases hnc with h | h | ⟨bb, ba, bbp, bap, hrb, hra, hbp, hap, hlt⟩
    · rw [h]
    · rw [h]
      rcases opt_cases ((OrderBook.best_bid e.object_store book).2) with h2 | ⟨bb, h2⟩ <;>
        rw [h2]
    · rw [hrb, hra]
      dsimp only
      rw [hbp, hap]
      dsimp only
      rw [if_pos hlt]
  · rw [if_neg hs]
    rw [hlook]
    dsimp only
    rcases hnc with h | h | ⟨bb, ba, bbp, bap, hrb, hra, hbp, hap, hlt⟩
    · rw [h]
    · rw [h]
      rcases opt_cases ((OrderBook.best_bid e.object_store book).2) with h2 | ⟨bb, h2⟩ <;>
        rw [h2]
    · rw [hrb, hra]
      dsimp only
      rw [hbp, hap]
      dsimp only
      rw [if_pos (show XRat.lt (.fin bbp) (.fin bap) = true from decide_eq_true hlt)]

end TradingSim

namespace TradingSim
theorem add_order_ok_spec (store : ObjectStore) (b : OrderBook) (o : Order)
    (hsymok : ¬(o.symbol ≠ none ∧ o.symbol ≠ some b.symbol))
    (htype2 : ¬(o.type = .STOP_LOSS ∨ o.type = .STOP_LIMIT ∨ o.type = .TRAILING_STOP ∨
      o.type = .ICEBERG))
    (hfresh : b._orders_by_id.contains o.id = false) :
    ∃ bk, OrderBook.add_order store b o = .ok (aset store o.id o, bk) ∧
      bk._orders_by_id = b._orders_by_id ++ [o.id] ∧ bk.symbol = b.symbol ∧
      bk._seq_counter = b._seq_counter + 1 := by
  unfold OrderBook.add_order
  rw [if_neg hsymok, if_neg htype2]
  dsimp only
  rw [hfresh]
  by_cases hside : o.side = .BUY
  · rw [if_pos hside]
    refine ⟨_, rfl, ?_, rfl, rfl⟩
    simp
  · rw [if_neg hside]
    refine ⟨_, rfl, ?_, rfl, rfl⟩
    simp

end TradingSim

namespace TradingSim

/-- C9 (amended): for every non-ICEBERG order whose submission does not
cross the opposing side (IOC orders included: the IOC block itself
removes the residual, and the later cancel is a harmless no-op on the
id), submitting and then cancelling by id leaves every `get_order`
observation of the routed book as it was before the submission, and the
traders map changes exactly by the submitting trader's `order_history`
append (no change at all when no trader is registered).  `book` is the
book the order is routed into — equal to the registered book, except
that a MARKET order's notional estimate may first lazily clean the
default book's heaps, which preserves every book's id set and therefore
every `get_order` observation (the fourth conjunct). -/
theorem C9_submit_cancel_round_trip (n : ℕ) (e : MatchingEngine) (o : Order)
    (book : OrderBook)
    (hqpos : 0 < o.quantity)
    (htyp : o.type ≠ .ICEBERG)
    (hbook : match alookup e.traders (o.trader_id.getD "") with
             | none => alookup e.order_books (e.book_key o.symbol) = some book
             | some _ => alookup (MatchingEngine._estimate_notional
                 { e with submit_log := e.submit_log ++ [o] } o).1.order_books (e.book_key o.symbol) = some book)
    (hbs : book.symbol = e.book_key o.symbol)
    (hfresh : book._orders_by_id.contains o.id = false)
    (hchild : alookup e._iceberg_child_to_parent o.id = none)
    (hrisk : match alookup e.traders (o.trader_id.getD "") with
             | none => True
             | some t => MatchingEngine.risk_verdict t o
                 (MatchingEngine._estimate_notional { e with submit_log := e.submit_log ++ [o] } o).2 = none)
    (hnc : ∀ st bk, OrderBook.add_order e.object_store book o = .ok (st, bk) →
      (OrderBook.best_bid st bk).2 = none ∨
      (OrderBook.best_ask st (OrderBook.best_bid st bk).1).2 = none ∨
      (∃ bb ba bbp bap, (OrderBook.best_bid st bk).2 = some bb ∧
        (OrderBook.best_ask st (OrderBook.best_bid st bk).1).2 = some ba ∧
        bb.price = some bbp ∧ ba.price = some bap ∧ bbp < bap))
    (hnc2 : ∀ st bk, OrderBook.add_order e.object_store book o = .ok (st, bk) →
      (OrderBook.best_bid st (OrderBook.best_ask st (OrderBook.best_bid st bk).1).1).2 = none ∨
      (OrderBook.best_ask st (OrderBook.best_bid st (OrderBook.best_ask st (OrderBook.best_bid st bk).1).1).1).2 = none ∨
      (∃ bb ba bbp bap, (OrderBook.best_bid st (OrderBook.best_ask st (OrderBook.best_bid st bk).1).1).2 = some bb ∧
        (OrderBook.best_ask st (OrderBook.best_bid st (OrderBook.best_ask st (OrderBook.best_bid st bk).1).1).1).2 = some ba ∧
        bb.price = some bbp ∧ ba.price = some bap ∧ bbp < bap)) :
    (submit_order (n + 4) e o).2 = none ∧
    (cancel_order (n + 4) (submit_order (n + 4) e o).1 o.id o.symbol).2 = none ∧
    (∃ bf, alookup (cancel_order (n + 4) (submit_order (n + 4) e o).1 o.id o.symbol).1.order_books (e.book_key o.symbol) = some bf ∧
      ∀ i, OrderBook.get_order (cancel_order (n + 4) (submit_order (n + 4) e o).1 o.id o.symbol).1.object_store bf i
        = OrderBook.get_order e.object_store book i) ∧
    (∀ b0, alookup e.order_books (e.book_key o.symbol) = some b0 →
      ∀ i, OrderBook.get_order e.object_store book i
        = OrderBook.get_order e.object_store b0 i) ∧
    ((cancel_order (n + 4) (submit_order (n + 4) e o).1 o.id o.symbol).1.traders = match alookup e.traders (o.trader_id.getD "") with
      | none => e.traders
      | some t => aset e.traders (o.trader_id.getD "") (t.record_order o.id)) := by
  have hkeyeq : o.symbol.getD e.default_symbol = book.symbol := by
    rw [hbs]
    rfl
  have hsymok : ¬(o.symbol ≠ none ∧ o.symbol ≠ some book.symbol) := by
    rcases opt_cases o.symbol with hn | ⟨sym2, hs⟩
    · intro h
      exact h.1 hn
    · intro h
      apply h.2
      rw [hs, ← hkeyeq, hs, Option.getD_some]
  rcases hT : alookup e.traders (o.trader_id.getD "") with _ | t
  · have hbookX : alookup e.order_books book.symbol = some book := by
      have hb := hbook
      rw [hT] at hb
      rw [hbs]
      exact hb
    have hbridge : ∀ b0, alookup e.order_books (e.book_key o.symbol) = some b0 →
        ∀ i, OrderBook.get_order e.object_store book i
          = OrderBook.get_order e.object_store b0 i := by
      intro b0 hb0 i
      have hb : alookup e.order_books (e.book_key o.symbol) = some book := by
        have hb1 := hbook
        rw [hT] at hb1
        exact hb1
      obtain rfl : book = b0 := Option.some.inj (hb.symm.trans hb0)
      exact rfl
    cases hot : o.type with
    | ICEBERG => exact absurd hot htyp
    | LIMIT =>
      have htype2 : ¬(o.type = .STOP_LOSS ∨ o.type = .STOP_LIMIT ∨
          o.type = .TRAILING_STOP ∨ o.type = .ICEBERG) := by
        rw [hot]
        simp
      obtain ⟨bk, hadd, hmem, hbsym2, hseq⟩ :=
        add_order_ok_spec e.object_store book o hsymok htype2 hfresh
      have hnc3 := hnc _ _ hadd
      have hnc4 := hnc2 _ _ hadd
      have hassym : ((OrderBook.best_ask (aset e.object_store o.id o) (OrderBook.best_bid (aset e.object_store o.id o) bk).1).1).symbol = book.symbol := by
        rw [best_ask_symbol, best_bid_symbol, hbsym2]
      by_cases htif : o.tif = .IOC
      · have hassym2 : ((OrderBook.best_ask (aset e.object_store o.id o) (OrderBook.best_bid (aset e.object_store o.id o) (OrderBook.best_ask (aset e.object_store o.id o) (OrderBook.best_bid (aset e.object_store o.id o) bk).1).1).1).1).symbol = book.symbol := by
          rw [best_ask_symbol, best_bid_symbol, best_ask_symbol, best_bid_symbol, hbsym2]
        have hcon3 : ((OrderBook.best_ask (aset e.object_store o.id o) (OrderBook.best_bid (aset e.object_store o.id o) (OrderBook.best_ask (aset e.object_store o.id o) (OrderBook.best_bid (aset e.object_store o.id o) bk).1).1).1).1)._orders_by_id.contains o.id = true := by
          rw [best_ask_members, best_bid_members, best_ask_members, best_bid_members, hmem]
          simp
        have herase2 : ((OrderBook.best_ask (aset e.object_store o.id o) (OrderBook.best_bid (aset e.object_store o.id o) (OrderBook.best_ask (aset e.object_store o.id o) (OrderBook.best_bid (aset e.object_store o.id o) bk).1).1).1).1)._orders_by_id.erase o.id = book._orders_by_id := by
          rw [best_ask_members, best_bid_members, best_ask_members, best_bid_members, hmem]
          have hnm : o.id ∉ book._orders_by_id := by simpa using hfresh
          rw [List.erase_append_right _ hnm, List.erase_cons_head, List.append_nil]
        have hncon : ¬((((OrderBook.best_ask (aset e.object_store o.id o) (OrderBook.best_bid (aset e.object_store o.id o) (OrderBook.best_ask (aset e.object_store o.id o) (OrderBook.best_bid (aset e.object_store o.id o) bk).1).1).1).1)._orders_by_id.erase o.id).contains o.id = true) := by
          rw [herase2, hfresh]
          exact Bool.false_ne_true
        have hsub : run (n + 4) e (.submit o) = (((({ e with submit_log := e.submit_log ++ [o], order_books := aset (aset (aset e.order_books book.symbol bk) book.symbol (OrderBook.best_bid (aset e.object_store o.id o) bk).1) book.symbol (OrderBook.best_ask (aset e.object_store o.id o) (OrderBook.best_bid (aset e.object_store o.id o) bk).1).1, object_store := aset e.object_store o.id o } : MatchingEngine).set_book book.symbol (OrderBook.best_bid (aset e.object_store o.id o) (OrderBook.best_ask (aset e.object_store o.id o) (OrderBook.best_bid (aset e.object_store o.id o) bk).1).1).1 |>.set_book book.symbol (OrderBook.best_ask (aset e.object_store o.id o) (OrderBook.best_bid (aset e.object_store o.id o) (OrderBook.best_ask (aset e.object_store o.id o) (OrderBook.best_bid (aset e.object_store o.id o) bk).1).1).1).1).set_book book.symbol { (OrderBook.best_ask (aset e.object_store o.id o) (OrderBook.best_bid (aset e.object_store o.id o) (OrderBook.best_ask (aset e.object_store o.id o) (OrderBook.best_bid (aset e.object_store o.id o) bk).1).1).1).1 with _orders_by_id := ((OrderBook.best_ask (aset e.object_store o.id o) (OrderBook.best_bid (aset e.object_store o.id o) (OrderBook.best_ask (aset e.object_store o.id o) (OrderBook.best_bid (aset e.object_store o.id o) bk).1).1).1).1)._orders_by_id.erase o.id, _removed_ids := ((OrderBook.best_ask (aset e.object_store o.id o) (OrderBook.best_bid (aset e.object_store o.id o) (OrderBook.best_ask (aset e.object_store o.id o) (OrderBook.best_bid (aset e.object_store o.id o) bk).1).1).1).1)._removed_ids ++ [o.id] }), none) := by
          rw [run.eq_def]
          try dsimp only
          rw [hT]
          try dsimp only
          dsimp only [ebind]
          simp only [MatchingEngine.get_book, MatchingEngine.book_key]
          try dsimp only
          rw [hkeyeq]
          rw [hbookX]
          try dsimp only
          rw [hot]
          try dsimp only
          rw [run.eq_def]
          try dsimp only
          rw [hbookX]
          try dsimp only
          rw [hadd]
          try dsimp only
          simp only [MatchingEngine.set_book]
          try dsimp only
          rw [hkeyeq]
          rw [matchOrders_nocross n ({ e with submit_log := e.submit_log ++ [o], order_books := aset e.order_books book.symbol bk, object_store := aset e.object_store o.id o } : MatchingEngine)
            book.symbol bk (alookup_aset_self _ _ _) hbsym2 hnc3]
          dsimp only [ebind]
          rw [if_pos htif]
          simp only [MatchingEngine.set_book]
          try dsimp only
          rw [matchOrders_nocross (n + 1) ({ e with submit_log := e.submit_log ++ [o], order_books := aset (aset (aset e.order_books book.symbol bk) book.symbol (OrderBook.best_bid (aset e.object_store o.id o) bk).1) book.symbol (OrderBook.best_ask (aset e.object_store o.id o) (OrderBook.best_bid (aset e.object_store o.id o) bk).1).1, object_store := aset e.object_store o.id o } : MatchingEngine)
            book.symbol ((OrderBook.best_ask (aset e.object_store o.id o) (OrderBook.best_bid (aset e.object_store o.id o) bk).1).1) (alookup_aset_self _ _ _) hassym hnc4]
          dsimp only [ebind]
          simp only [MatchingEngine.get_book, MatchingEngine.book_key,
            MatchingEngine.set_book]
          try dsimp only
          rw [hkeyeq]
          rw [alookup_aset_self]
          try dsimp only
          unfold OrderBook.get_order
          try dsimp only
          rw [if_pos hcon3]
          rw [alookup_aset_self]
          try dsimp only
          rw [if_pos hqpos]
          rw [run.eq_def]
          try dsimp only
          rw [alookup_aset_self]
          try dsimp only
          unfold OrderBook.remove_order
          rw [if_pos hcon3]
          try dsimp only
          rw [alookup_aset_self]
          try dsimp only
          rw [run.eq_def]
          try dsimp only
          simp only [MatchingEngine.set_book]
          try dsimp only
          rw [hchild]
          try dsimp only
          try rfl
        have hcan : run (n + 4) (((({ e with submit_log := e.submit_log ++ [o], order_books := aset (aset (aset e.order_books book.symbol bk) book.symbol (OrderBook.best_bid (aset e.object_store o.id o) bk).1) book.symbol (OrderBook.best_ask (aset e.object_store o.id o) (OrderBook.best_bid (aset e.object_store o.id o) bk).1).1, object_store := aset e.object_store o.id o } : MatchingEngine).set_book book.symbol (OrderBook.best_bid (aset e.object_store o.id o) (OrderBook.best_ask (aset e.object_store o.id o) (OrderBook.best_bid (aset e.object_store o.id o) bk).1).1).1 |>.set_book book.symbol (OrderBook.best_ask (aset e.object_store o.id o) (OrderBook.best_bid (aset e.object_store o.id o) (OrderBook.best_ask (aset e.object_store o.id o) (OrderBook.best_bid (aset e.object_store o.id o) bk).1).1).1).1).set_book book.symbol { (OrderBook.best_ask (aset e.object_store o.id o) (OrderBook.best_bid (aset e.object_store o.id o) (OrderBook.best_ask (aset e.object_store o.id o) (OrderBook.best_bid (aset e.object_store o.id o) bk).1).1).1).1 with _orders_by_id := ((OrderBook.best_ask (aset e.object_store o.id o) (OrderBook.best_bid (aset e.object_store o.id o) (OrderBook.best_ask (aset e.object_store o.id o) (OrderBook.best_bid (aset e.object_store o.id o) bk).1).1).1).1)._orders_by_id.erase o.id, _removed_ids := ((OrderBook.best_ask (aset e.object_store o.id o) (OrderBook.best_bid (aset e.object_store o.id o) (OrderBook.best_ask (aset e.object_store o.id o) (OrderBook.best_bid (aset e.object_store o.id o) bk).1).1).1).1)._removed_ids ++ [o.id] })) (.cancel o.id o.symbol) =
            ((((({ e with submit_log := e.submit_log ++ [o], order_books := aset (aset (aset e.order_books book.symbol bk) book.symbol (OrderBook.best_bid (aset e.object_store o.id o) bk).1) book.symbol (OrderBook.best_ask (aset e.object_store o.id o) (OrderBook.best_bid (aset e.object_store o.id o) bk).1).1, object_store := aset e.object_store o.id o } : MatchingEngine).set_book book.symbol (OrderBook.best_bid (aset e.object_store o.id o) (OrderBook.best_ask (aset e.object_store o.id o) (OrderBook.best_bid (aset e.object_store o.id o) bk).1).1).1 |>.set_book book.symbol (OrderBook.best_ask (aset e.object_store o.id o) (OrderBook.best_bid (aset e.object_store o.id o) (OrderBook.best_ask (aset e.object_store o.id o) (OrderBook.best_bid (aset e.object_store o.id o) bk).1).1).1).1).set_book book.symbol { (OrderBook.best_ask (aset e.object_store o.id o) (OrderBook.best_bid (aset e.object_store o.id o) (OrderBook.best_ask (aset e.object_store o.id o) (OrderBook.best_bid (aset e.object_store o.id o) bk).1).1).1).1 with _orders_by_id := ((OrderBook.best_ask (aset e.object_store o.id o) (OrderBook.best_bid (aset e.object_store o.id o) (OrderBook.best_ask (aset e.object_store o.id o) (OrderBook.best_bid (aset e.object_store o.id o) bk).1).1).1).1)._orders_by_id.erase o.id, _removed_ids := ((OrderBook.best_ask (aset e.object_store o.id o) (OrderBook.best_bid (aset e.object_store o.id o) (OrderBook.best_ask (aset e.object_store o.id o) (OrderBook.best_bid (aset e.object_store o.id o) bk).1).1).1).1)._removed_ids ++ [o.id] })).set_book book.symbol ({ (OrderBook.best_ask (aset e.object_store o.id o) (OrderBook.best_bid (aset e.object_store o.id o) (OrderBook.best_ask (aset e.object_store o.id o) (OrderBook.best_bid (aset e.object_store o.id o) bk).1).1).1).1 with _orders_by_id := ((OrderBook.best_ask (aset e.object_store o.id o) (OrderBook.best_bid (aset e.object_store o.id o) (OrderBook.best_ask (aset e.object_store o.id o) (OrderBook.best_bid (aset e.object_store o.id o) bk).1).1).1).1)._orders_by_id.erase o.id, _removed_ids := ((OrderBook.best_ask (aset e.object_store o.id o) (OrderBook.best_bid (aset e.object_store o.id o) (OrderBook.best_ask (aset e.object_store o.id o) (OrderBook.best_bid (aset e.object_store o.id o) bk).1).1).1).1)._removed_ids ++ [o.id] }), none) := by
          rw [run.eq_def]
          try dsimp only
          simp only [MatchingEngine.get_book, MatchingEngine.book_key,
            MatchingEngine.set_book]
          try dsimp only
          rw [hkeyeq]
          rw [alookup_aset_self]
          try dsimp only
          rw [hassym2]
          rw [run.eq_def]
          try dsimp only
          rw [alookup_aset_self]
          try dsimp only
          unfold OrderBook.remove_order
          try dsimp only
          rw [if_neg hncon]
          try rfl
        unfold submit_order cancel_order
        rw [hsub]
        try dsimp only
        rw [hcan]
        try dsimp only
        simp only [MatchingEngine.set_book]
        refine ⟨?_, ?_, ?_, ?_, ?_⟩
        · trivial
        · trivial
        · refine ⟨{ (OrderBook.best_ask (aset e.object_store o.id o) (OrderBook.best_bid (aset e.object_store o.id o) (OrderBook.best_ask (aset e.object_store o.id o) (OrderBook.best_bid (aset e.object_store o.id o) bk).1).1).1).1 with _orders_by_id := ((OrderBook.best_ask (aset e.object_store o.id o) (OrderBook.best_bid (aset e.object_store o.id o) (OrderBook.best_ask (aset e.object_store o.id o) (OrderBook.best_bid (aset e.object_store o.id o) bk).1).1).1).1)._orders_by_id.erase o.id, _removed_ids := ((OrderBook.best_ask (aset e.object_store o.id o) (OrderBook.best_bid (aset e.object_store o.id o) (OrderBook.best_ask (aset e.object_store o.id o) (OrderBook.best_bid (aset e.object_store o.id o) bk).1).1).1).1)._removed_ids ++ [o.id] }, ?_, ?_⟩
          · rw [hbs.symm]
            exact alookup_aset_self _ _ _
          · intro i
            unfold OrderBook.get_order
            try dsimp only
            rw [herase2]
            by_cases hio : book._orders_by_id.contains i = true
            · rw [if_pos hio, if_pos hio]
              have hine : i ≠ o.id := by
                intro hcontra
                rw [hcontra, hfresh] at hio
                exact Bool.false_ne_true hio
              rw [alookup_aset_ne _ _ _ _ hine]
            · rw [if_neg hio, if_neg hio]
        · exact hbridge
        · trivial
      · have hcon2 : ((OrderBook.best_ask (aset e.object_store o.id o) (OrderBook.best_bid (aset e.object_store o.id o) bk).1).1)._orders_by_id.contains o.id = true := by
          rw [best_ask_members, best_bid_members, hmem]
          simp
        have hermem : ((OrderBook.best_ask (aset e.object_store o.id o) (OrderBook.best_bid (aset e.object_store o.id o) bk).1).1)._orders_by_id.erase o.id = book._orders_by_id := by
          rw [best_ask_members, best_bid_members, hmem]
          have hnm : o.id ∉ book._orders_by_id := by simpa using hfresh
          rw [List.erase_append_right _ hnm, List.erase_cons_head, List.append_nil]
        have hsub : run (n + 4) e (.submit o) = ((({ e with submit_log := e.submit_log ++ [o], object_store := aset e.object_store o.id o } : MatchingEngine).set_book book.symbol bk |>.set_book book.symbol (OrderBook.best_bid (aset e.object_store o.id o) bk).1 |>.set_book book.symbol (OrderBook.best_ask (aset e.object_store o.id o) (OrderBook.best_bid (aset e.object_store o.id o) bk).1).1), none) := by
          rw [run.eq_def]
          try dsimp only
          rw [hT]
          try dsimp only
          dsimp only [ebind]
          simp only [MatchingEngine.get_book, MatchingEngine.book_key]
          try dsimp only
          rw [hkeyeq]
          rw [hbookX]
          try dsimp only
          rw [hot]
          try dsimp only
          rw [run.eq_def]
          try dsimp only
          rw [hbookX]
          try dsimp only
          rw [hadd]
          try dsimp only
          simp only [MatchingEngine.set_book]
          try dsimp only
          rw [hkeyeq]
          rw [matchOrders_nocross n ({ e with submit_log := e.submit_log ++ [o], order_books := aset e.order_books book.symbol bk, object_store := aset e.object_store o.id o } : MatchingEngine)
            book.symbol bk (alookup_aset_self _ _ _) hbsym2 hnc3]
          dsimp only [ebind]
          rw [if_neg htif]
          try rfl
        have hcan : run (n + 4) (({ e with submit_log := e.submit_log ++ [o], object_store := aset e.object_store o.id o } : MatchingEngine).set_book book.symbol bk |>.set_book book.symbol (OrderBook.best_bid (aset e.object_store o.id o) bk).1 |>.set_book book.symbol (OrderBook.best_ask (aset e.object_store o.id o) (OrderBook.best_bid (aset e.object_store o.id o) bk).1).1) (.cancel o.id o.symbol) =
            ((({ e with submit_log := e.submit_log ++ [o], object_store := aset e.object_store o.id o } : MatchingEngine).set_book book.symbol bk |>.set_book book.symbol (OrderBook.best_bid (aset e.object_store o.id o) bk).1 |>.set_book book.symbol (OrderBook.best_ask (aset e.object_store o.id o) (OrderBook.best_bid (aset e.object_store o.id o) bk).1).1).set_book book.symbol { (OrderBook.best_ask (aset e.object_store o.id o) (OrderBook.best_bid (aset e.object_store o.id o) bk).1).1 with _orders_by_id := ((OrderBook.best_ask (aset e.object_store o.id o) (OrderBook.best_bid (aset e.object_store o.id o) bk).1).1)._orders_by_id.erase o.id, _removed_ids := ((OrderBook.best_ask (aset e.object_store o.id o) (OrderBook.best_bid (aset e.object_store o.id o) bk).1).1)._removed_ids ++ [o.id] }, none) := by
          rw [run.eq_def]
          try dsimp only
          simp only [MatchingEngine.get_book, MatchingEngine.book_key,
            MatchingEngine.set_book]
          try dsimp only
          rw [hkeyeq]
          rw [alookup_aset_self]
          try dsimp only
          rw [hassym]
          rw [run.eq_def]
          try dsimp only
          rw [alookup_aset_self]
          try dsimp only
          unfold OrderBook.remove_order
          rw [if_pos hcon2]
          try dsimp only
          rw [alookup_aset_self]
          try dsimp only
          rw [run.eq_def]
          try dsimp only
          simp only [MatchingEngine.set_book]
          try dsimp only
          rw [hchild]
          try dsimp only
          try rw [hassym]
          try rfl
        unfold submit_order cancel_order
        rw [hsub]
        try dsimp only
        rw [hcan]
        try dsimp only
        simp only [MatchingEngine.set_book]
        refine ⟨?_, ?_, ?_, ?_, ?_⟩
        · trivial
        · trivial
        · refine ⟨{ (OrderBook.best_ask (aset e.object_store o.id o) (OrderBook.best_bid (aset e.object_store o.id o) bk).1).1 with _orders_by_id := ((OrderBook.best_ask (aset e.object_store o.id o) (OrderBook.best_bid (aset e.object_store o.id o) bk).1).1)._orders_by_id.erase o.id, _removed_ids := ((OrderBook.best_ask (aset e.object_store o.id o) (OrderBook.best_bid (aset e.object_store o.id o) bk).1).1)._removed_ids ++ [o.id] }, ?_, ?_⟩
          · rw [hbs.symm]
            exact alookup_aset_self _ _ _
          · intro i
            unfold OrderBook.get_order
            try dsimp only
            rw [hermem]
            by_cases hio : book._orders_by_id.contains i = true
            · rw [if_pos hio, if_pos hio]
              have hine : i ≠ o.id := by
                intro hcontra
                rw [hcontra, hfresh] at hio
                exact Bool.false_ne_true hio
              rw [alookup_aset_ne _ _ _ _ hine]
            · rw [if_neg hio, if_neg hio]
        · exact hbridge
        · trivial
    | MARKET =>
      have htype2 : ¬(o.type = .STOP_LOSS ∨ o.type = .STOP_LIMIT ∨
          o.type = .TRAILING_STOP ∨ o.type = .ICEBERG) := by
        rw [hot]
        simp
      obtain ⟨bk, hadd, hmem, hbsym2, hseq⟩ :=
        add_order_ok_spec e.object_store book o hsymok htype2 hfresh
      have hnc3 := hnc _ _ hadd
      have hnc4 := hnc2 _ _ hadd
      have hassym : ((OrderBook.best_ask (aset e.object_store o.id o) (OrderBook.best_bid (aset e.object_store o.id o) bk).1).1).symbol = book.symbol := by
        rw [best_ask_symbol, best_bid_symbol, hbsym2]
      by_cases htif : o.tif = .IOC
      · have hassym2 : ((OrderBook.best_ask (aset e.object_store o.id o) (OrderBook.best_bid (aset e.object_store o.id o) (OrderBook.best_ask (aset e.object_store o.id o) (OrderBook.best_bid (aset e.object_store o.id o) bk).1).1).1).1).symbol = book.symbol := by
          rw [best_ask_symbol, best_bid_symbol, best_ask_symbol, best_bid_symbol, hbsym2]
        have hcon3 : ((OrderBook.best_ask (aset e.object_store o.id o) (OrderBook.best_bid (aset e.object_store o.id o) (OrderBook.best_ask (aset e.object_store o.id o) (OrderBook.best_bid (aset e.object_store o.id o) bk).1).1).1).1)._orders_by_id.contains o.id = true := by
          rw [best_ask_members, best_bid_members, best_ask_members, best_bid_members, hmem]
          simp
        have herase2 : ((OrderBook.best_ask (aset e.object_store o.id o) (OrderBook.best_bid (aset e.object_store o.id o) (OrderBook.best_ask (aset e.object_store o.id o) (OrderBook.best_bid (aset e.object_store o.id o) bk).1).1).1).1)._orders_by_id.erase o.id = book._orders_by_id := by
          rw [best_ask_members, best_bid_members, best_ask_members, best_bid_members, hmem]
          have hnm : o.id ∉ book._orders_by_id := by simpa using hfresh
          rw [List.erase_append_right _ hnm, List.erase_cons_head, List.append_nil]
        have hncon : ¬((((OrderBook.best_ask (aset e.object_store o.id o) (OrderBook.best_bid (aset e.object_store o.id o) (OrderBook.best_ask (aset e.object_store o.id o) (OrderBook.best_bid (aset e.object_store o.id o) bk).1).1).1).1)._orders_by_id.erase o.id).contains o.id = true) := by
          rw [herase2, hfresh]
          exact Bool.false_ne_true
        have hsub : run (n + 4) e (.submit o) = (((({ e with submit_log := e.submit_log ++ [o], order_books := aset (aset (aset e.order_books book.symbol bk) book.symbol (OrderBook.best_bid (aset e.object_store o.id o) bk).1) book.symbol (OrderBook.best_ask (aset e.object_store o.id o) (OrderBook.best_bid (aset e.object_store o.id o) bk).1).1, object_store := aset e.object_store o.id o } : MatchingEngine).set_book book.symbol (OrderBook.best_bid (aset e.object_store o.id o) (OrderBook.best_ask (aset e.object_store o.id o) (OrderBook.best_bid (aset e.object_store o.id o) bk).1).1).1 |>.set_book book.symbol (OrderBook.best_ask (aset e.object_store o.id o) (OrderBook.best_bid (aset e.object_store o.id o) (OrderBook.best_ask (aset e.object_store o.id o) (OrderBook.best_bid (aset e.object_store o.id o) bk).1).1).1).1).set_book book.symbol { (OrderBook.best_ask (aset e.object_store o.id o) (OrderBook.best_bid (aset e.object_store o.id o) (OrderBook.best_ask (aset e.object_store o.id o) (OrderBook.best_bid (aset e.object_store o.id o) bk).1).1).1).1 with _orders_by_id := ((OrderBook.best_ask (aset e.object_store o.id o) (OrderBook.best_bid (aset e.object_store o.id o) (OrderBook.best_ask (aset e.object_store o.id o) (OrderBook.best_bid (aset e.object_store o.id o) bk).1).1).1).1)._orders_by_id.erase o.id, _removed_ids := ((OrderBook.best_ask (aset e.object_store o.id o) (OrderBook.best_bid (aset e.object_store o.id o) (OrderBook.best_ask (aset e.object_store o.id o) (OrderBook.best_bid (aset e.object_store o.id o) bk).1).1).1).1)._removed_ids ++ [o.id] }), none) := by
          rw [run.eq_def]
          try dsimp only
          rw [hT]
          try dsimp only
          dsimp only [ebind]
          simp only [MatchingEngine.get_book, MatchingEngine.book_key]
          try dsimp only
          rw [hkeyeq]
          rw [hbookX]
          try dsimp only
          rw [hot]
          try dsimp only
          rw [run.eq_def]
          try dsimp only
          rw [hbookX]
          try dsimp only
          rw [hadd]
          try dsimp only
          simp only [MatchingEngine.set_book]
          try dsimp only
          rw [hkeyeq]
          rw [matchOrders_nocross n ({ e with submit_log := e.submit_log ++ [o], order_books := aset e.order_books book.symbol bk, object_store := aset e.object_store o.id o } : MatchingEngine)
            book.symbol bk (alookup_aset_self _ _ _) hbsym2 hnc3]
          dsimp only [ebind]
          rw [if_pos htif]
          simp only [MatchingEngine.set_book]
          try dsimp only
          rw [matchOrders_nocross (n + 1) ({ e with submit_log := e.submit_log ++ [o], order_books := aset (aset (aset e.order_books book.symbol bk) book.symbol (OrderBook.best_bid (aset e.object_store o.id o) bk).1) book.symbol (OrderBook.best_ask (aset e.object_store o.id o) (OrderBook.best_bid (aset e.object_store o.id o) bk).1).1, object_store := aset e.object_store o.id o } : MatchingEngine)
            book.symbol ((OrderBook.best_ask (aset e.object_store o.id o) (OrderBook.best_bid (aset e.object_store o.id o) bk).1).1) (alookup_aset_self _ _ _) hassym hnc4]
          dsimp only [ebind]
          simp only [MatchingEngine.get_book, MatchingEngine.book_key,
            MatchingEngine.set_book]
          try dsimp only
          rw [hkeyeq]
          rw [alookup_aset_self]
          try dsimp only
          unfold OrderBook.get_order
          try dsimp only
          rw [if_pos hcon3]
          rw [alookup_aset_self]
          try dsimp only
          rw [if_pos hqpos]
          rw [run.eq_def]
          try dsimp only
          rw [alookup_aset_self]
          try dsimp only
          unfold OrderBook.remove_order
          rw [if_pos hcon3]
          try dsimp only
          rw [alookup_aset_self]
          try dsimp only
          rw [run.eq_def]
          try dsimp only
          simp only [MatchingEngine.set_book]
          try dsimp only
          rw [hchild]
          try dsimp only
          try rfl
        have hcan : run (n + 4) (((({ e with submit_log := e.submit_log ++ [o], order_books := aset (aset (aset e.order_books book.symbol bk) book.symbol (OrderBook.best_bid (aset e.object_store o.id o) bk).1) book.symbol (OrderBook.best_ask (aset e.object_store o.id o) (OrderBook.best_bid (aset e.object_store o.id o) bk).1).1, object_store := aset e.object_store o.id o } : MatchingEngine).set_book book.symbol (OrderBook.best_bid (aset e.object_store o.id o) (OrderBook.best_ask (aset e.object_store o.id o) (OrderBook.best_bid (aset e.object_store o.id o) bk).1).1).1 |>.set_book book.symbol (OrderBook.best_ask (aset e.object_store o.id o) (OrderBook.best_bid (aset e.object_store o.id o) (OrderBook.best_ask (aset e.object_store o.id o) (OrderBook.best_bid (aset e.object_store o.id o) bk).1).1).1).1).set_book book.symbol { (OrderBook.best_ask (aset e.object_store o.id o) (OrderBook.best_bid (aset e.object_store o.id o) (OrderBook.best_ask (aset e.object_store o.id o) (OrderBook.best_bid (aset e.object_store o.id o) bk).1).1).1).1 with _orders_by_id := ((OrderBook.best_ask (aset e.object_store o.id o) (OrderBook.best_bid (aset e.object_store o.id o) (OrderBook.best_ask (aset e.object_store o.id o) (OrderBook.best_bid (aset e.object_store o.id o) bk).1).1).1).1)._orders_by_id.erase o.id, _removed_ids := ((OrderBook.best_ask (aset e.object_store o.id o) (OrderBook.best_bid (aset e.object_store o.id o) (OrderBook.best_ask (aset e.object_store o.id o) (OrderBook.best_bid (aset e.object_store o.id o) bk).1).1).1).1)._removed_ids ++ [o.id] })) (.cancel o.id o.symbol) =
            ((((({ e with submit_log := e.submit_log ++ [o], order_books := aset (aset (aset e.order_books book.symbol bk) book.symbol (OrderBook.best_bid (aset e.object_store o.id o) bk).1) book.symbol (OrderBook.best_ask (aset e.object_store o.id o) (OrderBook.best_bid (aset e.object_store o.id o) bk).1).1, object_store := aset e.object_store o.id o } : MatchingEngine).set_book book.symbol (OrderBook.best_bid (aset e.object_store o.id o) (OrderBook.best_ask (aset e.object_store o.id o) (OrderBook.best_bid (aset e.object_store o.id o) bk).1).1).1 |>.set_book book.symbol (OrderBook.best_ask (aset e.object_store o.id o) (OrderBook.best_bid (aset e.object_store o.id o) (OrderBook.best_ask (aset e.object_store o.id o) (OrderBook.best_bid (aset e.object_store o.id o) bk).1).1).1).1).set_book book.symbol { (OrderBook.best_ask (aset e.object_store o.id o) (OrderBook.best_bid (aset e.object_store o.id o) (OrderBook.best_ask (aset e.object_store o.id o) (OrderBook.best_bid (aset e.object_store o.id o) bk).1).1).1).1 with _orders_by_id := ((OrderBook.best_ask (aset e.object_store o.id o) (OrderBook.best_bid (aset e.object_store o.id o) (OrderBook.best_ask (aset e.object_store o.id o) (OrderBook.best_bid (aset e.object_store o.id o) bk).1).1).1).1)._orders_by_id.erase o.id, _removed_ids := ((OrderBook.best_ask (aset e.object_store o.id o) (OrderBook.best_bid (aset e.object_store o.id o) (OrderBook.best_ask (aset e.object_store o.id o) (OrderBook.best_bid (aset e.object_store o.id o) bk).1).1).1).1)._removed_ids ++ [o.id] })).set_book book.symbol ({ (OrderBook.best_ask (aset e.object_store o.id o) (OrderBook.best_bid (aset e.object_store o.id o) (OrderBook.best_ask (aset e.object_store o.id o) (OrderBook.best_bid (aset e.object_store o.id o) bk).1).1).1).1 with _orders_by_id := ((OrderBook.best_ask (aset e.object_store o.id o) (OrderBook.best_bid (aset e.object_store o.id o) (OrderBook.best_ask (aset e.object_store o.id o) (OrderBook.best_bid (aset e.object_store o.id o) bk).1).1).1).1)._orders_by_id.erase o.id, _removed_ids := ((OrderBook.best_ask (aset e.object_store o.id o) (OrderBook.best_bid (aset e.object_store o.id o) (OrderBook.best_ask (aset e.object_store o.id o) (OrderBook.best_bid (aset e.object_store o.id o) bk).1).1).1).1)._removed_ids ++ [o.id] }), none) := by
          rw [run.eq_def]
          try dsimp only
          simp only [MatchingEngine.get_book, MatchingEngine.book_key,
            MatchingEngine.set_book]
          try dsimp only
          rw [hkeyeq]
          rw [alookup_aset_self]
          try dsimp only
          rw [hassym2]
          rw [run.eq_def]
          try dsimp only
          rw [alookup_aset_self]
          try dsimp only
          unfold OrderBook.remove_order
          try dsimp only
          rw [if_neg hncon]
          try rfl
        unfold submit_order cancel_order
        rw [hsub]
        try dsimp only
        rw [hcan]
        try dsimp only
        simp only [MatchingEngine.set_book]
        refine ⟨?_, ?_, ?_, ?_, ?_⟩
        · trivial
        · trivial
        · refine ⟨{ (OrderBook.best_ask (aset e.object_store o.id o) (OrderBook.best_bid (aset e.object_store o.id o) (OrderBook.best_ask (aset e.object_store o.id o) (OrderBook.best_bid (aset e.object_store o.id o) bk).1).1).1).1 with _orders_by_id := ((OrderBook.best_ask (aset e.object_store o.id o) (OrderBook.best_bid (aset e.object_store o.id o) (OrderBook.best_ask (aset e.object_store o.id o) (OrderBook.best_bid (aset e.object_store o.id o) bk).1).1).1).1)._orders_by_id.erase o.id, _removed_ids := ((OrderBook.best_ask (aset e.object_store o.id o) (OrderBook.best_bid (aset e.object_store o.id o) (OrderBook.best_ask (aset e.object_store o.id o) (OrderBook.best_bid (aset e.object_store o.id o) bk).1).1).1).1)._removed_ids ++ [o.id] }, ?_, ?_⟩
          · rw [hbs.symm]
            exact alookup_aset_self _ _ _
          · intro i
            unfold OrderBook.get_order
            try dsimp only
            rw [herase2]
            by_cases hio : book._orders_by_id.contains i = true
            · rw [if_pos hio, if_pos hio]
              have hine : i ≠ o.id := by
                intro hcontra
                rw [hcontra, hfresh] at hio
                exact Bool.false_ne_true hio
              rw [alookup_aset_ne _ _ _ _ hine]
            · rw [if_neg hio, if_neg hio]
        · exact hbridge
        · trivial
      · have hcon2 : ((OrderBook.best_ask (aset e.object_store o.id o) (OrderBook.best_bid (aset e.object_store o.id o) bk).1).1)._orders_by_id.contains o.id = true := by
          rw [best_ask_members, best_bid_members, hmem]
          simp
        have hermem : ((OrderBook.best_ask (aset e.object_store o.id o) (OrderBook.best_bid (aset e.object_store o.id o) bk).1).1)._orders_by_id.erase o.id = book._orders_by_id := by
          rw [best_ask_members, best_bid_members, hmem]
          have hnm : o.id ∉ book._orders_by_id := by simpa using hfresh
          rw [List.erase_append_right _ hnm, List.erase_cons_head, List.append_nil]
        have hsub : run (n + 4) e (.submit o) = ((({ e with submit_log := e.submit_log ++ [o], object_store := aset e.object_store o.id o } : MatchingEngine).set_book book.symbol bk |>.set_book book.symbol (OrderBook.best_bid (aset e.object_store o.id o) bk).1 |>.set_book book.symbol (OrderBook.best_ask (aset e.object_store o.id o) (OrderBook.best_bid (aset e.object_store o.id o) bk).1).1), none) := by
          rw [run.eq_def]
          try dsimp only
          rw [hT]
          try dsimp only
          dsimp only [ebind]
          simp only [MatchingEngine.get_book, MatchingEngine.book_key]
          try dsimp only
          rw [hkeyeq]
          rw [hbookX]
          try dsimp only
          rw [hot]
          try dsimp only
          rw [run.eq_def]
          try dsimp only
          rw [hbookX]
          try dsimp only
          rw [hadd]
          try dsimp only
          simp only [MatchingEngine.set_book]
          try dsimp only
          rw [hkeyeq]
          rw [matchOrders_nocross n ({ e with submit_log := e.submit_log ++ [o], order_books := aset e.order_books book.symbol bk, object_store := aset e.object_store o.id o } : MatchingEngine)
            book.symbol bk (alookup_aset_self _ _ _) hbsym2 hnc3]
          dsimp only [ebind]
          rw [if_neg htif]
          try rfl
        have hcan : run (n + 4) (({ e with submit_log := e.submit_log ++ [o], object_store := aset e.object_store o.id o } : MatchingEngine).set_book book.symbol bk |>.set_book book.symbol (OrderBook.best_bid (aset e.object_store o.id o) bk).1 |>.set_book book.symbol (OrderBook.best_ask (aset e.object_store o.id o) (OrderBook.best_bid (aset e.object_store o.id o) bk).1).1) (.cancel o.id o.symbol) =
            ((({ e with submit_log := e.submit_log ++ [o], object_store := aset e.object_store o.id o } : MatchingEngine).set_book book.symbol bk |>.set_book book.symbol (OrderBook.best_bid (aset e.object_store o.id o) bk).1 |>.set_book book.symbol (OrderBook.best_ask (aset e.object_store o.id o) (OrderBook.best_bid (aset e.object_store o.id o) bk).1).1).set_book book.symbol { (OrderBook.best_ask (aset e.object_store o.id o) (OrderBook.best_bid (aset e.object_store o.id o) bk).1).1 with _orders_by_id := ((OrderBook.best_ask (aset e.object_store o.id o) (OrderBook.best_bid (aset e.object_store o.id o) bk).1).1)._orders_by_id.erase o.id, _removed_ids := ((OrderBook.best_ask (aset e.object_store o.id o) (OrderBook.best_bid (aset e.object_store o.id o) bk).1).1)._removed_ids ++ [o.id] }, none) := by
          rw [run.eq_def]
          try dsimp only
          simp only [MatchingEngine.get_book, MatchingEngine.book_key,
            MatchingEngine.set_book]
          try dsimp only
          rw [hkeyeq]
          rw [alookup_aset_self]
          try dsimp only
          rw [hassym]
          rw [run.eq_def]
          try dsimp only
          rw [alookup_aset_self]
          try dsimp only
          unfold OrderBook.remove_order
          rw [if_pos hcon2]
          try dsimp only
          rw [alookup_aset_self]
          try dsimp only
          rw [run.eq_def]
          try dsimp only
          simp only [MatchingEngine.set_book]
          try dsimp only
          rw [hchild]
          try dsimp only
          try rw [hassym]
          try rfl
        unfold submit_order cancel_order
        rw [hsub]
        try dsimp only
        rw [hcan]
        try dsimp only
        simp only [MatchingEngine.set_book]
        refine ⟨?_, ?_, ?_, ?_, ?_⟩
        · trivial
        · trivial
        · refine ⟨{ (OrderBook.best_ask (aset e.object_store o.id o) (OrderBook.best_bid (aset e.object_store o.id o) bk).1).1 with _orders_by_id := ((OrderBook.best_ask (aset e.object_store o.id o) (OrderBook.best_bid (aset e.object_store o.id o) bk).1).1)._orders_by_id.erase o.id, _removed_ids := ((OrderBook.best_ask (aset e.object_store o.id o) (OrderBook.best_bid (aset e.object_store o.id o) bk).1).1)._removed_ids ++ [o.id] }, ?_, ?_⟩
          · rw [hbs.symm]
            exact alookup_aset_self _ _ _
          · intro i
            unfold OrderBook.get_order
            try dsimp only
            rw [hermem]
            by_cases hio : book._orders_by_id.contains i = true
            · rw [if_pos hio, if_pos hio]
              have hine : i ≠ o.id := by
                intro hcontra
                rw [hcontra, hfresh] at hio
                exact Bool.false_ne_true hio
              rw [alookup_aset_ne _ _ _ _ hine]
            · rw [if_neg hio, if_neg hio]
        · exact hbridge
        · trivial
    | STOP_LOSS =>
      have hsub : ∃ sl stl tl, run (n + 4) e (.submit o) =
          ({ e with submit_log := e.submit_log ++ [o], _stop_orders := sl, _stop_limit_orders := stl, _trailing_orders := tl }, none) :=
        ⟨_, _, _, by
          rw [run.eq_def]
          try dsimp only
          rw [hT]
          try dsimp only
          dsimp only [ebind]
          simp only [MatchingEngine.get_book, MatchingEngine.book_key]
          try dsimp only
          rw [hkeyeq]
          rw [hbookX]
          try dsimp only
          rw [hot]
          try rfl⟩
      obtain ⟨sl, stl, tl, hsub⟩ := hsub
      unfold submit_order cancel_order
      rw [hsub]
      try dsimp only
      have hcan : run (n + 4) ({ e with submit_log := e.submit_log ++ [o], _stop_orders := sl, _stop_limit_orders := stl, _trailing_orders := tl } : MatchingEngine) (.cancel o.id o.symbol) =
          (({ e with submit_log := e.submit_log ++ [o], _stop_orders := sl, _stop_limit_orders := stl, _trailing_orders := tl } : MatchingEngine).set_book book.symbol book, none) := by
        rw [run.eq_def]
        try dsimp only
        simp only [MatchingEngine.get_book, MatchingEngine.book_key]
        try dsimp only
        rw [hkeyeq]
        rw [hbookX]
        try dsimp only
        rw [run.eq_def]
        try dsimp only
        rw [hbookX]
        try dsimp only
        unfold OrderBook.remove_order
        rw [if_neg (show ¬(book._orders_by_id.contains o.id = true) from by
          rw [hfresh]; exact Bool.false_ne_true)]
        try rfl
      rw [hcan]
      try dsimp only
      simp only [MatchingEngine.set_book]
      refine ⟨?_, ?_, ?_, ?_, ?_⟩
      · trivial
      · trivial
      · refine ⟨book, ?_, ?_⟩
        · rw [hbs.symm]
          exact alookup_aset_self _ _ _
        · intro i
          trivial
      · exact hbridge
      · trivial
    | STOP_LIMIT =>
      have hsub : ∃ sl stl tl, run (n + 4) e (.submit o) =
          ({ e with submit_log := e.submit_log ++ [o], _stop_orders := sl, _stop_limit_orders := stl, _trailing_orders := tl }, none) :=
        ⟨_, _, _, by
          rw [run.eq_def]
          try dsimp only
          rw [hT]
          try dsimp only
          dsimp only [ebind]
          simp only [MatchingEngine.get_book, MatchingEngine.book_key]
          try dsimp only
          rw [hkeyeq]
          rw [hbookX]
          try dsimp only
          rw [hot]
          try rfl⟩
      obtain ⟨sl, stl, tl, hsub⟩ := hsub
      unfold submit_order cancel_order
      rw [hsub]
      try dsimp only
      have hcan : run (n + 4) ({ e with submit_log := e.submit_log ++ [o], _stop_orders := sl, _stop_limit_orders := stl, _trailing_orders := tl } : MatchingEngine) (.cancel o.id o.symbol) =
          (({ e with submit_log := e.submit_log ++ [o], _stop_orders := sl, _stop_limit_orders := stl, _trailing_orders := tl } : MatchingEngine).set_book book.symbol book, none) := by
        rw [run.eq_def]
        try dsimp only
        simp only [MatchingEngine.get_book, MatchingEngine.book_key]
        try dsimp only
        rw [hkeyeq]
        rw [hbookX]
        try dsimp only
        rw [run.eq_def]
        try dsimp only
        rw [hbookX]
        try dsimp only
        unfold OrderBook.remove_order
        rw [if_neg (show ¬(book._orders_by_id.contains o.id = true) from by
          rw [hfresh]; exact Bool.false_ne_true)]
        try rfl
      rw [hcan]
      try dsimp only
      simp only [MatchingEngine.set_book]
      refine ⟨?_, ?_, ?_, ?_, ?_⟩
      · trivial
      · trivial
      · refine ⟨book, ?_, ?_⟩
        · rw [hbs.symm]
          exact alookup_aset_self _ _ _
        · intro i
          trivial
      · exact hbridge
      · trivial
    | TRAILING_STOP =>
      have hsub : ∃ sl stl tl, run (n + 4) e (.submit o) =
          ({ e with submit_log := e.submit_log ++ [o], _stop_orders := sl, _stop_limit_orders := stl, _trailing_orders := tl }, none) :=
        ⟨_, _, _, by
          rw [run.eq_def]
          try dsimp only
          rw [hT]
          try dsimp only
          dsimp only [ebind]
          simp only [MatchingEngine.get_book, MatchingEngine.book_key]
          try dsimp only
          rw [hkeyeq]
          rw [hbookX]
          try dsimp only
          rw [hot]
          try rfl⟩
      obtain ⟨sl, stl, tl, hsub⟩ := hsub
      unfold submit_order cancel_order
      rw [hsub]
      try dsimp only
      have hcan : run (n + 4) ({ e with submit_log := e.submit_log ++ [o], _stop_orders := sl, _stop_limit_orders := stl, _trailing_orders := tl } : MatchingEngine) (.cancel o.id o.symbol) =
          (({ e with submit_log := e.submit_log ++ [o], _stop_orders := sl, _stop_limit_orders := stl, _trailing_orders := tl } : MatchingEngine).set_book book.symbol book, none) := by
        rw [run.eq_def]
        try dsimp only
        simp only [MatchingEngine.get_book, MatchingEngine.book_key]
        try dsimp only
        rw [hkeyeq]
        rw [hbookX]
        try dsimp only
        rw [run.eq_def]
        try dsimp only
        rw [hbookX]
        try dsimp only
        unfold OrderBook.remove_order
        rw [if_neg (show ¬(book._orders_by_id.contains o.id = true) from by
          rw [hfresh]; exact Bool.false_ne_true)]
        try rfl
      rw [hcan]
      try dsimp only
      simp only [MatchingEngine.set_book]
      refine ⟨?_, ?_, ?_, ?_, ?_⟩
      · trivial
      · trivial
      · refine ⟨book, ?_, ?_⟩
        · rw [hbs.symm]
          exact alookup_aset_self _ _ _
        · intro i
          trivial
      · exact hbridge
      · trivial
  · have hv : MatchingEngine.risk_verdict t o
        (MatchingEngine._estimate_notional ({ e with submit_log := e.submit_log ++ [o] } : MatchingEngine) o).2 = none := by
      rw [hT] at hrisk
      exact hrisk
    have hbookX : alookup (MatchingEngine._estimate_notional ({ e with submit_log := e.submit_log ++ [o] } : MatchingEngine) o).1.order_books book.symbol = some book := by
      have hb := hbook
      rw [hT] at hb
      rw [hbs]
      exact hb
    have hbridge : ∀ b0, alookup e.order_books (e.book_key o.symbol) = some b0 →
        ∀ i, OrderBook.get_order e.object_store book i
          = OrderBook.get_order e.object_store b0 i := by
      intro b0 hb0 i
      have hb : alookup (MatchingEngine._estimate_notional ({ e with submit_log := e.submit_log ++ [o] } : MatchingEngine) o).1.order_books (e.book_key o.symbol) = some book := by
        have hb1 := hbook
        rw [hT] at hb1
        exact hb1
      have hm := estimate_members ({ e with submit_log := e.submit_log ++ [o] } : MatchingEngine) o (e.book_key o.symbol)
      rw [show ({ e with submit_log := e.submit_log ++ [o] } : MatchingEngine).order_books = e.order_books from rfl] at hm
      rw [hb, hb0, Option.map_some', Option.map_some'] at hm
      have hmm := Option.some.inj hm
      unfold OrderBook.get_order
      rw [hmm]
    cases hot : o.type with
    | ICEBERG => exact absurd hot htyp
    | LIMIT =>
      have htype2 : ¬(o.type = .STOP_LOSS ∨ o.type = .STOP_LIMIT ∨
          o.type = .TRAILING_STOP ∨ o.type = .ICEBERG) := by
        rw [hot]
        simp
      obtain ⟨bk, hadd, hmem, hbsym2, hseq⟩ :=
        add_order_ok_spec e.object_store book o hsymok htype2 hfresh
      have hnc3 := hnc _ _ hadd
      have hnc4 := hnc2 _ _ hadd
      have hassym : ((OrderBook.best_ask (aset e.object_store o.id o) (OrderBook.best_bid (aset e.object_store o.id o) bk).1).1).symbol = book.symbol := by
        rw [best_ask_symbol, best_bid_symbol, hbsym2]
      by_cases htif : o.tif = .IOC
      · have hassym2 : ((OrderBook.best_ask (aset e.object_store o.id o) (OrderBook.best_bid (aset e.object_store o.id o) (OrderBook.best_ask (aset e.object_store o.id o) (OrderBook.best_bid (aset e.object_store o.id o) bk).1).1).1).1).symbol = book.symbol := by
          rw [best_ask_symbol, best_bid_symbol, best_ask_symbol, best_bid_symbol, hbsym2]
        have hcon3 : ((OrderBook.best_ask (aset e.object_store o.id o) (OrderBook.best_bid (aset e.object_store o.id o) (OrderBook.best_ask (aset e.object_store o.id o) (OrderBook.best_bid (aset e.object_store o.id o) bk).1).1).1).1)._orders_by_id.contains o.id = true := by
          rw [best_ask_members, best_bid_members, best_ask_members, best_bid_members, hmem]
          simp
        have herase2 : ((OrderBook.best_ask (aset e.object_store o.id o) (OrderBook.best_bid (aset e.object_store o.id o) (OrderBook.best_ask (aset e.object_store o.id o) (OrderBook.best_bid (aset e.object_store o.id o) bk).1).1).1).1)._orders_by_id.erase o.id = book._orders_by_id := by
          rw [best_ask_members, best_bid_members, best_ask_members, best_bid_members, hmem]
          have hnm : o.id ∉ book._orders_by_id := by simpa using hfresh
          rw [List.erase_append_right _ hnm, List.erase_cons_head, List.append_nil]
        have hncon : ¬((((OrderBook.best_ask (aset e.object_store o.id o) (OrderBook.best_bid (aset e.object_store o.id o) (OrderBook.best_ask (aset e.object_store o.id o) (OrderBook.best_bid (aset e.object_store o.id o) bk).1).1).1).1)._orders_by_id.erase o.id).contains o.id = true) := by
          rw [herase2, hfresh]
          exact Bool.false_ne_true
        have hsub : run (n + 4) e (.submit o) = (((({ e with submit_log := e.submit_log ++ [o], traders := aset e.traders (o.trader_id.getD "") (t.record_order o.id), order_books := aset (aset (aset (MatchingEngine._estimate_notional ({ e with submit_log := e.submit_log ++ [o] } : MatchingEngine) o).1.order_books book.symbol bk) book.symbol (OrderBook.best_bid (aset e.object_store o.id o) bk).1) book.symbol (OrderBook.best_ask (aset e.object_store o.id o) (OrderBook.best_bid (aset e.object_store o.id o) bk).1).1, object_store := aset e.object_store o.id o } : MatchingEngine).set_book book.symbol (OrderBook.best_bid (aset e.object_store o.id o) (OrderBook.best_ask (aset e.object_store o.id o) (OrderBook.best_bid (aset e.object_store o.id o) bk).1).1).1 |>.set_book book.symbol (OrderBook.best_ask (aset e.object_store o.id o) (OrderBook.best_bid (aset e.object_store o.id o) (OrderBook.best_ask (aset e.object_store o.id o) (OrderBook.best_bid (aset e.object_store o.id o) bk).1).1).1).1).set_book book.symbol { (OrderBook.best_ask (aset e.object_store o.id o) (OrderBook.best_bid (aset e.object_store o.id o) (OrderBook.best_ask (aset e.object_store o.id o) (OrderBook.best_bid (aset e.object_store o.id o) bk).1).1).1).1 with _orders_by_id := ((OrderBook.best_ask (aset e.object_store o.id o) (OrderBook.best_bid (aset e.object_store o.id o) (OrderBook.best_ask (aset e.object_store o.id o) (OrderBook.best_bid (aset e.object_store o.id o) bk).1).1).1).1)._orders_by_id.erase o.id, _removed_ids := ((OrderBook.best_ask (aset e.object_store o.id o) (OrderBook.best_bid (aset e.object_store o.id o) (OrderBook.best_ask (aset e.object_store o.id o) (OrderBook.best_bid (aset e.object_store o.id o) bk).1).1).1).1)._removed_ids ++ [o.id] }), none) := by
          rw [run.eq_def]
          try dsimp only
          rw [hT]
          try dsimp only
          unfold MatchingEngine._enforce_risk
          try dsimp only
          rw [hv]
          try dsimp only
          rw [estimate_shape ({ e with submit_log := e.submit_log ++ [o] } : MatchingEngine) o]
          try dsimp only
          rw [hT]
          try dsimp only
          dsimp only [ebind]
          simp only [MatchingEngine.get_book, MatchingEngine.book_key]
          try dsimp only
          rw [hkeyeq]
          rw [hbookX]
          try dsimp only
          rw [hot]
          try dsimp only
          rw [run.eq_def]
          try dsimp only
          rw [hbookX]
          try dsimp only
          rw [hadd]
          try dsimp only
          simp only [MatchingEngine.set_book]
          try dsimp only
          rw [hkeyeq]
          rw [matchOrders_nocross n ({ e with submit_log := e.submit_log ++ [o], traders := aset e.traders (o.trader_id.getD "") (t.record_order o.id), order_books := aset (MatchingEngine._estimate_notional ({ e with submit_log := e.submit_log ++ [o] } : MatchingEngine) o).1.order_books book.symbol bk, object_store := aset e.object_store o.id o } : MatchingEngine)
            book.symbol bk (alookup_aset_self _ _ _) hbsym2 hnc3]
          dsimp only [ebind]
          rw [if_pos htif]
          simp only [MatchingEngine.set_book]
          try dsimp only
          rw [matchOrders_nocross (n + 1) ({ e with submit_log := e.submit_log ++ [o], traders := aset e.traders (o.trader_id.getD "") (t.record_order o.id), order_books := aset (aset (aset (MatchingEngine._estimate_notional ({ e with submit_log := e.submit_log ++ [o] } : MatchingEngine) o).1.order_books book.symbol bk) book.symbol (OrderBook.best_bid (aset e.object_store o.id o) bk).1) book.symbol (OrderBook.best_ask (aset e.object_store o.id o) (OrderBook.best_bid (aset e.object_store o.id o) bk).1).1, object_store := aset e.object_store o.id o } : MatchingEngine)
            book.symbol ((OrderBook.best_ask (aset e.object_store o.id o) (OrderBook.best_bid (aset e.object_store o.id o) bk).1).1) (alookup_aset_self _ _ _) hassym hnc4]
          dsimp only [ebind]
          simp only [MatchingEngine.get_book, MatchingEngine.book_key,
            MatchingEngine.set_book]
          try dsimp only
          rw [hkeyeq]
          rw [alookup_aset_self]
          try dsimp only
          unfold OrderBook.get_order
          try dsimp only
          rw [if_pos hcon3]
          rw [alookup_aset_self]
          try dsimp only
          rw [if_pos hqpos]
          rw [run.eq_def]
          try dsimp only
          rw [alookup_aset_self]
          try dsimp only
          unfold OrderBook.remove_order
          rw [if_pos hcon3]
          try dsimp only
          rw [alookup_aset_self]
          try dsimp only
          rw [run.eq_def]
          try dsimp only
          simp only [MatchingEngine.set_book]
          try dsimp only
          rw [hchild]
          try dsimp only
          try rfl
        have hcan : run (n + 4) (((({ e with submit_log := e.submit_log ++ [o], traders := aset e.traders (o.trader_id.getD "") (t.record_order o.id), order_books := aset (aset (aset (MatchingEngine._estimate_notional ({ e with submit_log := e.submit_log ++ [o] } : MatchingEngine) o).1.order_books book.symbol bk) book.symbol (OrderBook.best_bid (aset e.object_store o.id o) bk).1) book.symbol (OrderBook.best_ask (aset e.object_store o.id o) (OrderBook.best_bid (aset e.object_store o.id o) bk).1).1, object_store := aset e.object_store o.id o } : MatchingEngine).set_book book.symbol (OrderBook.best_bid (aset e.object_store o.id o) (OrderBook.best_ask (aset e.object_store o.id o) (OrderBook.best_bid (aset e.object_store o.id o) bk).1).1).1 |>.set_book book.symbol (OrderBook.best_ask (aset e.object_store o.id o) (OrderBook.best_bid (aset e.object_store o.id o) (OrderBook.best_ask (aset e.object_store o.id o) (OrderBook.best_bid (aset e.object_store o.id o) bk).1).1).1).1).set_book book.symbol { (OrderBook.best_ask (aset e.object_store o.id o) (OrderBook.best_bid (aset e.object_store o.id o) (OrderBook.best_ask (aset e.object_store o.id o) (OrderBook.best_bid (aset e.object_store o.id o) bk).1).1).1).1 with _orders_by_id := ((OrderBook.best_ask (aset e.object_store o.id o) (OrderBook.best_bid (aset e.object_store o.id o) (OrderBook.best_ask (aset e.object_store o.id o) (OrderBook.best_bid (aset e.object_store o.id o) bk).1).1).1).1)._orders_by_id.erase o.id, _removed_ids := ((OrderBook.best_ask (aset e.object_store o.id o) (OrderBook.best_bid (aset e.object_store o.id o) (OrderBook.best_ask (aset e.object_store o.id o) (OrderBook.best_bid (aset e.object_store o.id o) bk).1).1).1).1)._removed_ids ++ [o.id] })) (.cancel o.id o.symbol) =
            ((((({ e with submit_log := e.submit_log ++ [o], traders := aset e.traders (o.trader_id.getD "") (t.record_order o.id), order_books := aset (aset (aset (MatchingEngine._estimate_notional ({ e with submit_log := e.submit_log ++ [o] } : MatchingEngine) o).1.order_books book.symbol bk) book.symbol (OrderBook.best_bid (aset e.object_store o.id o) bk).1) book.symbol (OrderBook.best_ask (aset e.object_store o.id o) (OrderBook.best_bid (aset e.object_store o.id o) bk).1).1, object_store := aset e.object_store o.id o } : MatchingEngine).set_book book.symbol (OrderBook.best_bid (aset e.object_store o.id o) (OrderBook.best_ask (aset e.object_store o.id o) (OrderBook.best_bid (aset e.object_store o.id o) bk).1).1).1 |>.set_book book.symbol (OrderBook.best_ask (aset e.object_store o.id o) (OrderBook.best_bid (aset e.object_store o.id o) (OrderBook.best_ask (aset e.object_store o.id o) (OrderBook.best_bid (aset e.object_store o.id o) bk).1).1).1).1).set_book book.symbol { (OrderBook.best_ask (aset e.object_store o.id o) (OrderBook.best_bid (aset e.object_store o.id o) (OrderBook.best_ask (aset e.object_store o.id o) (OrderBook.best_bid (aset e.object_store o.id o) bk).1).1).1).1 with _orders_by_id := ((OrderBook.best_ask (aset e.object_store o.id o) (OrderBook.best_bid (aset e.object_store o.id o) (OrderBook.best_ask (aset e.object_store o.id o) (OrderBook.best_bid (aset e.object_store o.id o) bk).1).1).1).1)._orders_by_id.erase o.id, _removed_ids := ((OrderBook.best_ask (aset e.object_store o.id o) (OrderBook.best_bid (aset e.object_store o.id o) (OrderBook.best_ask (aset e.object_store o.id o) (OrderBook.best_bid (aset e.object_store o.id o) bk).1).1).1).1)._removed_ids ++ [o.id] })).set_book book.symbol ({ (OrderBook.best_ask (aset e.object_store o.id o) (OrderBook.best_bid (aset e.object_store o.id o) (OrderBook.best_ask (aset e.object_store o.id o) (OrderBook.best_bid (aset e.object_store o.id o) bk).1).1).1).1 with _orders_by_id := ((OrderBook.best_ask (aset e.object_store o.id o) (OrderBook.best_bid (aset e.object_store o.id o) (OrderBook.best_ask (aset e.object_store o.id o) (OrderBook.best_bid (aset e.object_store o.id o) bk).1).1).1).1)._orders_by_id.erase o.id, _removed_ids := ((OrderBook.best_ask (aset e.object_store o.id o) (OrderBook.best_bid (aset e.object_store o.id o) (OrderBook.best_ask (aset e.object_store o.id o) (OrderBook.best_bid (aset e.object_store o.id o) bk).1).1).1).1)._removed_ids ++ [o.id] }), none) := by
          rw [run.eq_def]
          try dsimp only
          simp only [MatchingEngine.get_book, MatchingEngine.book_key,
            MatchingEngine.set_book]
          try dsimp only
          rw [hkeyeq]
          rw [alookup_aset_self]
          try dsimp only
          rw [hassym2]
          rw [run.eq_def]
          try dsimp only
          rw [alookup_aset_self]
          try dsimp only
          unfold OrderBook.remove_order
          try dsimp only
          rw [if_neg hncon]
          try rfl
        unfold submit_order cancel_order
        rw [hsub]
        try dsimp only
        rw [hcan]
        try dsimp only
        simp only [MatchingEngine.set_book]
        refine ⟨?_, ?_, ?_, ?_, ?_⟩
        · trivial
        · trivial
        · refine ⟨{ (OrderBook.best_ask (aset e.object_store o.id o) (OrderBook.best_bid (aset e.object_store o.id o) (OrderBook.best_ask (aset e.object_store o.id o) (OrderBook.best_bid (aset e.object_store o.id o) bk).1).1).1).1 with _orders_by_id := ((OrderBook.best_ask (aset e.object_store o.id o) (OrderBook.best_bid (aset e.object_store o.id o) (OrderBook.best_ask (aset e.object_store o.id o) (OrderBook.best_bid (aset e.object_store o.id o) bk).1).1).1).1)._orders_by_id.erase o.id, _removed_ids := ((OrderBook.best_ask (aset e.object_store o.id o) (OrderBook.best_bid (aset e.object_store o.id o) (OrderBook.best_ask (aset e.object_store o.id o) (OrderBook.best_bid (aset e.object_store o.id o) bk).1).1).1).1)._removed_ids ++ [o.id] }, ?_, ?_⟩
          · rw [hbs.symm]
            exact alookup_aset_self _ _ _
          · intro i
            unfold OrderBook.get_order
            try dsimp only
            rw [herase2]
            by_cases hio : book._orders_by_id.contains i = true
            · rw [if_pos hio, if_pos hio]
              have hine : i ≠ o.id := by
                intro hcontra
                rw [hcontra, hfresh] at hio
                exact Bool.false_ne_true hio
              rw [alookup_aset_ne _ _ _ _ hine]
            · rw [if_neg hio, if_neg hio]
        · exact hbridge
        · trivial
      · have hcon2 : ((OrderBook.best_ask (aset e.object_store o.id o) (OrderBook.best_bid (aset e.object_store o.id o) bk).1).1)._orders_by_id.contains o.id = true := by
          rw [best_ask_members, best_bid_members, hmem]
          simp
        have hermem : ((OrderBook.best_ask (aset e.object_store o.id o) (OrderBook.best_bid (aset e.object_store o.id o) bk).1).1)._orders_by_id.erase o.id = book._orders_by_id := by
          rw [best_ask_members, best_bid_members, hmem]
          have hnm : o.id ∉ book._orders_by_id := by simpa using hfresh
          rw [List.erase_append_right _ hnm, List.erase_cons_head, List.append_nil]
        have hsub : run (n + 4) e (.submit o) = ((({ e with submit_log := e.submit_log ++ [o], order_books := (MatchingEngine._estimate_notional ({ e with submit_log := e.submit_log ++ [o] } : MatchingEngine) o).1.order_books, traders := aset e.traders (o.trader_id.getD "") (t.record_order o.id), object_store := aset e.object_store o.id o } : MatchingEngine).set_book book.symbol bk |>.set_book book.symbol (OrderBook.best_bid (aset e.object_store o.id o) bk).1 |>.set_book book.symbol (OrderBook.best_ask (aset e.object_store o.id o) (OrderBook.best_bid (aset e.object_store o.id o) bk).1).1), none) := by
          rw [run.eq_def]
          try dsimp only
          rw [hT]
          try dsimp only
          unfold MatchingEngine._enforce_risk
          try dsimp only
          rw [hv]
          try dsimp only
          rw [estimate_shape ({ e with submit_log := e.submit_log ++ [o] } : MatchingEngine) o]
          try dsimp only
          rw [hT]
          try dsimp only
          dsimp only [ebind]
          simp only [MatchingEngine.get_book, MatchingEngine.book_key]
          try dsimp only
          rw [hkeyeq]
          rw [hbookX]
          try dsimp only
          rw [hot]
          try dsimp only
          rw [run.eq_def]
          try dsimp only
          rw [hbookX]
          try dsimp only
          rw [hadd]
          try dsimp only
          simp only [MatchingEngine.set_book]
          try dsimp only
          rw [hkeyeq]
          rw [matchOrders_nocross n ({ e with submit_log := e.submit_log ++ [o], traders := aset e.traders (o.trader_id.getD "") (t.record_order o.id), order_books := aset (MatchingEngine._estimate_notional ({ e with submit_log := e.submit_log ++ [o] } : MatchingEngine) o).1.order_books book.symbol bk, object_store := aset e.object_store o.id o } : MatchingEngine)
            book.symbol bk (alookup_aset_self _ _ _) hbsym2 hnc3]
          dsimp only [ebind]
          rw [if_neg htif]
          try rfl
        have hcan : run (n + 4) (({ e with submit_log := e.submit_log ++ [o], order_books := (MatchingEngine._estimate_notional ({ e with submit_log := e.submit_log ++ [o] } : MatchingEngine) o).1.order_books, traders := aset e.traders (o.trader_id.getD "") (t.record_order o.id), object_store := aset e.object_store o.id o } : MatchingEngine).set_book book.symbol bk |>.set_book book.symbol (OrderBook.best_bid (aset e.object_store o.id o) bk).1 |>.set_book book.symbol (OrderBook.best_ask (aset e.object_store o.id o) (OrderBook.best_bid (aset e.object_store o.id o) bk).1).1) (.cancel o.id o.symbol) =
            ((({ e with submit_log := e.submit_log ++ [o], order_books := (MatchingEngine._estimate_notional ({ e with submit_log := e.submit_log ++ [o] } : MatchingEngine) o).1.order_books, traders := aset e.traders (o.trader_id.getD "") (t.record_order o.id), object_store := aset e.object_store o.id o } : MatchingEngine).set_book book.symbol bk |>.set_book book.symbol (OrderBook.best_bid (aset e.object_store o.id o) bk).1 |>.set_book book.symbol (OrderBook.best_ask (aset e.object_store o.id o) (OrderBook.best_bid (aset e.object_store o.id o) bk).1).1).set_book book.symbol { (OrderBook.best_ask (aset e.object_store o.id o) (OrderBook.best_bid (aset e.object_store o.id o) bk).1).1 with _orders_by_id := ((OrderBook.best_ask (aset e.object_store o.id o) (OrderBook.best_bid (aset e.object_store o.id o) bk).1).1)._orders_by_id.erase o.id, _removed_ids := ((OrderBook.best_ask (aset e.object_store o.id o) (OrderBook.best_bid (aset e.object_store o.id o) bk).1).1)._removed_ids ++ [o.id] }, none) := by
          rw [run.eq_def]
          try dsimp only
          simp only [MatchingEngine.get_book, MatchingEngine.book_key,
            MatchingEngine.set_book]
          try dsimp only
          rw [hkeyeq]
          rw [alookup_aset_self]
          try dsimp only
          rw [hassym]
          rw [run.eq_def]
          try dsimp only
          rw [alookup_aset_self]
          try dsimp only
          unfold OrderBook.remove_order
          rw [if_pos hcon2]
          try dsimp only
          rw [alookup_aset_self]
          try dsimp only
          rw [run.eq_def]
          try dsimp only
          simp only [MatchingEngine.set_book]
          try dsimp only
          rw [hchild]
          try dsimp only
          try rw [hassym]
          try rfl
        unfold submit_order cancel_order
        rw [hsub]
        try dsimp only
        rw [hcan]
        try dsimp only
        simp only [MatchingEngine.set_book]
        refine ⟨?_, ?_, ?_, ?_, ?_⟩
        · trivial
        · trivial
        · refine ⟨{ (OrderBook.best_ask (aset e.object_store o.id o) (OrderBook.best_bid (aset e.object_store o.id o) bk).1).1 with _orders_by_id := ((OrderBook.best_ask (aset e.object_store o.id o) (OrderBook.best_bid (aset e.object_store o.id o) bk).1).1)._orders_by_id.erase o.id, _removed_ids := ((OrderBook.best_ask (aset e.object_store o.id o) (OrderBook.best_bid (aset e.object_store o.id o) bk).1).1)._removed_ids ++ [o.id] }, ?_, ?_⟩
          · rw [hbs.symm]
            exact alookup_aset_self _ _ _
          · intro i
            unfold OrderBook.get_order
            try dsimp only
            rw [hermem]
            by_cases hio : book._orders_by_id.contains i = true
            · rw [if_pos hio, if_pos hio]
              have hine : i ≠ o.id := by
                intro hcontra
                rw [hcontra, hfresh] at hio
                exact Bool.false_ne_true hio
              rw [alookup_aset_ne _ _ _ _ hine]
            · rw [if_neg hio, if_neg hio]
        · exact hbridge
        · trivial
    | MARKET =>
      have htype2 : ¬(o.type = .STOP_LOSS ∨ o.type = .STOP_LIMIT ∨
          o.type = .TRAILING_STOP ∨ o.type = .ICEBERG) := by
        rw [hot]
        simp
      obtain ⟨bk, hadd, hmem, hbsym2, hseq⟩ :=
        add_order_ok_spec e.object_store book o hsymok htype2 hfresh
      have hnc3 := hnc _ _ hadd
      have hnc4 := hnc2 _ _ hadd
      have hassym : ((OrderBook.best_ask (aset e.object_store o.id o) (OrderBook.best_bid (aset e.object_store o.id o) bk).1).1).symbol = book.symbol := by
        rw [best_ask_symbol, best_bid_symbol, hbsym2]
      by_cases htif : o.tif = .IOC
      · have hassym2 : ((OrderBook.best_ask (aset e.object_store o.id o) (OrderBook.best_bid (aset e.object_store o.id o) (OrderBook.best_ask (aset e.object_store o.id o) (OrderBook.best_bid (aset e.object_store o.id o) bk).1).1).1).1).symbol = book.symbol := by
          rw [best_ask_symbol, best_bid_symbol, best_ask_symbol, best_bid_symbol, hbsym2]
        have hcon3 : ((OrderBook.best_ask (aset e.object_store o.id o) (OrderBook.best_bid (aset e.object_store o.id o) (OrderBook.best_ask (aset e.object_store o.id o) (OrderBook.best_bid (aset e.object_store o.id o) bk).1).1).1).1)._orders_by_id.contains o.id = true := by
          rw [best_ask_members, best_bid_members, best_ask_members, best_bid_members, hmem]
          simp
        have herase2 : ((OrderBook.best_ask (aset e.object_store o.id o) (OrderBook.best_bid (aset e.object_store o.id o) (OrderBook.best_ask (aset e.object_store o.id o) (OrderBook.best_bid (aset e.object_store o.id o) bk).1).1).1).1)._orders_by_id.erase o.id = book._orders_by_id := by
          rw [best_ask_members, best_bid_members, best_ask_members, best_bid_members, hmem]
          have hnm : o.id ∉ book._orders_by_id := by simpa using hfresh
          rw [List.erase_append_right _ hnm, List.erase_cons_head, List.append_nil]
        have hncon : ¬((((OrderBook.best_ask (aset e.object_store o.id o) (OrderBook.best_bid (aset e.object_store o.id o) (OrderBook.best_ask (aset e.object_store o.id o) (OrderBook.best_bid (aset e.object_store o.id o) bk).1).1).1).1)._orders_by_id.erase o.id).contains o.id = true) := by
          rw [herase2, hfresh]
          exact Bool.false_ne_true
        have hsub : run (n + 4) e (.submit o) = (((({ e with submit_log := e.submit_log ++ [o], traders := aset e.traders (o.trader_id.getD "") (t.record_order o.id), order_books := aset (aset (aset (MatchingEngine._estimate_notional ({ e with submit_log := e.submit_log ++ [o] } : MatchingEngine) o).1.order_books book.symbol bk) book.symbol (OrderBook.best_bid (aset e.object_store o.id o) bk).1) book.symbol (OrderBook.best_ask (aset e.object_store o.id o) (OrderBook.best_bid (aset e.object_store o.id o) bk).1).1, object_store := aset e.object_store o.id o } : MatchingEngine).set_book book.symbol (OrderBook.best_bid (aset e.object_store o.id o) (OrderBook.best_ask (aset e.object_store o.id o) (OrderBook.best_bid (aset e.object_store o.id o) bk).1).1).1 |>.set_book book.symbol (OrderBook.best_ask (aset e.object_store o.id o) (OrderBook.best_bid (aset e.object_store o.id o) (OrderBook.best_ask (aset e.object_store o.id o) (OrderBook.best_bid (aset e.object_store o.id o) bk).1).1).1).1).set_book book.symbol { (OrderBook.best_ask (aset e.object_store o.id o) (OrderBook.best_bid (aset e.object_store o.id o) (OrderBook.best_ask (aset e.object_store o.id o) (OrderBook.best_bid (aset e.object_store o.id o) bk).1).1).1).1 with _orders_by_id := ((OrderBook.best_ask (aset e.object_store o.id o) (OrderBook.best_bid (aset e.object_store o.id o) (OrderBook.best_ask (aset e.object_store o.id o) (OrderBook.best_bid (aset e.object_store o.id o) bk).1).1).1).1)._orders_by_id.erase o.id, _removed_ids := ((OrderBook.best_ask (aset e.object_store o.id o) (OrderBook.best_bid (aset e.object_store o.id o) (OrderBook.best_ask (aset e.object_store o.id o) (OrderBook.best_bid (aset e.object_store o.id o) bk).1).1).1).1)._removed_ids ++ [o.id] }), none) := by
          rw [run.eq_def]
          try dsimp only
          rw [hT]
          try dsimp only
          unfold MatchingEngine._enforce_risk
          try dsimp only
          rw [hv]
          try dsimp only
          rw [estimate_shape ({ e with submit_log := e.submit_log ++ [o] } : MatchingEngine) o]
          try dsimp only
          rw [hT]
          try dsimp only
          dsimp only [ebind]
          simp only [MatchingEngine.get_book, MatchingEngine.book_key]
          try dsimp only
          rw [hkeyeq]
          rw [hbookX]
          try dsimp only
          rw [hot]
          try dsimp only
          rw [run.eq_def]
          try dsimp only
          rw [hbookX]
          try dsimp only
          rw [hadd]
          try dsimp only
          simp only [MatchingEngine.set_book]
          try dsimp only
          rw [hkeyeq]
          rw [matchOrders_nocross n ({ e with submit_log := e.submit_log ++ [o], traders := aset e.traders (o.trader_id.getD "") (t.record_order o.id), order_books := aset (MatchingEngine._estimate_notional ({ e with submit_log := e.submit_log ++ [o] } : MatchingEngine) o).1.order_books book.symbol bk, object_store := aset e.object_store o.id o } : MatchingEngine)
            book.symbol bk (alookup_aset_self _ _ _) hbsym2 hnc3]
          dsimp only [ebind]
          rw [if_pos htif]
          simp only [MatchingEngine.set_book]
          try dsimp only
          rw [matchOrders_nocross (n + 1) ({ e with submit_log := e.submit_log ++ [o], traders := aset e.traders (o.trader_id.getD "") (t.record_order o.id), order_books := aset (aset (aset (MatchingEngine._estimate_notional ({ e with submit_log := e.submit_log ++ [o] } : MatchingEngine) o).1.order_books book.symbol bk) book.symbol (OrderBook.best_bid (aset e.object_store o.id o) bk).1) book.symbol (OrderBook.best_ask (aset e.object_store o.id o) (OrderBook.best_bid (aset e.object_store o.id o) bk).1).1, object_store := aset e.object_store o.id o } : MatchingEngine)
            book.symbol ((OrderBook.best_ask (aset e.object_store o.id o) (OrderBook.best_bid (aset e.object_store o.id o) bk).1).1) (alookup_aset_self _ _ _) hassym hnc4]
          dsimp only [ebind]
          simp only [MatchingEngine.get_book, MatchingEngine.book_key,
            MatchingEngine.set_book]
          try dsimp only
          rw [hkeyeq]
          rw [alookup_aset_self]
          try dsimp only
          unfold OrderBook.get_order
          try dsimp only
          rw [if_pos hcon3]
          rw [alookup_aset_self]
          try dsimp only
          rw [if_pos hqpos]
          rw [run.eq_def]
          try dsimp only
          rw [alookup_aset_self]
          try dsimp only
          unfold OrderBook.remove_order
          rw [if_pos hcon3]
          try dsimp only
          rw [alookup_aset_self]
          try dsimp only
          rw [run.eq_def]
          try dsimp only
          simp only [MatchingEngine.set_book]
          try dsimp only
          rw [hchild]
          try dsimp only
          try rfl
        have hcan : run (n + 4) (((({ e with submit_log := e.submit_log ++ [o], traders := aset e.traders (o.trader_id.getD "") (t.record_order o.id), order_books := aset (aset (aset (MatchingEngine._estimate_notional ({ e with submit_log := e.submit_log ++ [o] } : MatchingEngine) o).1.order_books book.symbol bk) book.symbol (OrderBook.best_bid (aset e.object_store o.id o) bk).1) book.symbol (OrderBook.best_ask (aset e.object_store o.id o) (OrderBook.best_bid (aset e.object_store o.id o) bk).1).1, object_store := aset e.object_store o.id o } : MatchingEngine).set_book book.symbol (OrderBook.best_bid (aset e.object_store o.id o) (OrderBook.best_ask (aset e.object_store o.id o) (OrderBook.best_bid (aset e.object_store o.id o) bk).1).1).1 |>.set_book book.symbol (OrderBook.best_ask (aset e.object_store o.id o) (OrderBook.best_bid (aset e.object_store o.id o) (OrderBook.best_ask (aset e.object_store o.id o) (OrderBook.best_bid (aset e.object_store o.id o) bk).1).1).1).1).set_book book.symbol { (OrderBook.best_ask (aset e.object_store o.id o) (OrderBook.best_bid (aset e.object_store o.id o) (OrderBook.best_ask (aset e.object_store o.id o) (OrderBook.best_bid (aset e.object_store o.id o) bk).1).1).1).1 with _orders_by_id := ((OrderBook.best_ask (aset e.object_store o.id o) (OrderBook.best_bid (aset e.object_store o.id o) (OrderBook.best_ask (aset e.object_store o.id o) (OrderBook.best_bid (aset e.object_store o.id o) bk).1).1).1).1)._orders_by_id.erase o.id, _removed_ids := ((OrderBook.best_ask (aset e.object_store o.id o) (OrderBook.best_bid (aset e.object_store o.id o) (OrderBook.best_ask (aset e.object_store o.id o) (OrderBook.best_bid (aset e.object_store o.id o) bk).1).1).1).1)._removed_ids ++ [o.id] })) (.cancel o.id o.symbol) =
            ((((({ e with submit_log := e.submit_log ++ [o], traders := aset e.traders (o.trader_id.getD "") (t.record_order o.id), order_books := aset (aset (aset (MatchingEngine._estimate_notional ({ e with submit_log := e.submit_log ++ [o] } : MatchingEngine) o).1.order_books book.symbol bk) book.symbol (OrderBook.best_bid (aset e.object_store o.id o) bk).1) book.symbol (OrderBook.best_ask (aset e.object_store o.id o) (OrderBook.best_bid (aset e.object_store o.id o) bk).1).1, object_store := aset e.object_store o.id o } : MatchingEngine).set_book book.symbol (OrderBook.best_bid (aset e.object_store o.id o) (OrderBook.best_ask (aset e.object_store o.id o) (OrderBook.best_bid (aset e.object_store o.id o) bk).1).1).1 |>.set_book book.symbol (OrderBook.best_ask (aset e.object_store o.id o) (OrderBook.best_bid (aset e.object_store o.id o) (OrderBook.best_ask (aset e.object_store o.id o) (OrderBook.best_bid (aset e.object_store o.id o) bk).1).1).1).1).set_book book.symbol { (OrderBook.best_ask (aset e.object_store o.id o) (OrderBook.best_bid (aset e.object_store o.id o) (OrderBook.best_ask (aset e.object_store o.id o) (OrderBook.best_bid (aset e.object_store o.id o) bk).1).1).1).1 with _orders_by_id := ((OrderBook.best_ask (aset e.object_store o.id o) (OrderBook.best_bid (aset e.object_store o.id o) (OrderBook.best_ask (aset e.object_store o.id o) (OrderBook.best_bid (aset e.object_store o.id o) bk).1).1).1).1)._orders_by_id.erase o.id, _removed_ids := ((OrderBook.best_ask (aset e.object_store o.id o) (OrderBook.best_bid (aset e.object_store o.id o) (OrderBook.best_ask (aset e.object_store o.id o) (OrderBook.best_bid (aset e.object_store o.id o) bk).1).1).1).1)._removed_ids ++ [o.id] })).set_book book.symbol ({ (OrderBook.best_ask (aset e.object_store o.id o) (OrderBook.best_bid (aset e.object_store o.id o) (OrderBook.best_ask (aset e.object_store o.id o) (OrderBook.best_bid (aset e.object_store o.id o) bk).1).1).1).1 with _orders_by_id := ((OrderBook.best_ask (aset e.object_store o.id o) (OrderBook.best_bid (aset e.object_store o.id o) (OrderBook.best_ask (aset e.object_store o.id o) (OrderBook.best_bid (aset e.object_store o.id o) bk).1).1).1).1)._orders_by_id.erase o.id, _removed_ids := ((OrderBook.best_ask (aset e.object_store o.id o) (OrderBook.best_bid (aset e.object_store o.id o) (OrderBook.best_ask (aset e.object_store o.id o) (OrderBook.best_bid (aset e.object_store o.id o) bk).1).1).1).1)._removed_ids ++ [o.id] }), none) := by
          rw [run.eq_def]
          try dsimp only
          simp only [MatchingEngine.get_book, MatchingEngine.book_key,
            MatchingEngine.set_book]
          try dsimp only
          rw [hkeyeq]
          rw [alookup_aset_self]
          try dsimp only
          rw [hassym2]
          rw [run.eq_def]
          try dsimp only
          rw [alookup_aset_self]
          try dsimp only
          unfold OrderBook.remove_order
          try dsimp only
          rw [if_neg hncon]
          try rfl
        unfold submit_order cancel_order
        rw [hsub]
        try dsimp only
        rw [hcan]
        try dsimp only
        simp only [MatchingEngine.set_book]
        refine ⟨?_, ?_, ?_, ?_, ?_⟩
        · trivial
        · trivial
        · refine ⟨{ (OrderBook.best_ask (aset e.object_store o.id o) (OrderBook.best_bid (aset e.object_store o.id o) (OrderBook.best_ask (aset e.object_store o.id o) (OrderBook.best_bid (aset e.object_store o.id o) bk).1).1).1).1 with _orders_by_id := ((OrderBook.best_ask (aset e.object_store o.id o) (OrderBook.best_bid (aset e.object_store o.id o) (OrderBook.best_ask (aset e.object_store o.id o) (OrderBook.best_bid (aset e.object_store o.id o) bk).1).1).1).1)._orders_by_id.erase o.id, _removed_ids := ((OrderBook.best_ask (aset e.object_store o.id o) (OrderBook.best_bid (aset e.object_store o.id o) (OrderBook.best_ask (aset e.object_store o.id o) (OrderBook.best_bid (aset e.object_store o.id o) bk).1).1).1).1)._removed_ids ++ [o.id] }, ?_, ?_⟩
          · rw [hbs.symm]
            exact alookup_aset_self _ _ _
          · intro i
            unfold OrderBook.get_order
            try dsimp only
            rw [herase2]
            by_cases hio : book._orders_by_id.contains i = true
            · rw [if_pos hio, if_pos hio]
              have hine : i ≠ o.id := by
                intro hcontra
                rw [hcontra, hfresh] at hio
                exact Bool.false_ne_true hio
              rw [alookup_aset_ne _ _ _ _ hine]
            · rw [if_neg hio, if_neg hio]
        · exact hbridge
        · trivial
      · have hcon2 : ((OrderBook.best_ask (aset e.object_store o.id o) (OrderBook.best_bid (aset e.object_store o.id o) bk).1).1)._orders_by_id.contains o.id = true := by
          rw [best_ask_members, best_bid_members, hmem]
          simp
        have hermem : ((OrderBook.best_ask (aset e.object_store o.id o) (OrderBook.best_bid (aset e.object_store o.id o) bk).1).1)._orders_by_id.erase o.id = book._orders_by_id := by
          rw [best_ask_members, best_bid_members, hmem]
          have hnm : o.id ∉ book._orders_by_id := by simpa using hfresh
          rw [List.erase_append_right _ hnm, List.erase_cons_head, List.append_nil]
        have hsub : run (n + 4) e (.submit o) = ((({ e with submit_log := e.submit_log ++ [o], order_books := (MatchingEngine._estimate_notional ({ e with submit_log := e.submit_log ++ [o] } : MatchingEngine) o).1.order_books, traders := aset e.traders (o.trader_id.getD "") (t.record_order o.id), object_store := aset e.object_store o.id o } : MatchingEngine).set_book book.symbol bk |>.set_book book.symbol (OrderBook.best_bid (aset e.object_store o.id o) bk).1 |>.set_book book.symbol (OrderBook.best_ask (aset e.object_store o.id o) (OrderBook.best_bid (aset e.object_store o.id o) bk).1).1), none) := by
          rw [run.eq_def]
          try dsimp only
          rw [hT]
          try dsimp only
          unfold MatchingEngine._enforce_risk
          try dsimp only
          rw [hv]
          try dsimp only
          rw [estimate_shape ({ e with submit_log := e.submit_log ++ [o] } : MatchingEngine) o]
          try dsimp only
          rw [hT]
          try dsimp only
          dsimp only [ebind]
          simp only [MatchingEngine.get_book, MatchingEngine.book_key]
          try dsimp only
          rw [hkeyeq]
          rw [hbookX]
          try dsimp only
          rw [hot]
          try dsimp only
          rw [run.eq_def]
          try dsimp only
          rw [hbookX]
          try dsimp only
          rw [hadd]
          try dsimp only
          simp only [MatchingEngine.set_book]
          try dsimp only
          rw [hkeyeq]
          rw [matchOrders_nocross n ({ e with submit_log := e.submit_log ++ [o], traders := aset e.traders (o.trader_id.getD "") (t.record_order o.id), order_books := aset (MatchingEngine._estimate_notional ({ e with submit_log := e.submit_log ++ [o] } : MatchingEngine) o).1.order_books book.symbol bk, object_store := aset e.object_store o.id o } : MatchingEngine)
            book.symbol bk (alookup_aset_self _ _ _) hbsym2 hnc3]
          dsimp only [ebind]
          rw [if_neg htif]
          try rfl
        have hcan : run (n + 4) (({ e with submit_log := e.submit_log ++ [o], order_books := (MatchingEngine._estimate_notional ({ e with submit_log := e.submit_log ++ [o] } : MatchingEngine) o).1.order_books, traders := aset e.traders (o.trader_id.getD "") (t.record_order o.id), object_store := aset e.object_store o.id o } : MatchingEngine).set_book book.symbol bk |>.set_book book.symbol (OrderBook.best_bid (aset e.object_store o.id o) bk).1 |>.set_book book.symbol (OrderBook.best_ask (aset e.object_store o.id o) (OrderBook.best_bid (aset e.object_store o.id o) bk).1).1) (.cancel o.id o.symbol) =
            ((({ e with submit_log := e.submit_log ++ [o], order_books := (MatchingEngine._estimate_notional ({ e with submit_log := e.submit_log ++ [o] } : MatchingEngine) o).1.order_books, traders := aset e.traders (o.trader_id.getD "") (t.record_order o.id), object_store := aset e.object_store o.id o } : MatchingEngine).set_book book.symbol bk |>.set_book book.symbol (OrderBook.best_bid (aset e.object_store o.id o) bk).1 |>.set_book book.symbol (OrderBook.best_ask (aset e.object_store o.id o) (OrderBook.best_bid (aset e.object_store o.id o) bk).1).1).set_book book.symbol { (OrderBook.best_ask (aset e.object_store o.id o) (OrderBook.best_bid (aset e.object_store o.id o) bk).1).1 with _orders_by_id := ((OrderBook.best_ask (aset e.object_store o.id o) (OrderBook.best_bid (aset e.object_store o.id o) bk).1).1)._orders_by_id.erase o.id, _removed_ids := ((OrderBook.best_ask (aset e.object_store o.id o) (OrderBook.best_bid (aset e.object_store o.id o) bk).1).1)._removed_ids ++ [o.id] }, none) := by
          rw [run.eq_def]
          try dsimp only
          simp only [MatchingEngine.get_book, MatchingEngine.book_key,
            MatchingEngine.set_book]
          try dsimp only
          rw [hkeyeq]
          rw [alookup_aset_self]
          try dsimp only
          rw [hassym]
          rw [run.eq_def]
          try dsimp only
          rw [alookup_aset_self]
          try dsimp only
          unfold OrderBook.remove_order
          rw [if_pos hcon2]
          try dsimp only
          rw [alookup_aset_self]
          try dsimp only
          rw [run.eq_def]
          try dsimp only
          simp only [MatchingEngine.set_book]
          try dsimp only
          rw [hchild]
          try dsimp only
          try rw [hassym]
          try rfl
        unfold submit_order cancel_order
        rw [hsub]
        try dsimp only
        rw [hcan]
        try dsimp only
        simp only [MatchingEngine.set_book]
        refine ⟨?_, ?_, ?_, ?_, ?_⟩
        · trivial
        · trivial
        · refine ⟨{ (OrderBook.best_ask (aset e.object_store o.id o) (OrderBook.best_bid (aset e.object_store o.id o) bk).1).1 with _orders_by_id := ((OrderBook.best_ask (aset e.object_store o.id o) (OrderBook.best_bid (aset e.object_store o.id o) bk).1).1)._orders_by_id.erase o.id, _removed_ids := ((OrderBook.best_ask (aset e.object_store o.id o) (OrderBook.best_bid (aset e.object_store o.id o) bk).1).1)._removed_ids ++ [o.id] }, ?_, ?_⟩
          · rw [hbs.symm]
            exact alookup_aset_self _ _ _
          · intro i
            unfold OrderBook.get_order
            try dsimp only
            rw [hermem]
            by_cases hio : book._orders_by_id.contains i = true
            · rw [if_pos hio, if_pos hio]
              have hine : i ≠ o.id := by
                intro hcontra
                rw [hcontra, hfresh] at hio
                exact Bool.false_ne_true hio
              rw [alookup_aset_ne _ _ _ _ hine]
            · rw [if_neg hio, if_neg hio]
        · exact hbridge
        · trivial
    | STOP_LOSS =>
      have hsub : ∃ sl stl tl, run (n + 4) e (.submit o) =
          ({ e with submit_log := e.submit_log ++ [o], order_books := (MatchingEngine._estimate_notional ({ e with submit_log := e.submit_log ++ [o] } : MatchingEngine) o).1.order_books, traders := aset e.traders (o.trader_id.getD "") (t.record_order o.id), _stop_orders := sl, _stop_limit_orders := stl, _trailing_orders := tl }, none) :=
        ⟨_, _, _, by
          rw [run.eq_def]
          try dsimp only
          rw [hT]
          try dsimp only
          unfold MatchingEngine._enforce_risk
          try dsimp only
          rw [hv]
          try dsimp only
          rw [estimate_shape ({ e with submit_log := e.submit_log ++ [o] } : MatchingEngine) o]
          try dsimp only
          rw [hT]
          try dsimp only
          dsimp only [ebind]
          simp only [MatchingEngine.get_book, MatchingEngine.book_key]
          try dsimp only
          rw [hkeyeq]
          rw [hbookX]
          try dsimp only
          rw [hot]
          try rfl⟩
      obtain ⟨sl, stl, tl, hsub⟩ := hsub
      unfold submit_order cancel_order
      rw [hsub]
      try dsimp only
      have hcan : run (n + 4) ({ e with submit_log := e.submit_log ++ [o], order_books := (MatchingEngine._estimate_notional ({ e with submit_log := e.submit_log ++ [o] } : MatchingEngine) o).1.order_books, traders := aset e.traders (o.trader_id.getD "") (t.record_order o.id), _stop_orders := sl, _stop_limit_orders := stl, _trailing_orders := tl } : MatchingEngine) (.cancel o.id o.symbol) =
          (({ e with submit_log := e.submit_log ++ [o], order_books := (MatchingEngine._estimate_notional ({ e with submit_log := e.submit_log ++ [o] } : MatchingEngine) o).1.order_books, traders := aset e.traders (o.trader_id.getD "") (t.record_order o.id), _stop_orders := sl, _stop_limit_orders := stl, _trailing_orders := tl } : MatchingEngine).set_book book.symbol book, none) := by
        rw [run.eq_def]
        try dsimp only
        simp only [MatchingEngine.get_book, MatchingEngine.book_key]
        try dsimp only
        rw [hkeyeq]
        rw [hbookX]
        try dsimp only
        rw [run.eq_def]
        try dsimp only
        rw [hbookX]
        try dsimp only
        unfold OrderBook.remove_order
        rw [if_neg (show ¬(book._orders_by_id.contains o.id = true) from by
          rw [hfresh]; exact Bool.false_ne_true)]
        try rfl
      rw [hcan]
      try dsimp only
      simp only [MatchingEngine.set_book]
      refine ⟨?_, ?_, ?_, ?_, ?_⟩
      · trivial
      · trivial
      · refine ⟨book, ?_, ?_⟩
        · rw [hbs.symm]
          exact alookup_aset_self _ _ _
        · intro i
          trivial
      · exact hbridge
      · trivial
    | STOP_LIMIT =>
      have hsub : ∃ sl stl tl, run (n + 4) e (.submit o) =
          ({ e with submit_log := e.submit_log ++ [o], order_books := (MatchingEngine._estimate_notional ({ e with submit_log := e.submit_log ++ [o] } : MatchingEngine) o).1.order_books, traders := aset e.traders (o.trader_id.getD "") (t.record_order o.id), _stop_orders := sl, _stop_limit_orders := stl, _trailing_orders := tl }, none) :=
        ⟨_, _, _, by
          rw [run.eq_def]
          try dsimp only
          rw [hT]
          try dsimp only
          unfold MatchingEngine._enforce_risk
          try dsimp only
          rw [hv]
          try dsimp only
          rw [estimate_shape ({ e with submit_log := e.submit_log ++ [o] } : MatchingEngine) o]
          try dsimp only
          rw [hT]
          try dsimp only
          dsimp only [ebind]
          simp only [MatchingEngine.get_book, MatchingEngine.book_key]
          try dsimp only
          rw [hkeyeq]
          rw [hbookX]
          try dsimp only
          rw [hot]
          try rfl⟩
      obtain ⟨sl, stl, tl, hsub⟩ := hsub
      unfold submit_order cancel_order
      rw [hsub]
      try dsimp only
      have hcan : run (n + 4) ({ e with submit_log := e.submit_log ++ [o], order_books := (MatchingEngine._estimate_notional ({ e with submit_log := e.submit_log ++ [o] } : MatchingEngine) o).1.order_books, traders := aset e.traders (o.trader_id.getD "") (t.record_order o.id), _stop_orders := sl, _stop_limit_orders := stl, _trailing_orders := tl } : MatchingEngine) (.cancel o.id o.symbol) =
          (({ e with submit_log := e.submit_log ++ [o], order_books := (MatchingEngine._estimate_notional ({ e with submit_log := e.submit_log ++ [o] } : MatchingEngine) o).1.order_books, traders := aset e.traders (o.trader_id.getD "") (t.record_order o.id), _stop_orders := sl, _stop_limit_orders := stl, _trailing_orders := tl } : MatchingEngine).set_book book.symbol book, none) := by
        rw [run.eq_def]
        try dsimp only
        simp only [MatchingEngine.get_book, MatchingEngine.book_key]
        try dsimp only
        rw [hkeyeq]
        rw [hbookX]
        try dsimp only
        rw [run.eq_def]
        try dsimp only
        rw [hbookX]
        try dsimp only
        unfold OrderBook.remove_order
        rw [if_neg (show ¬(book._orders_by_id.contains o.id = true) from by
          rw [hfresh]; exact Bool.false_ne_true)]
        try rfl
      rw [hcan]
      try dsimp only
      simp only [MatchingEngine.set_book]
      refine ⟨?_, ?_, ?_, ?_, ?_⟩
      · trivial
      · trivial
      · refine ⟨book, ?_, ?_⟩
        · rw [hbs.symm]
          exact alookup_aset_self _ _ _
        · intro i
          trivial
      · exact hbridge
      · trivial
    | TRAILING_STOP =>
      have hsub : ∃ sl stl tl, run (n + 4) e (.submit o) =
          ({ e with submit_log := e.submit_log ++ [o], order_books := (MatchingEngine._estimate_notional ({ e with submit_log := e.submit_log ++ [o] } : MatchingEngine) o).1.order_books, traders := aset e.traders (o.trader_id.getD "") (t.record_order o.id), _stop_orders := sl, _stop_limit_orders := stl, _trailing_orders := tl }, none) :=
        ⟨_, _, _, by
          rw [run.eq_def]
          try dsimp only
          rw [hT]
          try dsimp only
          unfold MatchingEngine._enforce_risk
          try dsimp only
          rw [hv]
          try dsimp only
          rw [estimate_shape ({ e with submit_log := e.submit_log ++ [o] } : MatchingEngine) o]
          try dsimp only
          rw [hT]
          try dsimp only
          dsimp only [ebind]
          simp only [MatchingEngine.get_book, MatchingEngine.book_key]
          try dsimp only
          rw [hkeyeq]
          rw [hbookX]
          try dsimp only
          rw [hot]
          try rfl⟩
      obtain ⟨sl, stl, tl, hsub⟩ := hsub
      unfold submit_order cancel_order
      rw [hsub]
      try dsimp only
      have hcan : run (n + 4) ({ e with submit_log := e.submit_log ++ [o], order_books := (MatchingEngine._estimate_notional ({ e with submit_log := e.submit_log ++ [o] } : MatchingEngine) o).1.order_books, traders := aset e.traders (o.trader_id.getD "") (t.record_order o.id), _stop_orders := sl, _stop_limit_orders := stl, _trailing_orders := tl } : MatchingEngine) (.cancel o.id o.symbol) =
          (({ e with submit_log := e.submit_log ++ [o], order_books := (MatchingEngine._estimate_notional ({ e with submit_log := e.submit_log ++ [o] } : MatchingEngine) o).1.order_books, traders := aset e.traders (o.trader_id.getD "") (t.record_order o.id), _stop_orders := sl, _stop_limit_orders := stl, _trailing_orders := tl } : MatchingEngine).set_book book.symbol book, none) := by
        rw [run.eq_def]
        try dsimp only
        simp only [MatchingEngine.get_book, MatchingEngine.book_key]
        try dsimp only
        rw [hkeyeq]
        rw [hbookX]
        try dsimp only
        rw [run.eq_def]
        try dsimp only
        rw [hbookX]
        try dsimp only
        unfold OrderBook.remove_order
        rw [if_neg (show ¬(book._orders_by_id.contains o.id = true) from by
          rw [hfresh]; exact Bool.false_ne_true)]
        try rfl
      rw [hcan]
      try dsimp only
      simp only [MatchingEngine.set_book]
      refine ⟨?_, ?_, ?_, ?_, ?_⟩
      · trivial
      · trivial
      · refine ⟨book, ?_, ?_⟩
        · rw [hbs.symm]
          exact alookup_aset_self _ _ _
        · intro i
          trivial
      · exact hbridge
      · trivial

/-- Witness for C9 at the concrete scenario: GTC BUY LIMIT order into the
fresh AAPL book of an engine with a registered trader, then cancel. -/
theorem C9_submit_cancel_round_trip_witness :
    (submit_order 30 (fifo_engine.register_trader plain_trader) c9_o).2 = none ∧
    (cancel_order 30 (submit_order 30 (fifo_engine.register_trader plain_trader) c9_o).1
      c9_o.id c9_o.symbol).2 = none ∧
    (∃ bf, alookup (cancel_order 30 (submit_order 30 (fifo_engine.register_trader plain_trader)
        c9_o).1 c9_o.id c9_o.symbol).1.order_books
        ((fifo_engine.register_trader plain_trader).book_key c9_o.symbol) = some bf ∧
      ∀ i, OrderBook.get_order (cancel_order 30 (submit_order 30
          (fifo_engine.register_trader plain_trader) c9_o).1 c9_o.id c9_o.symbol).1.object_store
          bf i
        = OrderBook.get_order (fifo_engine.register_trader plain_trader).object_store
            aapl_book i) ∧
    (∀ b0, alookup (fifo_engine.register_trader plain_trader).order_books
        ((fifo_engine.register_trader plain_trader).book_key c9_o.symbol) = some b0 →
      ∀ i, OrderBook.get_order (fifo_engine.register_trader plain_trader).object_store
          aapl_book i
        = OrderBook.get_order (fifo_engine.register_trader plain_trader).object_store b0 i) ∧
    ((cancel_order 30 (submit_order 30 (fifo_engine.register_trader plain_trader) c9_o).1
        c9_o.id c9_o.symbol).1.traders =
      match alookup (fifo_engine.register_trader plain_trader).traders
          (c9_o.trader_id.getD "") with
      | none => (fifo_engine.register_trader plain_trader).traders
      | some t => aset (fifo_engine.register_trader plain_trader).traders
          (c9_o.trader_id.getD "") (t.record_order c9_o.id)) :=
  C9_submit_cancel_round_trip 26 (fifo_engine.register_trader plain_trader) c9_o aapl_book
    (by decide)
    (by decide)
    (by
      show alookup (MatchingEngine._estimate_notional
          { fifo_engine.register_trader plain_trader with
            submit_log := (fifo_engine.register_trader plain_trader).submit_log ++ [c9_o] }
          c9_o).1.order_books
          ((fifo_engine.register_trader plain_trader).book_key c9_o.symbol) = some aapl_book
      decide)
    (by decide)
    (by decide)
    (by decide)
    (by
      show MatchingEngine.risk_verdict plain_trader c9_o
        (MatchingEngine._estimate_notional
          { fifo_engine.register_trader plain_trader with
            submit_log := (fifo_engine.register_trader plain_trader).submit_log ++ [c9_o] }
          c9_o).2 = none
      decide)
    (by
      intro st bk h
      injection h with h1
      injection h1 with ha hb
      subst ha
      subst hb
      right
      left
      decide)
    (by
      intro st bk h
      injection h with h1
      injection h1 with ha hb
      subst ha
      subst hb
      right
      left
      decide)


theorem spawnChild_spec (k : ℕ) (e : MatchingEngine) (pid : String) (parent : Order)
    (book : OrderBook) (r : ℚ)
    (hpar : alookup e._iceberg_parents pid = some parent)
    (hrem : alookup e._iceberg_remaining pid = some r)
    (hrpos : 0 < r)
    (hslice : 0 < min (parent.display_quantity.getD 0) r)
    (hbook : alookup e.order_books e.default_symbol = some book)
    (hbs : book.symbol = e.default_symbol)
    (hpsym : parent.symbol.getD e.default_symbol = e.default_symbol)
    (hfresh : book._orders_by_id.contains (parent.id ++ "-slice-" ++ toString e.clock) = false)
    (hnc : ∀ st bk, OrderBook.add_order e.object_store book (iceberg_child e parent r)
        = .ok (st, bk) →
      (OrderBook.best_bid st bk).2 = none ∨
        (OrderBook.best_ask st (OrderBook.best_bid st bk).1).2 = none ∨
        (∃ bb ba bbp bap, (OrderBook.best_bid st bk).2 = some bb ∧
          (OrderBook.best_ask st (OrderBook.best_bid st bk).1).2 = some ba ∧
          bb.price = some bbp ∧ ba.price = some bap ∧ bbp < bap)) :
    ∃ bk, OrderBook.add_order e.object_store book (iceberg_child e parent r)
        = .ok (aset e.object_store (iceberg_child e parent r).id (iceberg_child e parent r),
          bk) ∧
      bk._orders_by_id = book._orders_by_id ++ [(iceberg_child e parent r).id] ∧
      bk.symbol = book.symbol ∧
      run (k + 4) e (.spawnChild pid) = (((({ e with object_store := aset e.object_store (iceberg_child e parent r).id (iceberg_child e parent r), order_books := aset e.order_books e.default_symbol bk, clock := e.clock + 1, _iceberg_child_to_parent := aset e._iceberg_child_to_parent (parent.id ++ "-slice-" ++ toString e.clock) pid, _iceberg_remaining := aset e._iceberg_remaining pid (max 0 (r - (min (parent.display_quantity.getD 0) r))) } : MatchingEngine).set_book e.default_symbol (OrderBook.best_bid (aset e.object_store (iceberg_child e parent r).id (iceberg_child e parent r)) bk).1).set_book e.default_symbol (OrderBook.best_ask (aset e.object_store (iceberg_child e parent r).id (iceberg_child e parent r)) (OrderBook.best_bid (aset e.object_store (iceberg_child e parent r).id (iceberg_child e parent r)) bk).1).1), none) := by
  have hsymok : ¬((iceberg_child e parent r).symbol ≠ none ∧
      (iceberg_child e parent r).symbol ≠ some book.symbol) := by
    intro h
    apply h.2
    show some (parent.symbol.getD e.default_symbol) = some book.symbol
    rw [hpsym, hbs]
  have htype2 : ¬((iceberg_child e parent r).type = .STOP_LOSS ∨
      (iceberg_child e parent r).type = .STOP_LIMIT ∨
      (iceberg_child e parent r).type = .TRAILING_STOP ∨
      (iceberg_child e parent r).type = .ICEBERG) := by
    simp [iceberg_child]
  have hfresh2 : book._orders_by_id.contains (iceberg_child e parent r).id = false := hfresh
  obtain ⟨bk, hadd, hmem, hbsym, hseq⟩ :=
    add_order_ok_spec e.object_store book (iceberg_child e parent r) hsymok htype2 hfresh2
  refine ⟨bk, hadd, hmem, hbsym, ?_⟩
  rw [run.eq_def]
  try dsimp only
  rw [hpar]
  try dsimp only
  rw [hrem]
  try dsimp only
  simp only [Option.getD_some]
  rw [if_neg (show ¬(r ≤ 0) from not_le.mpr hrpos)]
  try dsimp only
  rw [if_neg (show ¬(min (parent.display_quantity.getD 0) r ≤ 0) from not_le.mpr hslice)]
  try dsimp only
  rw [run.eq_def]
  try dsimp only
  rw [hbook]
  try dsimp only
  rw [show ({ id := parent.id ++ "-slice-" ++ toString e.clock, type := .LIMIT, side := parent.side, price := parent.price, quantity := min (parent.display_quantity.getD 0) r, timestamp := e.clock, symbol := some (parent.symbol.getD e.default_symbol), trader_id := parent.trader_id, tif := parent.tif } : Order) = iceberg_child e parent r from rfl]
  rw [hadd]
  try dsimp only
  rw [hpsym]
  simp only [Option.getD_some]
  simp only [MatchingEngine.set_book]
  try dsimp only
  rw [matchOrders_nocross k ({ e with object_store := aset e.object_store (iceberg_child e parent r).id (iceberg_child e parent r), order_books := aset e.order_books e.default_symbol bk, clock := e.clock + 1, _iceberg_child_to_parent := aset e._iceberg_child_to_parent (parent.id ++ "-slice-" ++ toString e.clock) pid, _iceberg_remaining := aset e._iceberg_remaining pid (max 0 (r - (min (parent.display_quantity.getD 0) r))) } : MatchingEngine) e.default_symbol bk
    (alookup_aset_self _ _ _) (by rw [hbsym, hbs]) (hnc _ _ hadd)]
  try rfl

/-- C8 (amended): an error-free iceberg submission whose resolved symbol
is the default (symbol omitted or explicitly the default), by any
submitter (with risk admission passing when a trader is registered),
records the parent, sets remaining to quantity minus the spawned slice,
records the child-to-parent mapping and leaves exactly one visible LIMIT
child of quantity `min display remaining` resting in the default book;
and whenever a child is removed while the parent's remaining is positive,
exactly one new child is spawned into the default book and remaining is
decremented by the new slice. -/
theorem C8_iceberg_spawn :
    (∀ (k : ℕ) (e : MatchingEngine) (o : Order) (book : OrderBook),
      o.type = .ICEBERG → o.symbol.getD e.default_symbol = e.default_symbol →
      0 < o.quantity →
      0 < min (o.display_quantity.getD 0) o.quantity →
      alookup e.order_books e.default_symbol = some book →
      book.symbol = e.default_symbol →
      book._orders_by_id.contains (o.id ++ "-slice-" ++ toString e.clock) = false →
      (match alookup e.traders (o.trader_id.getD "") with
       | none => True
       | some t => MatchingEngine.risk_verdict t o
           (o.price.map (fun p => p * o.quantity)) = none) →
      (∀ st bk, OrderBook.add_order e.object_store book (iceberg_child e o o.quantity)
          = .ok (st, bk) →
        (OrderBook.best_bid st bk).2 = none ∨
        (OrderBook.best_ask st (OrderBook.best_bid st bk).1).2 = none ∨
        (∃ bb ba bbp bap, (OrderBook.best_bid st bk).2 = some bb ∧
          (OrderBook.best_ask st (OrderBook.best_bid st bk).1).2 = some ba ∧
          bb.price = some bbp ∧ ba.price = some bap ∧ bbp < bap)) →
      (submit_order (k + 6) e o).2 = none ∧
      alookup (submit_order (k + 6) e o).1._iceberg_parents o.id = some o ∧
      alookup (submit_order (k + 6) e o).1._iceberg_remaining o.id
        = some (max 0 (o.quantity - min (o.display_quantity.getD 0) o.quantity)) ∧
      alookup (submit_order (k + 6) e o).1._iceberg_child_to_parent (o.id ++ "-slice-" ++ toString e.clock)
        = some o.id ∧
      (∃ bf, alookup (submit_order (k + 6) e o).1.order_books e.default_symbol = some bf ∧
        bf._orders_by_id = book._orders_by_id ++ [o.id ++ "-slice-" ++ toString e.clock] ∧
        OrderBook.get_order (submit_order (k + 6) e o).1.object_store bf (o.id ++ "-slice-" ++ toString e.clock)
          = some (iceberg_child e o o.quantity))) ∧
    (∀ (k : ℕ) (e : MatchingEngine) (cid pid : String) (parent : Order) (book : OrderBook)
      (r : ℚ),
      alookup e._iceberg_child_to_parent cid = some pid →
      alookup e._iceberg_parents pid = some parent →
      alookup e._iceberg_remaining pid = some r →
      0 < r → 0 < min (parent.display_quantity.getD 0) r →
      alookup e.order_books e.default_symbol = some book →
      book.symbol = e.default_symbol →
      parent.symbol.getD e.default_symbol = e.default_symbol →
      book._orders_by_id.contains (parent.id ++ "-slice-" ++ toString e.clock) = false →
      (∀ st bk, OrderBook.add_order e.object_store book (iceberg_child e parent r)
          = .ok (st, bk) →
        (OrderBook.best_bid st bk).2 = none ∨
        (OrderBook.best_ask st (OrderBook.best_bid st bk).1).2 = none ∨
        (∃ bb ba bbp bap, (OrderBook.best_bid st bk).2 = some bb ∧
          (OrderBook.best_ask st (OrderBook.best_bid st bk).1).2 = some ba ∧
          bb.price = some bbp ∧ ba.price = some bap ∧ bbp < bap)) →
      (run (k + 5) e (.onRemoved cid)).2 = none ∧
      alookup (run (k + 5) e (.onRemoved cid)).1._iceberg_remaining pid
        = some (max 0 (r - min (parent.display_quantity.getD 0) r)) ∧
      (∃ bf, alookup (run (k + 5) e (.onRemoved cid)).1.order_books e.default_symbol = some bf ∧
        bf._orders_by_id = book._orders_by_id ++ [parent.id ++ "-slice-" ++ toString e.clock] ∧
        OrderBook.get_order (run (k + 5) e (.onRemoved cid)).1.object_store bf (parent.id ++ "-slice-" ++ toString e.clock)
          = some (iceberg_child e parent r))) := by
  constructor
  · intro k e o book hot hksym hqpos hslice hbook hbs hfresh hrisk hnc
    rcases hT : alookup e.traders (o.trader_id.getD "") with _ | t
    ·
      obtain ⟨bk, hadd, hmem, hbsym, hrun⟩ :=
        spawnChild_spec k ({ e with submit_log := e.submit_log ++ [o], _iceberg_parents := aset e._iceberg_parents o.id o, _iceberg_remaining := aset e._iceberg_remaining o.id o.quantity } : MatchingEngine) o.id o book o.quantity
          (alookup_aset_self _ _ _) (alookup_aset_self _ _ _) hqpos hslice hbook hbs
          hksym hfresh hnc
      have hsub : run (k + 6) e (.submit o) =
          run (k + 4) ({ e with submit_log := e.submit_log ++ [o], _iceberg_parents := aset e._iceberg_parents o.id o, _iceberg_remaining := aset e._iceberg_remaining o.id o.quantity } : MatchingEngine) (.spawnChild o.id) := by
        rw [run.eq_def]
        try dsimp only
        rw [hT]
        try dsimp only
        dsimp only [ebind]
        simp only [MatchingEngine.get_book, MatchingEngine.book_key]
        try dsimp only
        rw [hksym]
        rw [hbook]
        try dsimp only
        rw [hot]
        try dsimp only
        rw [run.eq_def]
        try dsimp only
        try rfl
      unfold submit_order
      rw [hsub, hrun]
      try dsimp only
      simp only [MatchingEngine.set_book]
      try dsimp only
      refine ⟨?_, ?_, ?_, ?_, ?_⟩
      · trivial
      · exact alookup_aset_self _ _ _
      · exact alookup_aset_self _ _ _
      · exact alookup_aset_self _ _ _
      · refine ⟨(OrderBook.best_ask (aset e.object_store (iceberg_child ({ e with submit_log := e.submit_log ++ [o], _iceberg_parents := aset e._iceberg_parents o.id o, _iceberg_remaining := aset e._iceberg_remaining o.id o.quantity } : MatchingEngine) o o.quantity).id (iceberg_child ({ e with submit_log := e.submit_log ++ [o], _iceberg_parents := aset e._iceberg_parents o.id o, _iceberg_remaining := aset e._iceberg_remaining o.id o.quantity } : MatchingEngine) o o.quantity)) (OrderBook.best_bid (aset e.object_store (iceberg_child ({ e with submit_log := e.submit_log ++ [o], _iceberg_parents := aset e._iceberg_parents o.id o, _iceberg_remaining := aset e._iceberg_remaining o.id o.quantity } : MatchingEngine) o o.quantity).id (iceberg_child ({ e with submit_log := e.submit_log ++ [o], _iceberg_parents := aset e._iceberg_parents o.id o, _iceberg_remaining := aset e._iceberg_remaining o.id o.quantity } : MatchingEngine) o o.quantity)) bk).1).1, ?_, ?_, ?_⟩
        · exact alookup_aset_self _ _ _
        · rw [best_ask_members, best_bid_members, hmem]
          try rfl
        · unfold OrderBook.get_order
          try dsimp only
          rw [best_ask_members, best_bid_members, hmem]
          rw [show (iceberg_child ({ e with submit_log := e.submit_log ++ [o], _iceberg_parents := aset e._iceberg_parents o.id o, _iceberg_remaining := aset e._iceberg_remaining o.id o.quantity } : MatchingEngine) o o.quantity).id
            = o.id ++ "-slice-" ++ toString e.clock from rfl]
          rw [if_pos (by simp)]
          exact alookup_aset_self _ _ _
    ·
      have hm2 : o.type ≠ .MARKET := by
        rw [hot]
        decide
      have hv : MatchingEngine.risk_verdict t o (o.price.map (fun p => p * o.quantity))
          = none := by
        rw [hT] at hrisk
        exact hrisk
      obtain ⟨bk, hadd, hmem, hbsym, hrun⟩ :=
        spawnChild_spec k ({ e with submit_log := e.submit_log ++ [o], traders := aset e.traders (o.trader_id.getD "") (t.record_order o.id), _iceberg_parents := aset e._iceberg_parents o.id o, _iceberg_remaining := aset e._iceberg_remaining o.id o.quantity } : MatchingEngine) o.id o book o.quantity
          (alookup_aset_self _ _ _) (alookup_aset_self _ _ _) hqpos hslice hbook hbs
          hksym hfresh hnc
      have hsub : run (k + 6) e (.submit o) =
          run (k + 4) ({ e with submit_log := e.submit_log ++ [o], traders := aset e.traders (o.trader_id.getD "") (t.record_order o.id), _iceberg_parents := aset e._iceberg_parents o.id o, _iceberg_remaining := aset e._iceberg_remaining o.id o.quantity } : MatchingEngine) (.spawnChild o.id) := by
        rw [run.eq_def]
        try dsimp only
        rw [hT]
        try dsimp only
        rw [enforce_risk_non_market _ _ _ hm2]
        try dsimp only
        rw [hv]
        try dsimp only
        rw [hT]
        try dsimp only
        dsimp only [ebind]
        simp only [MatchingEngine.get_book, MatchingEngine.book_key]
        try dsimp only
        rw [hksym]
        rw [hbook]
        try dsimp only
        rw [hot]
        try dsimp only
        rw [run.eq_def]
        try dsimp only
        try rfl
      unfold submit_order
      rw [hsub, hrun]
      try dsimp only
      simp only [MatchingEngine.set_book]
      try dsimp only
      refine ⟨?_, ?_, ?_, ?_, ?_⟩
      · trivial
      · exact alookup_aset_self _ _ _
      · exact alookup_aset_self _ _ _
      · exact alookup_aset_self _ _ _
      · refine ⟨(OrderBook.best_ask (aset e.object_store (iceberg_child ({ e with submit_log := e.submit_log ++ [o], traders := aset e.traders (o.trader_id.getD "") (t.record_order o.id), _iceberg_parents := aset e._iceberg_parents o.id o, _iceberg_remaining := aset e._iceberg_remaining o.id o.quantity } : MatchingEngine) o o.quantity).id (iceberg_child ({ e with submit_log := e.submit_log ++ [o], traders := aset e.traders (o.trader_id.getD "") (t.record_order o.id), _iceberg_parents := aset e._iceberg_parents o.id o, _iceberg_remaining := aset e._iceberg_remaining o.id o.quantity } : MatchingEngine) o o.quantity)) (OrderBook.best_bid (aset e.object_store (iceberg_child ({ e with submit_log := e.submit_log ++ [o], traders := aset e.traders (o.trader_id.getD "") (t.record_order o.id), _iceberg_parents := aset e._iceberg_parents o.id o, _iceberg_remaining := aset e._iceberg_remaining o.id o.quantity } : MatchingEngine) o o.quantity).id (iceberg_child ({ e with submit_log := e.submit_log ++ [o], traders := aset e.traders (o.trader_id.getD "") (t.record_order o.id), _iceberg_parents := aset e._iceberg_parents o.id o, _iceberg_remaining := aset e._iceberg_remaining o.id o.quantity } : MatchingEngine) o o.quantity)) bk).1).1, ?_, ?_, ?_⟩
        · exact alookup_aset_self _ _ _
        · rw [best_ask_members, best_bid_members, hmem]
          try rfl
        · unfold OrderBook.get_order
          try dsimp only
          rw [best_ask_members, best_bid_members, hmem]
          rw [show (iceberg_child ({ e with submit_log := e.submit_log ++ [o], traders := aset e.traders (o.trader_id.getD "") (t.record_order o.id), _iceberg_parents := aset e._iceberg_parents o.id o, _iceberg_remaining := aset e._iceberg_remaining o.id o.quantity } : MatchingEngine) o o.quantity).id
            = o.id ++ "-slice-" ++ toString e.clock from rfl]
          rw [if_pos (by simp)]
          exact alookup_aset_self _ _ _
  · intro k e cid pid parent book r hcp hpar hrem hrpos hslice hbook hbs hpsym hfresh hnc
    obtain ⟨bk, hadd, hmem, hbsym, hrun⟩ :=
      spawnChild_spec k e pid parent book r hpar hrem hrpos hslice hbook hbs hpsym hfresh hnc
    have hred : run (k + 5) e (.onRemoved cid) = run (k + 4) e (.spawnChild pid) := by
      rw [run.eq_def]
      try dsimp only
      rw [hcp]
      try dsimp only
      rw [hpar]
      try dsimp only
      rw [hrem]
      try dsimp only
      simp only [Option.getD_some]
      rw [if_neg (show ¬(r ≤ 0) from not_le.mpr hrpos)]
      try rfl
    rw [hred, hrun]
    try dsimp only
    simp only [MatchingEngine.set_book]
    try dsimp only
    refine ⟨?_, ?_, ?_⟩
    · trivial
    · exact alookup_aset_self _ _ _
    · refine ⟨(OrderBook.best_ask (aset e.object_store (iceberg_child e parent r).id (iceberg_child e parent r)) (OrderBook.best_bid (aset e.object_store (iceberg_child e parent r).id (iceberg_child e parent r)) bk).1).1, ?_, ?_, ?_⟩
      · exact alookup_aset_self _ _ _
      · rw [best_ask_members, best_bid_members, hmem]
        try rfl
      · unfold OrderBook.get_order
        try dsimp only
        rw [best_ask_members, best_bid_members, hmem]
        rw [show (iceberg_child e parent r).id
          = parent.id ++ "-slice-" ++ toString e.clock from rfl]
        rw [if_pos (by simp)]
        exact alookup_aset_self _ _ _

/-- C8 counterexample: an MSFT iceberg in an AAPL-default engine (both
books registered) errors with SymbolMismatch after the parent bookkeeping
ran, and its child `ice2-slice-0` rests in no book. -/
theorem C8_counterexample :
    (submit_order 30 c8x_engine c8x_o).2 = some .symbolMismatch ∧
    alookup (submit_order 30 c8x_engine c8x_o).1._iceberg_parents "ice2" = some c8x_o ∧
    alookup (submit_order 30 c8x_engine c8x_o).1._iceberg_remaining "ice2" = some 3 ∧
    alookup (submit_order 30 c8x_engine c8x_o).1._iceberg_child_to_parent "ice2-slice-0"
      = some "ice2" ∧
    ((submit_order 30 c8x_engine c8x_o).1.order_books.all
      (fun p => ! p.2._orders_by_id.contains "ice2-slice-0")) = true := by
  decide


/-- Witness for C8 at concrete scenarios: the default-symbol iceberg
`ice4` submitted into the fresh AAPL book, and a respawn after removing
child `ice3-slice-0` of parent `ice3` with remaining 3. -/
theorem C8_iceberg_spawn_witness :
    ((submit_order 30 (fifo_engine.register_trader plain_trader) c8s_o).2 = none ∧
      alookup (submit_order 30 (fifo_engine.register_trader plain_trader) c8s_o).1._iceberg_parents c8s_o.id = some c8s_o ∧
      alookup (submit_order 30 (fifo_engine.register_trader plain_trader) c8s_o).1._iceberg_remaining c8s_o.id
        = some (max 0 (c8s_o.quantity - min (c8s_o.display_quantity.getD 0) c8s_o.quantity)) ∧
      alookup (submit_order 30 (fifo_engine.register_trader plain_trader) c8s_o).1._iceberg_child_to_parent
        (c8s_o.id ++ "-slice-" ++ toString (fifo_engine.register_trader plain_trader).clock) = some c8s_o.id ∧
      (∃ bf, alookup (submit_order 30 (fifo_engine.register_trader plain_trader) c8s_o).1.order_books (fifo_engine.register_trader plain_trader).default_symbol = some bf ∧
        bf._orders_by_id = aapl_book._orders_by_id
          ++ [c8s_o.id ++ "-slice-" ++ toString (fifo_engine.register_trader plain_trader).clock] ∧
        OrderBook.get_order (submit_order 30 (fifo_engine.register_trader plain_trader) c8s_o).1.object_store bf
          (c8s_o.id ++ "-slice-" ++ toString (fifo_engine.register_trader plain_trader).clock)
          = some (iceberg_child (fifo_engine.register_trader plain_trader) c8s_o c8s_o.quantity))) ∧
    ((run 29 c8w_engine (.onRemoved "ice3-slice-0")).2 = none ∧
      alookup (run 29 c8w_engine (.onRemoved "ice3-slice-0")).1._iceberg_remaining "ice3"
        = some (max 0 (3 - min (c8w_parent.display_quantity.getD 0) 3)) ∧
      (∃ bf, alookup (run 29 c8w_engine (.onRemoved "ice3-slice-0")).1.order_books c8w_engine.default_symbol = some bf ∧
        bf._orders_by_id = aapl_book._orders_by_id
          ++ [c8w_parent.id ++ "-slice-" ++ toString c8w_engine.clock] ∧
        OrderBook.get_order (run 29 c8w_engine (.onRemoved "ice3-slice-0")).1.object_store bf
          (c8w_parent.id ++ "-slice-" ++ toString c8w_engine.clock)
          = some (iceberg_child c8w_engine c8w_parent 3))) :=
  ⟨C8_iceberg_spawn.1 24 (fifo_engine.register_trader plain_trader) c8s_o aapl_book
      (by decide) (by decide) (by decide) (by decide) (by decide) (by decide) (by decide)
      (by
        show MatchingEngine.risk_verdict plain_trader c8s_o
          (c8s_o.price.map (fun p => p * c8s_o.quantity)) = none
        decide)
      (by
        intro st bk h
        injection h with h1
        injection h1 with ha hb
        subst ha
        subst hb
        right
        left
        decide),
    C8_iceberg_spawn.2 24 c8w_engine "ice3-slice-0" "ice3" c8w_parent aapl_book 3
      (by decide) (by decide) (by decide) (by decide) (by decide) (by decide) (by decide)
      (by decide) (by decide)
      (by
        intro st bk h
        injection h with h1
        injection h1 with ha hb
        subst ha
        subst hb
        right
        left
        decide)⟩

end TradingSim
